import Mathlib

/-!
# Unnamed Renderer (DX12): resource barriers and the frame cadence of the event loop

A shallow embedding of the command recording and of the event loop of
`wWinMain` in `Unnamed Renderer (DX12).cpp`, together with the helpers of
`DirectXStuff.hpp` that the loop relies on.

* Part 1 embeds the transition barrier descriptors, the four command
  sequences the loop records (render-pass 1, 2, 3 and Present) and the
  bookkeeping of logical resource states.
* Part 2 embeds the event loop itself as a step function on the loop
  variables, with the actions it performs collected in a trace.
-/

namespace UnnamedRenderer

/-! ## Part 1: resources, barriers and command sequences -/

/-- The `D3D12_RESOURCE_STATES` flags, as the numbers `d3d12.h` gives them. -/
abbrev D3D12_RESOURCE_STATES := Nat

/-- Value `0` of `d3d12.h` (the same number as `D3D12_RESOURCE_STATE_COMMON`). -/
def D3D12_RESOURCE_STATE_PRESENT : D3D12_RESOURCE_STATES := 0

/-- Value `0x8` of `d3d12.h`. -/
def D3D12_RESOURCE_STATE_UNORDERED_ACCESS : D3D12_RESOURCE_STATES := 0x8

/-- Value `0x400` of `d3d12.h`. -/
def D3D12_RESOURCE_STATE_COPY_DEST : D3D12_RESOURCE_STATES := 0x400

/-- Value `0x800` of `d3d12.h`. -/
def D3D12_RESOURCE_STATE_COPY_SOURCE : D3D12_RESOURCE_STATES := 0x800

/-- Value `0` of `d3d12.h`: the barrier type of a state transition. -/
def D3D12_RESOURCE_BARRIER_TYPE_TRANSITION : Nat := 0

/-- `const uint SwapChainBackBufferCount{ 2u }` (line 1123). -/
abbrev SwapChainBackBufferCount : Nat := 2

/-- The GPU resources `wWinMain` allocates (lines 561-849) and the swap-chain
back buffers it acquires (lines 1130-1158), named as in the source. -/
inductive Resource where
  | L0SpheresBuffer
  | L1SpheresBuffer
  | L0RectanglesBuffer
  | L1RectanglesBuffer
  | L0TrianglesBuffer
  | L1TrianglesBuffer
  | L0ChaosTexelsBuffer
  | L1ChaosTexels3DTexture
  | L1IntersectionMap013DTexture
  | L1IntersectionMap023DTexture
  | L1IntersectionMap033DTexture
  | L1AccumulationFrame2DTexture
  | L0FinalFrameBuffer
  | L1FinalFrame2DTexture
  | SwapChainBackBuffers (i : Fin SwapChainBackBufferCount)
  deriving DecidableEq, Repr

/-- The memory pool a resource is allocated from (`MemoryPool` of its config);
the swap-chain back buffers are owned by the swap chain. -/
inductive MemoryPool where
  | D3D12_MEMORY_POOL_L0
  | D3D12_MEMORY_POOL_L1
  | SwapChainOwned
  deriving DecidableEq, Repr

/-- The `MemoryPool` each resource config names (lines 566-821). -/
def Resource.pool : Resource → MemoryPool
  | .L0SpheresBuffer => .D3D12_MEMORY_POOL_L0
  | .L1SpheresBuffer => .D3D12_MEMORY_POOL_L1
  | .L0RectanglesBuffer => .D3D12_MEMORY_POOL_L0
  | .L1RectanglesBuffer => .D3D12_MEMORY_POOL_L1
  | .L0TrianglesBuffer => .D3D12_MEMORY_POOL_L0
  | .L1TrianglesBuffer => .D3D12_MEMORY_POOL_L1
  | .L0ChaosTexelsBuffer => .D3D12_MEMORY_POOL_L0
  | .L1ChaosTexels3DTexture => .D3D12_MEMORY_POOL_L1
  | .L1IntersectionMap013DTexture => .D3D12_MEMORY_POOL_L1
  | .L1IntersectionMap023DTexture => .D3D12_MEMORY_POOL_L1
  | .L1IntersectionMap033DTexture => .D3D12_MEMORY_POOL_L1
  | .L1AccumulationFrame2DTexture => .D3D12_MEMORY_POOL_L1
  | .L0FinalFrameBuffer => .D3D12_MEMORY_POOL_L0
  | .L1FinalFrame2DTexture => .D3D12_MEMORY_POOL_L1
  | .SwapChainBackBuffers _ => .SwapChainOwned

/-- The `InitialResourceState` each resource is allocated with (lines 565-822).
The back buffers are created by the swap chain, which hands them out in the
PRESENT state the precomputed barriers of lines 1160-1172 start from. -/
def InitialResourceState : Resource → D3D12_RESOURCE_STATES
  | .L0SpheresBuffer => D3D12_RESOURCE_STATE_COPY_DEST
  | .L1SpheresBuffer => D3D12_RESOURCE_STATE_UNORDERED_ACCESS
  | .L0RectanglesBuffer => D3D12_RESOURCE_STATE_COPY_DEST
  | .L1RectanglesBuffer => D3D12_RESOURCE_STATE_UNORDERED_ACCESS
  | .L0TrianglesBuffer => D3D12_RESOURCE_STATE_COPY_DEST
  | .L1TrianglesBuffer => D3D12_RESOURCE_STATE_UNORDERED_ACCESS
  | .L0ChaosTexelsBuffer => D3D12_RESOURCE_STATE_COPY_DEST
  | .L1ChaosTexels3DTexture => D3D12_RESOURCE_STATE_UNORDERED_ACCESS
  | .L1IntersectionMap013DTexture => D3D12_RESOURCE_STATE_UNORDERED_ACCESS
  | .L1IntersectionMap023DTexture => D3D12_RESOURCE_STATE_UNORDERED_ACCESS
  | .L1IntersectionMap033DTexture => D3D12_RESOURCE_STATE_UNORDERED_ACCESS
  | .L1AccumulationFrame2DTexture => D3D12_RESOURCE_STATE_UNORDERED_ACCESS
  | .L0FinalFrameBuffer => D3D12_RESOURCE_STATE_COPY_DEST
  | .L1FinalFrame2DTexture => D3D12_RESOURCE_STATE_UNORDERED_ACCESS
  | .SwapChainBackBuffers _ => D3D12_RESOURCE_STATE_PRESENT

/-- The transition part of `D3D12_RESOURCE_BARRIER`, with the fields
`CreateResourceTransitionBarrier` fills in. -/
structure D3D12_RESOURCE_BARRIER where
  BarrierType : Nat
  pResource : Resource
  Subresource : Nat
  StateBefore : D3D12_RESOURCE_STATES
  StateAfter : D3D12_RESOURCE_STATES
  deriving DecidableEq, Repr

/-- `DirectXStuff::CreateResourceTransitionBarrier` (DirectXStuff.hpp 139-149),
called with the default `SubResource = 0u` everywhere in the program: it fills
in the descriptor and compares nothing. -/
def CreateResourceTransitionBarrier (pResource : Resource)
    (StateBefore StateAfter : D3D12_RESOURCE_STATES) : D3D12_RESOURCE_BARRIER :=
  { BarrierType := D3D12_RESOURCE_BARRIER_TYPE_TRANSITION
    pResource := pResource
    Subresource := 0
    StateBefore := StateBefore
    StateAfter := StateAfter }

/-! ### The precomputed barrier descriptors (lines 571-844 and 1160-1172) -/

def L0SpheresBufferCopyDestToCopySource : D3D12_RESOURCE_BARRIER :=
  CreateResourceTransitionBarrier .L0SpheresBuffer
    D3D12_RESOURCE_STATE_COPY_DEST D3D12_RESOURCE_STATE_COPY_SOURCE

def L0SpheresBufferCopySourceToCopyDest : D3D12_RESOURCE_BARRIER :=
  CreateResourceTransitionBarrier .L0SpheresBuffer
    D3D12_RESOURCE_STATE_COPY_SOURCE D3D12_RESOURCE_STATE_COPY_DEST

def L1SpheresBufferCopyDestToUnorderedAccess : D3D12_RESOURCE_BARRIER :=
  CreateResourceTransitionBarrier .L1SpheresBuffer
    D3D12_RESOURCE_STATE_COPY_DEST D3D12_RESOURCE_STATE_UNORDERED_ACCESS

def L1SpheresBufferUnorderedAccessToCopyDest : D3D12_RESOURCE_BARRIER :=
  CreateResourceTransitionBarrier .L1SpheresBuffer
    D3D12_RESOURCE_STATE_UNORDERED_ACCESS D3D12_RESOURCE_STATE_COPY_DEST

def L0RectanglesBufferCopyDestToCopySource : D3D12_RESOURCE_BARRIER :=
  CreateResourceTransitionBarrier .L0RectanglesBuffer
    D3D12_RESOURCE_STATE_COPY_DEST D3D12_RESOURCE_STATE_COPY_SOURCE

def L0RectanglesBufferCopySourceToCopyDest : D3D12_RESOURCE_BARRIER :=
  CreateResourceTransitionBarrier .L0RectanglesBuffer
    D3D12_RESOURCE_STATE_COPY_SOURCE D3D12_RESOURCE_STATE_COPY_DEST

def L1RectanglesBufferCopyDestToUnorderedAccess : D3D12_RESOURCE_BARRIER :=
  CreateResourceTransitionBarrier .L1RectanglesBuffer
    D3D12_RESOURCE_STATE_COPY_DEST D3D12_RESOURCE_STATE_UNORDERED_ACCESS

def L1RectanglesBufferUnorderedAccessToCopyDest : D3D12_RESOURCE_BARRIER :=
  CreateResourceTransitionBarrier .L1RectanglesBuffer
    D3D12_RESOURCE_STATE_UNORDERED_ACCESS D3D12_RESOURCE_STATE_COPY_DEST

def L0TrianglesBufferCopyDestToCopySource : D3D12_RESOURCE_BARRIER :=
  CreateResourceTransitionBarrier .L0TrianglesBuffer
    D3D12_RESOURCE_STATE_COPY_DEST D3D12_RESOURCE_STATE_COPY_SOURCE

def L0TrianglesBufferCopySourceToCopyDest : D3D12_RESOURCE_BARRIER :=
  CreateResourceTransitionBarrier .L0TrianglesBuffer
    D3D12_RESOURCE_STATE_COPY_SOURCE D3D12_RESOURCE_STATE_COPY_DEST

def L1TrianglesBufferCopyDestToUnorderedAccess : D3D12_RESOURCE_BARRIER :=
  CreateResourceTransitionBarrier .L1TrianglesBuffer
    D3D12_RESOURCE_STATE_COPY_DEST D3D12_RESOURCE_STATE_UNORDERED_ACCESS

def L1TrianglesBufferUnorderedAccessToCopyDest : D3D12_RESOURCE_BARRIER :=
  CreateResourceTransitionBarrier .L1TrianglesBuffer
    D3D12_RESOURCE_STATE_UNORDERED_ACCESS D3D12_RESOURCE_STATE_COPY_DEST

def L0ChaosTexelsBufferCopyDestToCopySource : D3D12_RESOURCE_BARRIER :=
  CreateResourceTransitionBarrier .L0ChaosTexelsBuffer
    D3D12_RESOURCE_STATE_COPY_DEST D3D12_RESOURCE_STATE_COPY_SOURCE

def L0ChaosTexelsBufferCopySourceToCopyDest : D3D12_RESOURCE_BARRIER :=
  CreateResourceTransitionBarrier .L0ChaosTexelsBuffer
    D3D12_RESOURCE_STATE_COPY_SOURCE D3D12_RESOURCE_STATE_COPY_DEST

def L1ChaosTexels3DTextureCopyDestToUnorderedAccess : D3D12_RESOURCE_BARRIER :=
  CreateResourceTransitionBarrier .L1ChaosTexels3DTexture
    D3D12_RESOURCE_STATE_COPY_DEST D3D12_RESOURCE_STATE_UNORDERED_ACCESS

def L1ChaosTexels3DTextureUnorderedAccessToCopyDest : D3D12_RESOURCE_BARRIER :=
  CreateResourceTransitionBarrier .L1ChaosTexels3DTexture
    D3D12_RESOURCE_STATE_UNORDERED_ACCESS D3D12_RESOURCE_STATE_COPY_DEST

def L0FinalFrameBufferCopyDestToCopySource : D3D12_RESOURCE_BARRIER :=
  CreateResourceTransitionBarrier .L0FinalFrameBuffer
    D3D12_RESOURCE_STATE_COPY_DEST D3D12_RESOURCE_STATE_COPY_SOURCE

def L0FinalFrameBufferCopySourceToCopyDest : D3D12_RESOURCE_BARRIER :=
  CreateResourceTransitionBarrier .L0FinalFrameBuffer
    D3D12_RESOURCE_STATE_COPY_SOURCE D3D12_RESOURCE_STATE_COPY_DEST

def L1FinalFrame2DTextureUnorderedAccessToCopySource : D3D12_RESOURCE_BARRIER :=
  CreateResourceTransitionBarrier .L1FinalFrame2DTexture
    D3D12_RESOURCE_STATE_UNORDERED_ACCESS D3D12_RESOURCE_STATE_COPY_SOURCE

def L1FinalFrame2DTextureCopySourceToUnorderedAccess : D3D12_RESOURCE_BARRIER :=
  CreateResourceTransitionBarrier .L1FinalFrame2DTexture
    D3D12_RESOURCE_STATE_COPY_SOURCE D3D12_RESOURCE_STATE_UNORDERED_ACCESS

def L1FinalFrame2DTextureUnorderedAccessToCopyDest : D3D12_RESOURCE_BARRIER :=
  CreateResourceTransitionBarrier .L1FinalFrame2DTexture
    D3D12_RESOURCE_STATE_UNORDERED_ACCESS D3D12_RESOURCE_STATE_COPY_DEST

def L1FinalFrame2DTextureCopyDestToCopySource : D3D12_RESOURCE_BARRIER :=
  CreateResourceTransitionBarrier .L1FinalFrame2DTexture
    D3D12_RESOURCE_STATE_COPY_DEST D3D12_RESOURCE_STATE_COPY_SOURCE

/-- The array filled by the loop of lines 1162-1165. -/
def SwapChainBackBufferPresentToCopyDestBarriers (i : Fin SwapChainBackBufferCount) :
    D3D12_RESOURCE_BARRIER :=
  CreateResourceTransitionBarrier (.SwapChainBackBuffers i)
    D3D12_RESOURCE_STATE_PRESENT D3D12_RESOURCE_STATE_COPY_DEST

/-- The array filled by the loop of lines 1169-1172. -/
def SwapChainBackBufferCopyDestToPresentBarriers (i : Fin SwapChainBackBufferCount) :
    D3D12_RESOURCE_BARRIER :=
  CreateResourceTransitionBarrier (.SwapChainBackBuffers i)
    D3D12_RESOURCE_STATE_COPY_DEST D3D12_RESOURCE_STATE_PRESENT

/-- Every transition barrier descriptor the program constructs, in source order. -/
def constructedBarriers : List D3D12_RESOURCE_BARRIER :=
  [ L0SpheresBufferCopyDestToCopySource, L0SpheresBufferCopySourceToCopyDest,
    L1SpheresBufferCopyDestToUnorderedAccess, L1SpheresBufferUnorderedAccessToCopyDest,
    L0RectanglesBufferCopyDestToCopySource, L0RectanglesBufferCopySourceToCopyDest,
    L1RectanglesBufferCopyDestToUnorderedAccess, L1RectanglesBufferUnorderedAccessToCopyDest,
    L0TrianglesBufferCopyDestToCopySource, L0TrianglesBufferCopySourceToCopyDest,
    L1TrianglesBufferCopyDestToUnorderedAccess, L1TrianglesBufferUnorderedAccessToCopyDest,
    L0ChaosTexelsBufferCopyDestToCopySource, L0ChaosTexelsBufferCopySourceToCopyDest,
    L1ChaosTexels3DTextureCopyDestToUnorderedAccess,
    L1ChaosTexels3DTextureUnorderedAccessToCopyDest,
    L0FinalFrameBufferCopyDestToCopySource, L0FinalFrameBufferCopySourceToCopyDest,
    L1FinalFrame2DTextureUnorderedAccessToCopySource,
    L1FinalFrame2DTextureCopySourceToUnorderedAccess,
    L1FinalFrame2DTextureUnorderedAccessToCopyDest,
    L1FinalFrame2DTextureCopyDestToCopySource,
    SwapChainBackBufferPresentToCopyDestBarriers 0,
    SwapChainBackBufferPresentToCopyDestBarriers 1,
    SwapChainBackBufferCopyDestToPresentBarriers 0,
    SwapChainBackBufferCopyDestToPresentBarriers 1 ]

/-- The three compute pipeline states the command lists select. -/
inductive PipelineState where
  | RP1PipelineState
  | RP2PipelineState
  | RP3PipelineState
  deriving DecidableEq, Repr

/-- The `ID3D12GraphicsCommandList` calls the loop records. -/
inductive Command where
  | ResourceBarrier (pBarriers : D3D12_RESOURCE_BARRIER)
  | CopyResource (pDstResource pSrcResource : Resource)
  | CopyTextureRegion (pDst pSrc : Resource)
  | SetComputeRootSignature
  | SetDescriptorHeaps
  | SetComputeRootDescriptorTable
  | SetComputeRoot32BitConstants
  | SetPipelineState (pPipelineState : PipelineState)
  | Dispatch
  deriving DecidableEq, Repr

open Command Resource in
/-- Render-pass 1 as recorded at lines 1352-1404. -/
def RenderPass1Commands : List Command :=
  [ ResourceBarrier L0SpheresBufferCopyDestToCopySource,
    ResourceBarrier L1SpheresBufferUnorderedAccessToCopyDest,
    CopyResource L1SpheresBuffer L0SpheresBuffer,
    ResourceBarrier L0SpheresBufferCopySourceToCopyDest,
    ResourceBarrier L1SpheresBufferCopyDestToUnorderedAccess,
    ResourceBarrier L0RectanglesBufferCopyDestToCopySource,
    ResourceBarrier L1RectanglesBufferUnorderedAccessToCopyDest,
    CopyResource L1RectanglesBuffer L0RectanglesBuffer,
    ResourceBarrier L0RectanglesBufferCopySourceToCopyDest,
    ResourceBarrier L1RectanglesBufferCopyDestToUnorderedAccess,
    ResourceBarrier L0TrianglesBufferCopyDestToCopySource,
    ResourceBarrier L1TrianglesBufferUnorderedAccessToCopyDest,
    CopyResource L1TrianglesBuffer L0TrianglesBuffer,
    ResourceBarrier L0TrianglesBufferCopySourceToCopyDest,
    ResourceBarrier L1TrianglesBufferCopyDestToUnorderedAccess,
    ResourceBarrier L0ChaosTexelsBufferCopyDestToCopySource,
    ResourceBarrier L1ChaosTexels3DTextureUnorderedAccessToCopyDest,
    CopyTextureRegion L1ChaosTexels3DTexture L0ChaosTexelsBuffer,
    ResourceBarrier L0ChaosTexelsBufferCopySourceToCopyDest,
    ResourceBarrier L1ChaosTexels3DTextureCopyDestToUnorderedAccess,
    SetComputeRootSignature,
    SetDescriptorHeaps,
    SetComputeRootDescriptorTable,
    SetComputeRoot32BitConstants,
    SetPipelineState .RP1PipelineState,
    Dispatch ]

open Command in
/-- Render-pass 2 as recorded at lines 1419-1430. -/
def RenderPass2Commands : List Command :=
  [ SetComputeRootSignature,
    SetDescriptorHeaps,
    SetComputeRootDescriptorTable,
    SetComputeRoot32BitConstants,
    SetPipelineState .RP2PipelineState,
    Dispatch ]

open Command Resource in
/-- Render-pass 3 as recorded at lines 1447-1469. -/
def RenderPass3Commands : List Command :=
  [ SetComputeRootSignature,
    SetDescriptorHeaps,
    SetComputeRootDescriptorTable,
    SetComputeRoot32BitConstants,
    SetPipelineState .RP3PipelineState,
    Dispatch,
    ResourceBarrier L1FinalFrame2DTextureUnorderedAccessToCopySource,
    CopyTextureRegion L0FinalFrameBuffer L1FinalFrame2DTexture,
    ResourceBarrier L1FinalFrame2DTextureCopySourceToUnorderedAccess,
    ResourceBarrier L0FinalFrameBufferCopyDestToCopySource,
    ResourceBarrier L0FinalFrameBufferCopySourceToCopyDest ]

open Command Resource in
/-- The present sequence as recorded at lines 1516-1535, for the back buffer
index `GetCurrentBackBufferIndex` returned. -/
def PresentCommands (CurrentBackBufferIndex : Fin SwapChainBackBufferCount) : List Command :=
  [ ResourceBarrier L0FinalFrameBufferCopyDestToCopySource,
    ResourceBarrier L1FinalFrame2DTextureUnorderedAccessToCopyDest,
    CopyTextureRegion L1FinalFrame2DTexture L0FinalFrameBuffer,
    ResourceBarrier L0FinalFrameBufferCopySourceToCopyDest,
    ResourceBarrier L1FinalFrame2DTextureCopyDestToCopySource,
    ResourceBarrier (SwapChainBackBufferPresentToCopyDestBarriers CurrentBackBufferIndex),
    CopyResource (SwapChainBackBuffers CurrentBackBufferIndex) L1FinalFrame2DTexture,
    ResourceBarrier L1FinalFrame2DTextureCopySourceToUnorderedAccess,
    ResourceBarrier (SwapChainBackBufferCopyDestToPresentBarriers CurrentBackBufferIndex) ]

/-- The nine resources of the global descriptor table, in heap order
(comment block of lines 854-865 and the views created at lines 866-1025). -/
def descriptorTable : List Resource :=
  [ .L1SpheresBuffer, .L1RectanglesBuffer, .L1TrianglesBuffer, .L1ChaosTexels3DTexture,
    .L1IntersectionMap013DTexture, .L1IntersectionMap023DTexture,
    .L1IntersectionMap033DTexture, .L1AccumulationFrame2DTexture, .L1FinalFrame2DTexture ]

/-! ### Logical resource states -/

/-- The logical state of every resource. -/
abbrev ResourceStates := Resource → D3D12_RESOURCE_STATES

/-- A recorded transition barrier leaves its resource in `StateAfter`. -/
def applyBarrier (σ : ResourceStates) (b : D3D12_RESOURCE_BARRIER) : ResourceStates :=
  fun r => if r = b.pResource then b.StateAfter else σ r

/-- Only barriers change the logical state. -/
def applyCommand (σ : ResourceStates) : Command → ResourceStates
  | .ResourceBarrier b => applyBarrier σ b
  | _ => σ

/-- The logical states after a run of recorded commands. -/
def trackStates (σ : ResourceStates) : List Command → ResourceStates
  | [] => σ
  | c :: cs => trackStates (applyCommand σ c) cs

/-- The state each GPU operation needs its resources in: a copy reads its
source in COPY_SOURCE and writes its destination in COPY_DEST, a dispatch
accesses every resource of the descriptor table as an unordered-access view. -/
def requiredStates : Command → List (Resource × D3D12_RESOURCE_STATES)
  | .CopyResource dst src =>
      [(src, D3D12_RESOURCE_STATE_COPY_SOURCE), (dst, D3D12_RESOURCE_STATE_COPY_DEST)]
  | .CopyTextureRegion dst src =>
      [(src, D3D12_RESOURCE_STATE_COPY_SOURCE), (dst, D3D12_RESOURCE_STATE_COPY_DEST)]
  | .Dispatch => descriptorTable.map (fun r => (r, D3D12_RESOURCE_STATE_UNORDERED_ACCESS))
  | _ => []

/-- The command finds every resource it operates on in the state it needs. -/
def commandInRequiredState (σ : ResourceStates) (c : Command) : Bool :=
  (requiredStates c).all (fun p => σ p.1 == p.2)

/-- Every operation of the sequence is recorded while its resources are in the
required state, the states being tracked through the barriers recorded so far. -/
def operationsInRequiredState (σ : ResourceStates) : List Command → Bool
  | [] => true
  | c :: cs => commandInRequiredState σ c && operationsInRequiredState (applyCommand σ c) cs

/-- Every barrier of the sequence names as `StateBefore` the logical state its
resource is in when the barrier is recorded. -/
def barriersMatchStates (σ : ResourceStates) : List Command → Bool
  | [] => true
  | .ResourceBarrier b :: cs =>
      (σ b.pResource == b.StateBefore) && barriersMatchStates (applyBarrier σ b) cs
  | _ :: cs => barriersMatchStates σ cs

/-- The states every command sequence of the loop starts from: upload buffers in
COPY_DEST, device-local resources in UNORDERED_ACCESS, the current back buffer
in PRESENT. -/
def StableStates (CurrentBackBufferIndex : Fin SwapChainBackBufferCount)
    (σ : ResourceStates) : Prop :=
  (∀ r, r.pool = .D3D12_MEMORY_POOL_L0 → σ r = D3D12_RESOURCE_STATE_COPY_DEST) ∧
  (∀ r, r.pool = .D3D12_MEMORY_POOL_L1 → σ r = D3D12_RESOURCE_STATE_UNORDERED_ACCESS) ∧
  σ (.SwapChainBackBuffers CurrentBackBufferIndex) = D3D12_RESOURCE_STATE_PRESENT

/-- The program's way of moving resource `r` into state `s`: build the
descriptor with `CreateResourceTransitionBarrier`, naming the state the
resource is in as `StateBefore`, and record it with
`ResourceBarrier(1u, &descriptor)`. Returns the logical states and the command
list after the call. -/
def recordTransition (σ : ResourceStates) (cmds : List Command) (r : Resource)
    (s : D3D12_RESOURCE_STATES) : ResourceStates × List Command :=
  let b := CreateResourceTransitionBarrier r (σ r) s
  (applyBarrier σ b, cmds ++ [Command.ResourceBarrier b])

/-- The transition descriptors a command list holds, in recording order. -/
def recordedBarriers : List Command → List D3D12_RESOURCE_BARRIER
  | [] => []
  | .ResourceBarrier b :: cs => b :: recordedBarriers cs
  | _ :: cs => recordedBarriers cs

/-- Whether the commands after a barrier that moved resource `r` into state `S`
use `r` in state `S` before the next barrier on `r`. A barrier that is the last
one on `r` in its sequence has no next barrier to come before. -/
def usedBeforeNextBarrier (r : Resource) (S : D3D12_RESOURCE_STATES) : List Command → Bool
  | [] => true
  | .ResourceBarrier b :: cs =>
      if b.pResource = r then false else usedBeforeNextBarrier r S cs
  | c :: cs =>
      if (r, S) ∈ requiredStates c then true else usedBeforeNextBarrier r S cs

/-- Every barrier of the sequence is followed, before the next barrier on the
same resource, by an operation using the resource in the barrier's `StateAfter`. -/
def transitionsMinimal : List Command → Bool
  | [] => true
  | .ResourceBarrier b :: cs =>
      usedBeforeNextBarrier b.pResource b.StateAfter cs && transitionsMinimal cs
  | _ :: cs => transitionsMinimal cs

/-- The commands of a sequence that touch resource `r`: its barriers and the
operations that need it in some state. -/
def commandsOn (r : Resource) (cmds : List Command) : List Command :=
  cmds.filter (fun c =>
    match c with
    | .ResourceBarrier b => decide (b.pResource = r)
    | c => (requiredStates c).any (fun p => decide (p.1 = r)))

/-! ## Part 2: the event loop (lines 1186-1551) -/

/-- The conversion `( __int32 )x` of a 32-bit unsigned value. -/
def toInt32 (x : Nat) : Int :=
  if x % 2 ^ 32 < 2 ^ 31 then ((x % 2 ^ 32 : Nat) : Int) else ((x % 2 ^ 32 : Nat) : Int) - 2 ^ 32

/-- The constants the loop compares its counters with. The two `__int32`
indices of the loop are compared with and incremented up to these bounds only,
so for bounds within the `__int32` range their increments never overflow and
are modelled as integer increments. -/
structure LoopConstants where
  /-- `InlineRootConstants.MaxSampleIndex`, a `uint` (line 146). -/
  MaxSampleIndex : Nat
  /-- `const __int32 MaxRenderIndex` (line 1189). -/
  MaxRenderIndex : Int
  /-- `const __int32 MaxPresentIndex` (line 1193). -/
  MaxPresentIndex : Int

/-- The loop constants for a frame count and a maximal sample index:
`MaxRenderIndex{ ( __int32 )FinalFrameCount - 1 }` and
`MaxPresentIndex{ ( __int32 )FinalFrameCount - 1 }` (lines 1189, 1193). -/
def loopConstants (FinalFrameCount MaxSampleIndex : Nat) : LoopConstants :=
  { MaxSampleIndex := MaxSampleIndex
    MaxRenderIndex := toInt32 FinalFrameCount - 1
    MaxPresentIndex := toInt32 FinalFrameCount - 1 }

/-- `const uint FramesPerSecond{ 2u }` (line 105). -/
def FramesPerSecond : Nat := 2

/-- `const uint SecondsToRender{ 1u }` (line 104). -/
def SecondsToRender : Nat := 1

/-- `const uint FinalFrameCount{ FramesPerSecond * SecondsToRender }` (line 106). -/
def FinalFrameCount : Nat := (FramesPerSecond * SecondsToRender) % 2 ^ 32

/-- `const uint SamplesPerPixel{ 3000u }` (line 107). -/
def SamplesPerPixel : Nat := 3000

/-- `InlineRootConstants.MaxSampleIndex = SamplesPerPixel - 1u` (line 172), in
32-bit unsigned arithmetic. -/
def MaxSampleIndexOf (SamplesPerPixel : Nat) : Nat :=
  (SamplesPerPixel + 2 ^ 32 - 1) % 2 ^ 32

/-- The loop constants of the program as configured. -/
def configuredConstants : LoopConstants :=
  loopConstants FinalFrameCount (MaxSampleIndexOf SamplesPerPixel)

/-- The four command lists the loop submits. -/
inductive CommandList where
  | RP1GraphicsCommandList
  | RP2GraphicsCommandList
  | RP3GraphicsCommandList
  | PresentGraphicsCommandList
  deriving DecidableEq, Repr

/-- What a host final-frame buffer holds: the colour it was filled with at
startup (lines 777-788), or a frame read back from the GPU. -/
inductive FrameContents where
  | InitialColor (slot : Int)
  | Rendered (pixels : Nat)
  deriving DecidableEq, Repr

/-- What one loop iteration does, in program order. -/
inductive Action where
  /-- Lines 1226-1328: the tick is set from `CurrentRenderIndex`, the scene is
  interpolated and copied to the upload buffers. -/
  | InterpolateGeometry (CurrentRenderIndex : Int)
  /-- Lines 1333-1344: new chaos texels are generated and copied. -/
  | RefreshChaosTexels
  /-- `CommandQueue->ExecuteCommandLists(1u, &list)` with the commands recorded. -/
  | ExecuteCommandLists (list : CommandList) (cmds : List Command)
  /-- `Fence.FlushCommandQueue(...)`. -/
  | FlushCommandQueue
  /-- Lines 1479-1484: `memcpy_s` into `HostFinalFrameBuffers[CurrentRenderIndex]`. -/
  | StoreFinalFrame (CurrentRenderIndex : Int)
  /-- Lines 1503-1508: `memcpy_s` from `HostFinalFrameBuffers[CurrentPresentIndex]`. -/
  | LoadFinalFrame (CurrentPresentIndex : Int)
  /-- `SwapChain->Present(1u, NULL)` (line 1541). -/
  | SwapChainPresent
  deriving DecidableEq, Repr

/-- What the loop reads from outside in one iteration. -/
structure LoopInput where
  /-- `IsWindowVisible(TheatreWindow.ReportWindowHandle())` (line 1211). -/
  WindowVisible : Bool
  /-- `MessageStruct.message == WM_LBUTTONUP` after the message pump (line 1216). -/
  LeftButtonUp : Bool
  /-- `SwapChain->GetCurrentBackBufferIndex()` (line 1527). -/
  BackBufferIndex : Fin SwapChainBackBufferCount
  /-- The pixels render-pass 3 leaves in `L0FinalFrameBuffer`. -/
  FinalFramePixels : Nat

/-- The variables the loop carries from one iteration to the next. -/
structure LoopState where
  /-- `InlineRootConstants.CurrentSampleIndex`, a `uint`. -/
  CurrentSampleIndex : Nat
  /-- `__int32 CurrentRenderIndex` (line 1190). -/
  CurrentRenderIndex : Int
  /-- `bool CurrentlyRendering` (line 1191). -/
  CurrentlyRendering : Bool
  /-- `__int32 CurrentPresentIndex` (line 1194). -/
  CurrentPresentIndex : Int
  /-- `bool CurrentlyPresenting` (line 1195). -/
  CurrentlyPresenting : Bool
  /-- The render index the scene objects were last interpolated from (through
  `GlobalTickInRadians`); `none` while they hold their startup values. -/
  GeometryRenderIndex : Option Int
  /-- The ring `HostFinalFrameBuffers[...]` (line 784). -/
  HostFinalFrameBuffers : Int → FrameContents
  /-- Everything the loop has done so far, oldest first. -/
  Trace : List Action

/-- The loop variables when the loop is entered (lines 173, 1189-1195). -/
def startup : LoopState :=
  { CurrentSampleIndex := 0
    CurrentRenderIndex := 0
    CurrentlyRendering := false
    CurrentPresentIndex := 0
    CurrentlyPresenting := true
    GeometryRenderIndex := none
    HostFinalFrameBuffers := fun i => FrameContents.InitialColor i
    Trace := [] }

/-- Lines 1216-1220: rendering activation. -/
def renderingActivation (inp : LoopInput) (s : LoopState) : LoopState :=
  if inp.LeftButtonUp = true then
    { s with CurrentlyPresenting := false, CurrentRenderIndex := 0, CurrentlyRendering := true }
  else s

/-- Lines 1224-1329: on the first sample of a frame the scene is interpolated
from the current render index and uploaded. -/
def updateGeometry (s : LoopState) : LoopState :=
  if s.CurrentSampleIndex = 0 then
    { s with
      GeometryRenderIndex := some s.CurrentRenderIndex
      Trace := s.Trace ++ [Action.InterpolateGeometry s.CurrentRenderIndex] }
  else s

/-- Lines 1331-1439: one Trace + Accumulate pair, then `CurrentSampleIndex++`. -/
def traceAndAccumulate (c : LoopConstants) (s : LoopState) : LoopState :=
  if s.CurrentSampleIndex ≤ c.MaxSampleIndex then
    { s with
      Trace := s.Trace ++
        [ Action.RefreshChaosTexels,
          Action.ExecuteCommandLists .RP1GraphicsCommandList RenderPass1Commands,
          Action.FlushCommandQueue,
          Action.ExecuteCommandLists .RP2GraphicsCommandList RenderPass2Commands,
          Action.FlushCommandQueue ]
      CurrentSampleIndex := (s.CurrentSampleIndex + 1) % 2 ^ 32 }
  else s

/-- Lines 1441-1496: Finalize, the store of the frame at `CurrentRenderIndex`,
the reset of the sample index, `CurrentRenderIndex++` and the completion test. -/
def finalizeFrame (c : LoopConstants) (inp : LoopInput) (s : LoopState) : LoopState :=
  if s.CurrentSampleIndex > c.MaxSampleIndex then
    let s1 : LoopState :=
      { s with
        Trace := s.Trace ++
          [ Action.ExecuteCommandLists .RP3GraphicsCommandList RenderPass3Commands,
            Action.FlushCommandQueue,
            Action.StoreFinalFrame s.CurrentRenderIndex ]
        HostFinalFrameBuffers := fun i =>
          if i = s.CurrentRenderIndex then FrameContents.Rendered inp.FinalFramePixels
          else s.HostFinalFrameBuffers i
        CurrentSampleIndex := 0
        CurrentRenderIndex := s.CurrentRenderIndex + 1 }
    if s1.CurrentRenderIndex > c.MaxRenderIndex then
      { s1 with CurrentlyRendering := false, CurrentlyPresenting := true }
    else s1
  else s

/-- Lines 1223-1497: the rendering logic. -/
def renderingLogic (c : LoopConstants) (inp : LoopInput) (s : LoopState) : LoopState :=
  if s.CurrentlyRendering = true then
    finalizeFrame c inp (traceAndAccumulate c (updateGeometry s))
  else s

/-- Lines 1500-1550: the present logic. -/
def presentLogic (c : LoopConstants) (inp : LoopInput) (s : LoopState) : LoopState :=
  if s.CurrentlyPresenting = true then
    { s with
      Trace := s.Trace ++
        [ Action.LoadFinalFrame s.CurrentPresentIndex,
          Action.ExecuteCommandLists .PresentGraphicsCommandList
            (PresentCommands inp.BackBufferIndex),
          Action.SwapChainPresent,
          Action.FlushCommandQueue ]
      CurrentPresentIndex :=
        if s.CurrentPresentIndex + 1 > c.MaxPresentIndex then 0 else s.CurrentPresentIndex + 1 }
  else s

/-- The body of the loop after the visibility test (lines 1215-1550). -/
def loopBody (c : LoopConstants) (inp : LoopInput) (s : LoopState) : LoopState :=
  presentLogic c inp (renderingLogic c inp (renderingActivation inp s))

/-- One iteration of `while (true == true)`: `none` when the window is no
longer visible and the loop is left (lines 1211-1213). -/
def loopIteration (c : LoopConstants) (inp : LoopInput) (s : LoopState) : Option LoopState :=
  if inp.WindowVisible = true then some (loopBody c inp s) else none

/-- The loop run on a sequence of inputs, one per iteration; it stops at the
first iteration that leaves the loop. -/
def runLoop (c : LoopConstants) : List LoopInput → LoopState → LoopState
  | [], s => s
  | inp :: rest, s =>
      match loopIteration c inp s with
      | some s1 => runLoop c rest s1
      | none => s

/-- The command lists submitted, in submission order. -/
def executedLists : List Action → List CommandList
  | [] => []
  | .ExecuteCommandLists l _ :: as => l :: executedLists as
  | _ :: as => executedLists as

/-- The render passes submitted (render-pass 1, 2 and 3), in submission order. -/
def renderPasses (t : List Action) : List CommandList :=
  (executedLists t).filter (fun l => decide (l ≠ .PresentGraphicsCommandList))

/-- The ring slots frames were stored into, in order. -/
def storedSlots : List Action → List Int
  | [] => []
  | .StoreFinalFrame i :: as => i :: storedSlots as
  | _ :: as => storedSlots as

/-- The command sequences submitted to the queue, in submission order. -/
def submittedLists : List Action → List (List Command)
  | [] => []
  | .ExecuteCommandLists _ cmds :: as => cmds :: submittedLists as
  | _ :: as => submittedLists as

/-- All commands submitted to the queue, in order. -/
def recordedCommands (t : List Action) : List Command :=
  (submittedLists t).flatten

/-- The command sequences the loop can record. -/
def recordedSequences : List (List Command) :=
  [RenderPass1Commands, RenderPass2Commands, RenderPass3Commands,
    PresentCommands 0, PresentCommands 1]

/-- An iteration input with the window visible and no left-button release. -/
def quietInput : LoopInput :=
  { WindowVisible := true, LeftButtonUp := false, BackBufferIndex := 0, FinalFramePixels := 0 }

/-- An iteration input with the window visible and the left button released. -/
def triggerInput : LoopInput :=
  { WindowVisible := true, LeftButtonUp := true, BackBufferIndex := 0, FinalFramePixels := 0 }

/-- One Trace + Accumulate pair as it shows in the submissions. -/
def samplePair : List CommandList :=
  [.RP1GraphicsCommandList, .RP2GraphicsCommandList]

/-- The submissions of one whole frame of `k + 1` samples. -/
def framePasses (k : Nat) : List CommandList :=
  (List.replicate (k + 1) samplePair).flatten ++ [.RP3GraphicsCommandList]

/-- The ring slots presentation read its frame from, in order. -/
def presentedSlots : List Action → List Int
  | [] => []
  | .LoadFinalFrame i :: as => i :: presentedSlots as
  | _ :: as => presentedSlots as

/-- Whether the iteration runs the present logic: the test of line 1500, made
after rendering activation and the rendering logic. -/
def presentRuns (c : LoopConstants) (inp : LoopInput) (s : LoopState) : Bool :=
  (renderingLogic c inp (renderingActivation inp s)).CurrentlyPresenting

/-- Whether the iteration runs the rendering logic: the test of line 1223,
made after rendering activation. -/
def renderingRuns (inp : LoopInput) (s : LoopState) : Bool :=
  (renderingActivation inp s).CurrentlyRendering

/-- Whether the iteration runs Finalize: the test of line 1441, made inside the
rendering logic after the sample pair. -/
def finalizeRuns (c : LoopConstants) (inp : LoopInput) (s : LoopState) : Bool :=
  renderingRuns inp s &&
    decide ((traceAndAccumulate c (updateGeometry (renderingActivation inp s))).CurrentSampleIndex
      > c.MaxSampleIndex)

/-- The queue discipline along a trace: `pending` tells whether a submitted
command list has not been waited for yet. A submission while another one is
pending breaks the discipline (`none`); a fence wait clears `pending`. -/
def queueDiscipline (pending : Bool) : List Action → Option Bool
  | [] => some pending
  | .ExecuteCommandLists _ _ :: as => if pending then none else queueDiscipline true as
  | .FlushCommandQueue :: as => queueDiscipline false as
  | _ :: as => queueDiscipline pending as

/-! ## Part 3: startup configuration -/

/-- `struct uint3` of DirectXStuff.hpp (lines 42-44); the components are
32-bit unsigned values. -/
structure uint3 where
  x : Nat
  y : Nat
  z : Nat
  deriving DecidableEq, Repr

/-- How a call of a startup helper ends. -/
inductive Outcome (α : Type) where
  /-- The function returns a value. -/
  | returned (value : α)
  /-- `MessageBoxW(NULL, L"Invalid worker-group thread-dimensions.",
  L"Workload Scaling Error", NULL); exit(-1);` (lines 127-128). -/
  | workloadScalingError
  /-- An unsigned `%` or `/` with divisor 0 is evaluated. -/
  | divisionByZero
  deriving DecidableEq, Repr

/-- `DirectXStuff::SetGroupCountPerGrid` (DirectXStuff.hpp 121-136). The three
remainder tests are joined by `||`, which evaluates them left to right and stops
at the first one that holds. -/
def SetGroupCountPerGrid (DesiredTSGridDimensions DesiredTSGroupDimensions : uint3) :
    Outcome uint3 :=
  if DesiredTSGroupDimensions.x = 0 then .divisionByZero
  else if DesiredTSGridDimensions.x % DesiredTSGroupDimensions.x ≠ 0 then .workloadScalingError
  else if DesiredTSGroupDimensions.y = 0 then .divisionByZero
  else if DesiredTSGridDimensions.y % DesiredTSGroupDimensions.y ≠ 0 then .workloadScalingError
  else if DesiredTSGroupDimensions.z = 0 then .divisionByZero
  else if DesiredTSGridDimensions.z % DesiredTSGroupDimensions.z ≠ 0 then .workloadScalingError
  else
    .returned
      { x := DesiredTSGridDimensions.x / DesiredTSGroupDimensions.x
        y := DesiredTSGridDimensions.y / DesiredTSGroupDimensions.y
        z := DesiredTSGridDimensions.z / DesiredTSGroupDimensions.z }

/-- `const uint3 PSViewPortDimensions{ 1280u, 720u, 1u }` (line 100). -/
def PSViewPortDimensions : uint3 := { x := 1280, y := 720, z := 1 }

/-- `const uint3 TSGridDimensions{ ... }` (line 108). -/
def TSGridDimensions : uint3 :=
  { x := PSViewPortDimensions.x, y := PSViewPortDimensions.y, z := PSViewPortDimensions.z }

/-- `const uint3 TSGroupDimensions{ 128u, 8u, 1u }` (line 109). -/
def TSGroupDimensions : uint3 := { x := 128, y := 8, z := 1 }

/-- `const uint3 GridDimensionsByGroup{ SetGroupCountPerGrid(...) }` (line 110). -/
def GridDimensionsByGroup : Outcome uint3 :=
  SetGroupCountPerGrid TSGridDimensions TSGroupDimensions

/-! ### The global descriptor heap (lines 867-1025) -/

/-- `const uint GlobalDescriptorCount{ 9u }` (line 867). -/
def GlobalDescriptorCount : Nat := 9

/-- One `CreateUnorderedAccessView` call: the resource viewed and the CPU
descriptor handle (`.ptr`) the view is written at. -/
structure UnorderedAccessView where
  pResource : Resource
  DestDescriptor : Nat
  deriving DecidableEq, Repr

/-- The variables of the heap fill: the running index and the views created. -/
structure DescriptorHeapFill where
  /-- `uint CurrentDescriptorIndex` (line 869). -/
  CurrentDescriptorIndex : Nat
  /-- The views created so far, oldest first. -/
  Views : List UnorderedAccessView
  deriving DecidableEq, Repr

/-- The pattern repeated for each resource (for instance lines 884-889): the
handle is `heapStart.ptr + (CurrentDescriptorIndex * DescriptorHandleIncrementSize)`
in 64-bit unsigned arithmetic, the view is created there, and the index is
incremented as a 32-bit unsigned value. -/
def createUnorderedAccessView (heapStart DescriptorHandleIncrementSize : Nat)
    (st : DescriptorHeapFill) (pResource : Resource) : DescriptorHeapFill :=
  { CurrentDescriptorIndex := (st.CurrentDescriptorIndex + 1) % 2 ^ 32
    Views := st.Views ++
      [{ pResource := pResource
         DestDescriptor :=
           (heapStart + (st.CurrentDescriptorIndex * DescriptorHandleIncrementSize) % 2 ^ 64)
             % 2 ^ 64 }] }

/-- The resources the views are created for, in source order (lines 887, 905,
923, 939, 956, 973, 990, 1006, 1022). -/
def viewedResources : List Resource :=
  [ .L1SpheresBuffer, .L1RectanglesBuffer, .L1TrianglesBuffer, .L1ChaosTexels3DTexture,
    .L1IntersectionMap013DTexture, .L1IntersectionMap023DTexture,
    .L1IntersectionMap033DTexture, .L1AccumulationFrame2DTexture, .L1FinalFrame2DTexture ]

/-- The fill of the global descriptor heap (lines 869-1025), from
`CurrentDescriptorIndex{ 0u }`. -/
def fillGlobalDescriptorHeap (heapStart DescriptorHandleIncrementSize : Nat) :
    DescriptorHeapFill :=
  viewedResources.foldl (createUnorderedAccessView heapStart DescriptorHandleIncrementSize)
    { CurrentDescriptorIndex := 0, Views := [] }

/-- What `DirectXStuff::RootSignature` (DirectXStuff.hpp 362-395) declares: one
descriptor table with one UAV range, and one block of 32-bit root constants. -/
structure RootSignatureDescription where
  /-- `UAVDescriptorRange[0].NumDescriptors`. -/
  NumDescriptors : Nat
  /-- `DescriptorTable.NumDescriptorRanges`. -/
  NumDescriptorRanges : Nat
  /-- `RootConstants.Num32BitValues`. -/
  Num32BitValues : Nat
  /-- `RootSignatureDescription.Desc_1_1.NumParameters`. -/
  NumParameters : Nat
  deriving DecidableEq, Repr

/-- The constructor `DirectXStuff::RootSignature(..., PipelineResourceCount, ...)`. -/
def RootSignature (PipelineResourceCount : Nat) : RootSignatureDescription :=
  { NumDescriptors := PipelineResourceCount
    NumDescriptorRanges := 1
    Num32BitValues := 60
    NumParameters := 2 }

/-- `GlobalRootSignature{ ..., GlobalDescriptorCount, ... }` (lines 1037-1038). -/
def GlobalRootSignature : RootSignatureDescription :=
  RootSignature GlobalDescriptorCount

/-! ### The inline root constants (lines 135-161) -/

/-- The member types used by `struct InlineRootConstants`. -/
inductive MemberType where
  | uint
  | float
  | float2
  | uint3
  | float3
  deriving DecidableEq, Repr

/-- The size in bytes of each member type: `uint` and `float` are 4 bytes, the
vector structs of DirectXStuff.hpp (lines 38-60) hold 2 or 3 of them. -/
def MemberType.size : MemberType → Nat
  | .uint => 4
  | .float => 4
  | .float2 => 2 * 4
  | .uint3 => 3 * 4
  | .float3 => 3 * 4

/-- The alignment in bytes of each member type: that of its 4-byte scalars. -/
def MemberType.alignment : MemberType → Nat
  | _ => 4

/-- The number of 32-bit scalars of each member type. -/
def MemberType.scalars : MemberType → Nat
  | .uint => 1
  | .float => 1
  | .float2 => 2
  | .uint3 => 3
  | .float3 => 3

/-- The members of `struct InlineRootConstants`, named as in the source. -/
inductive InlineRootConstantsMember where
  | TSGridDimensions
  | Padding00
  | WSCameraFocalOrigin
  | Padding01
  | WSViewPortDimensions
  | WSViewPortZCoord
  | Padding02
  | MaxRecursionDepth
  | SamplesPerPixel
  | MaxSampleIndex
  | CurrentSampleIndex
  | PathMinDistance
  | PathMaxDistance
  | Padding03
  | SkyTopColor
  | Padding04
  | SkyBottomColor
  | Padding05
  | SphereCount
  | RectangleCount
  | TriangleCount
  | GlobalTickInRadians
  deriving DecidableEq, Repr

/-- The declared type of each member (lines 137-158). -/
def InlineRootConstantsMember.type : InlineRootConstantsMember → MemberType
  | .TSGridDimensions => .uint3
  | .Padding00 => .float
  | .WSCameraFocalOrigin => .float3
  | .Padding01 => .float
  | .WSViewPortDimensions => .float2
  | .WSViewPortZCoord => .float
  | .Padding02 => .float
  | .MaxRecursionDepth => .uint
  | .SamplesPerPixel => .uint
  | .MaxSampleIndex => .uint
  | .CurrentSampleIndex => .uint
  | .PathMinDistance => .float
  | .PathMaxDistance => .float
  | .Padding03 => .float2
  | .SkyTopColor => .float3
  | .Padding04 => .float
  | .SkyBottomColor => .float3
  | .Padding05 => .float
  | .SphereCount => .uint
  | .RectangleCount => .uint
  | .TriangleCount => .uint
  | .GlobalTickInRadians => .float

/-- The members of `struct InlineRootConstants` in declaration order. -/
def InlineRootConstantsMembers : List InlineRootConstantsMember :=
  [ .TSGridDimensions, .Padding00, .WSCameraFocalOrigin, .Padding01, .WSViewPortDimensions,
    .WSViewPortZCoord, .Padding02, .MaxRecursionDepth, .SamplesPerPixel, .MaxSampleIndex,
    .CurrentSampleIndex, .PathMinDistance, .PathMaxDistance, .Padding03, .SkyTopColor,
    .Padding04, .SkyBottomColor, .Padding05, .SphereCount, .RectangleCount, .TriangleCount,
    .GlobalTickInRadians ]

/-- The least multiple of `a` that is at least `n`. -/
def alignUp (n a : Nat) : Nat :=
  (n + a - 1) / a * a

/-- The offset just past the last member when the members are laid out in
declaration order, each at the next offset that satisfies its alignment. -/
def layoutEnd (offset : Nat) : List MemberType → Nat
  | [] => offset
  | t :: ts => layoutEnd (alignUp offset t.alignment + t.size) ts

/-- The `sizeof` of a struct with the given members: the end of the layout,
rounded up to the largest member alignment. -/
def structSize (members : List MemberType) : Nat :=
  alignUp (layoutEnd 0 members) (members.foldl (fun a t => max a t.alignment) 1)

/-- The value `sizeof(InlineRootConstants)`. -/
def sizeofInlineRootConstants : Nat :=
  structSize (InlineRootConstantsMembers.map InlineRootConstantsMember.type)

/-- The value `sizeof(float)`. -/
def sizeofFloat : Nat := MemberType.float.size

/-- `const uint RootConstantCount{ sizeof(InlineRootConstants) / sizeof(float) }`
(line 161). -/
def RootConstantCount : Nat :=
  (sizeofInlineRootConstants / sizeofFloat) % 2 ^ 32

/-- The `Num32BitValuesToSet` argument of the three calls
`SetComputeRoot32BitConstants(1u, RootConstantCount, ( void* )&InlineRootConstants, 0u)`
(lines 1400, 1426, 1454). -/
def Num32BitValuesToSet : Nat := RootConstantCount

/-- The command lists that dispatch a compute kernel. -/
def dispatchingSequences : List (List Command) :=
  [RenderPass1Commands, RenderPass2Commands, RenderPass3Commands]

/-- Whether a command list sets the inline root constants before each of its
dispatches and after the root signature is bound. -/
def constantsSetBeforeDispatch (set : Bool) : List Command → Bool
  | [] => true
  | .SetComputeRootSignature :: cs => constantsSetBeforeDispatch false cs
  | .SetComputeRoot32BitConstants :: cs => constantsSetBeforeDispatch true cs
  | .Dispatch :: cs => set && constantsSetBeforeDispatch set cs
  | _ :: cs => constantsSetBeforeDispatch set cs

/-! ## Part 4: scene objects, the interpolation step and the copy sizes -/

/-- For each frame stored by Finalize, in order: the ring slot it was stored
into, paired with the render index the scene geometry was last interpolated
from (`g` is that index before the trace starts, `none` when the geometry
was never interpolated). -/
def storedGeometry (g : Option Int) : List Action → List (Int × Option Int)
  | [] => []
  | .InterpolateGeometry r :: as => storedGeometry (some r) as
  | .StoreFinalFrame i :: as => (i, g) :: storedGeometry g as
  | _ :: as => storedGeometry g as

/-- The sample-count members of `InlineRootConstants` (lines 145-147), the
block every dispatch receives through `SetComputeRoot32BitConstants`. -/
structure SampleConstants where
  /-- Member `SamplesPerPixel`, the divisor of the Finalize kernel. -/
  SamplesPerPixel : Nat
  /-- Member `MaxSampleIndex`. -/
  MaxSampleIndex : Nat
  /-- Member `CurrentSampleIndex`. -/
  CurrentSampleIndex : Nat
  deriving DecidableEq, Repr

/-- The startup assignments of lines 171-173:
`InlineRootConstants.SamplesPerPixel = SamplesPerPixel;`
`InlineRootConstants.MaxSampleIndex = SamplesPerPixel - 1u;`
`InlineRootConstants.CurrentSampleIndex = 0u;`. The loop assigns
`CurrentSampleIndex` only; the other two keep these values. -/
def initialSampleConstants (SamplesPerPixel : Nat) : SampleConstants :=
  { SamplesPerPixel := SamplesPerPixel
    MaxSampleIndex := MaxSampleIndexOf SamplesPerPixel
    CurrentSampleIndex := 0 }

/-! ### Floating-point operations

The interpolation step computes in `float` and `double`. The embedding keeps
the carrier types and every operation abstract, so that what is proved about
the step holds for the machine operations whatever they return. -/

/-- The operations on `float` (carrier `F`) and `double` (carrier `D`) used by
lines 1226-1297 and by `LinearInterpolation`. -/
structure FloatOps (F D : Type) where
  /-- The conversion `( float )i` of an `__int32`. -/
  ofInt32 : Int → F
  /-- The literal `2.0f`. -/
  two : F
  /-- Multiplication of two `float`s. -/
  mulF : F → F → F
  /-- Division of two `float`s. -/
  divF : F → F → F
  /-- The conversion `( double )x`. -/
  toDouble : F → D
  /-- The conversion `( float )x`. -/
  toFloat : D → F
  /-- The literal `1.0`. -/
  one : D
  /-- Subtraction of two `double`s. -/
  subD : D → D → D
  /-- Multiplication of two `double`s. -/
  mulD : D → D → D
  /-- Addition of two `double`s. -/
  addD : D → D → D

/-- The struct `float3` of DirectXStuff.hpp (lines 58-60). -/
structure float3 (F : Type) where
  x : F
  y : F
  z : F
  deriving DecidableEq, Repr

/-- The function `LinearInterpolation` of DirectXStuff.hpp (lines 63-69):
`BlendedValue = ((1.0 - (double)CurrentStep) * (double)StartValue)
+ ((double)CurrentStep * (double)EndValue); return (float)BlendedValue;`. -/
def LinearInterpolation {F D : Type} (ops : FloatOps F D)
    (CurrentStep StartValue EndValue : F) : F :=
  ops.toFloat
    (ops.addD
      (ops.mulD (ops.subD ops.one (ops.toDouble CurrentStep)) (ops.toDouble StartValue))
      (ops.mulD (ops.toDouble CurrentStep) (ops.toDouble EndValue)))

/-- The assignment of line 1226: `InlineRootConstants.GlobalTickInRadians =
2.0f * (( float )CurrentRenderIndex / (( float )MaxRenderIndex))`. -/
def GlobalTickInRadians {F D : Type} (ops : FloatOps F D)
    (CurrentRenderIndex MaxRenderIndex : Int) : F :=
  ops.mulF ops.two (ops.divF (ops.ofInt32 CurrentRenderIndex) (ops.ofInt32 MaxRenderIndex))

/-- The struct `Sphere` (lines 34-50). -/
structure Sphere (F : Type) where
  WSOriginStart : float3 F
  WSOriginEnd : float3 F
  WSOrigin : float3 F
  WSRadiusStart : F
  WSRadiusEnd : F
  WSRadius : F
  ColorStart : float3 F
  ColorEnd : float3 F
  Color : float3 F
  MaterialScalarStart : F
  MaterialScalarEnd : F
  MaterialScalar : F
  PrimitiveId : Nat
  ObjectId : Nat
  MaterialId : Nat
  deriving DecidableEq, Repr

/-- The struct `Rectangle` (lines 53-75). -/
structure Rectangle (F : Type) where
  Q1Start : float3 F
  Q1End : float3 F
  Q1 : float3 F
  Q2Start : float3 F
  Q2End : float3 F
  Q2 : float3 F
  Q3Start : float3 F
  Q3End : float3 F
  Q3 : float3 F
  Q4Start : float3 F
  Q4End : float3 F
  Q4 : float3 F
  ColorStart : float3 F
  ColorEnd : float3 F
  Color : float3 F
  MaterialScalarStart : F
  MaterialScalarEnd : F
  MaterialScalar : F
  PrimitiveId : Nat
  ObjectId : Nat
  MaterialId : Nat
  deriving DecidableEq, Repr

/-- The struct `Triangle` (lines 78-97). -/
structure Triangle (F : Type) where
  V1Start : float3 F
  V1End : float3 F
  V1 : float3 F
  V2Start : float3 F
  V2End : float3 F
  V2 : float3 F
  V3Start : float3 F
  V3End : float3 F
  V3 : float3 F
  ColorStart : float3 F
  ColorEnd : float3 F
  Color : float3 F
  MaterialScalarStart : F
  MaterialScalarEnd : F
  MaterialScalar : F
  PrimitiveId : Nat
  ObjectId : Nat
  MaterialId : Nat
  deriving DecidableEq, Repr

/-- The three scene arrays `Spheres`, `Rectangles` and `Triangles`. -/
structure Scene (F : Type) where
  Spheres : List (Sphere F)
  Rectangles : List (Rectangle F)
  Triangles : List (Triangle F)

/-- The body of the loop over `Spheres` (lines 1230-1244), for one sphere;
`tick` is `InlineRootConstants.GlobalTickInRadians`. -/
def interpolateSphere {F D : Type} (ops : FloatOps F D) (tick : F) (s : Sphere F) : Sphere F :=
  { s with
    WSOrigin :=
      { x := LinearInterpolation ops (ops.divF tick ops.two) s.WSOriginStart.x s.WSOriginEnd.x
        y := LinearInterpolation ops (ops.divF tick ops.two) s.WSOriginStart.y s.WSOriginEnd.y
        z := LinearInterpolation ops (ops.divF tick ops.two) s.WSOriginStart.z s.WSOriginEnd.z }
    WSRadius := LinearInterpolation ops (ops.divF tick ops.two) s.WSRadiusStart s.WSRadiusEnd
    Color :=
      { x := LinearInterpolation ops (ops.divF tick ops.two) s.ColorStart.x s.ColorEnd.x
        y := LinearInterpolation ops (ops.divF tick ops.two) s.ColorStart.y s.ColorEnd.y
        z := LinearInterpolation ops (ops.divF tick ops.two) s.ColorStart.z s.ColorEnd.z }
    MaterialScalar :=
      LinearInterpolation ops (ops.divF tick ops.two) s.MaterialScalarStart s.MaterialScalarEnd }

/-- The body of the loop over `Rectangles` (lines 1248-1272), for one
rectangle. -/
def interpolateRectangle {F D : Type} (ops : FloatOps F D) (tick : F) (r : Rectangle F) :
    Rectangle F :=
  { r with
    Q1 :=
      { x := LinearInterpolation ops (ops.divF tick ops.two) r.Q1Start.x r.Q1End.x
        y := LinearInterpolation ops (ops.divF tick ops.two) r.Q1Start.y r.Q1End.y
        z := LinearInterpolation ops (ops.divF tick ops.two) r.Q1Start.z r.Q1End.z }
    Q2 :=
      { x := LinearInterpolation ops (ops.divF tick ops.two) r.Q2Start.x r.Q2End.x
        y := LinearInterpolation ops (ops.divF tick ops.two) r.Q2Start.y r.Q2End.y
        z := LinearInterpolation ops (ops.divF tick ops.two) r.Q2Start.z r.Q2End.z }
    Q3 :=
      { x := LinearInterpolation ops (ops.divF tick ops.two) r.Q3Start.x r.Q3End.x
        y := LinearInterpolation ops (ops.divF tick ops.two) r.Q3Start.y r.Q3End.y
        z := LinearInterpolation ops (ops.divF tick ops.two) r.Q3Start.z r.Q3End.z }
    Q4 :=
      { x := LinearInterpolation ops (ops.divF tick ops.two) r.Q4Start.x r.Q4End.x
        y := LinearInterpolation ops (ops.divF tick ops.two) r.Q4Start.y r.Q4End.y
        z := LinearInterpolation ops (ops.divF tick ops.two) r.Q4Start.z r.Q4End.z }
    Color :=
      { x := LinearInterpolation ops (ops.divF tick ops.two) r.ColorStart.x r.ColorEnd.x
        y := LinearInterpolation ops (ops.divF tick ops.two) r.ColorStart.y r.ColorEnd.y
        z := LinearInterpolation ops (ops.divF tick ops.two) r.ColorStart.z r.ColorEnd.z }
    MaterialScalar :=
      LinearInterpolation ops (ops.divF tick ops.two) r.MaterialScalarStart r.MaterialScalarEnd }

/-- The body of the loop over `Triangles` (lines 1276-1296), for one
triangle. -/
def interpolateTriangle {F D : Type} (ops : FloatOps F D) (tick : F) (t : Triangle F) :
    Triangle F :=
  { t with
    V1 :=
      { x := LinearInterpolation ops (ops.divF tick ops.two) t.V1Start.x t.V1End.x
        y := LinearInterpolation ops (ops.divF tick ops.two) t.V1Start.y t.V1End.y
        z := LinearInterpolation ops (ops.divF tick ops.two) t.V1Start.z t.V1End.z }
    V2 :=
      { x := LinearInterpolation ops (ops.divF tick ops.two) t.V2Start.x t.V2End.x
        y := LinearInterpolation ops (ops.divF tick ops.two) t.V2Start.y t.V2End.y
        z := LinearInterpolation ops (ops.divF tick ops.two) t.V2Start.z t.V2End.z }
    V3 :=
      { x := LinearInterpolation ops (ops.divF tick ops.two) t.V3Start.x t.V3End.x
        y := LinearInterpolation ops (ops.divF tick ops.two) t.V3Start.y t.V3End.y
        z := LinearInterpolation ops (ops.divF tick ops.two) t.V3Start.z t.V3End.z }
    Color :=
      { x := LinearInterpolation ops (ops.divF tick ops.two) t.ColorStart.x t.ColorEnd.x
        y := LinearInterpolation ops (ops.divF tick ops.two) t.ColorStart.y t.ColorEnd.y
        z := LinearInterpolation ops (ops.divF tick ops.two) t.ColorStart.z t.ColorEnd.z }
    MaterialScalar :=
      LinearInterpolation ops (ops.divF tick ops.two) t.MaterialScalarStart t.MaterialScalarEnd }

/-- The interpolation step (lines 1229-1297): the three loops, over every
element of `Spheres`, then `Rectangles`, then `Triangles`. -/
def interpolateScene {F D : Type} (ops : FloatOps F D) (tick : F) (scene : Scene F) : Scene F :=
  { Spheres := scene.Spheres.map (interpolateSphere ops tick)
    Rectangles := scene.Rectangles.map (interpolateRectangle ops tick)
    Triangles := scene.Triangles.map (interpolateTriangle ops tick) }

/-- The scene arrays after the actions of a trace: each geometry update of the
loop (lines 1224-1297) assigns the tick from the render index of its iteration
and runs the interpolation step; no other action touches the arrays. -/
def sceneAfter {F D : Type} (ops : FloatOps F D) (c : LoopConstants) (scene : Scene F) :
    List Action → Scene F
  | [] => scene
  | .InterpolateGeometry r :: as =>
      sceneAfter ops c (interpolateScene ops (GlobalTickInRadians ops r c.MaxRenderIndex) scene) as
  | _ :: as => sceneAfter ops c scene as

/-- The operations read over the integers, with truncating division: a
carrier on which the definitions above can be evaluated. -/
def integerOps : FloatOps Int Int :=
  { ofInt32 := fun i => i
    two := 2
    mulF := fun a b => a * b
    divF := fun a b => a / b
    toDouble := fun a => a
    toFloat := fun a => a
    one := 1
    subD := fun a b => a - b
    mulD := fun a b => a * b
    addD := fun a b => a + b }

/-! ### Buffer sizes and host copies (lines 100-133, 201-796; DirectXStuff.hpp 494-606) -/

/-- The struct `uint2` of DirectXStuff.hpp (lines 38-40). -/
structure uint2 where
  x : Nat
  y : Nat
  deriving DecidableEq, Repr

/-- `const uint BytesPerFinalPixel{ 4u }` (line 101). -/
def BytesPerFinalPixel : Nat := 4

/-- `const uint3 ChaosTexelsDimensions{ PSViewPortDimensions.x, PSViewPortDimensions.y, 3u }`
(line 128). -/
def ChaosTexelsDimensions : uint3 :=
  { x := PSViewPortDimensions.x, y := PSViewPortDimensions.y, z := 3 }

/-- `const uint ChaosTexelCount{ ChaosTexelsDimensions.x * ChaosTexelsDimensions.y *
ChaosTexelsDimensions.z }` (line 129), a product of 32-bit unsigned values. -/
def ChaosTexelCount : Nat :=
  (((ChaosTexelsDimensions.x * ChaosTexelsDimensions.y) % 2 ^ 32) * ChaosTexelsDimensions.z) % 2 ^ 32

/-- `const uint2 FinalFrameDimensions{ PSViewPortDimensions.x, PSViewPortDimensions.y }`
(line 132). -/
def FinalFrameDimensions : uint2 :=
  { x := PSViewPortDimensions.x, y := PSViewPortDimensions.y }

/-- The member types of `struct Sphere`, in declaration order (lines 35-49). -/
def SphereMembers : List MemberType :=
  [ .float3, .float3, .float3, .float, .float, .float, .float3, .float3, .float3,
    .float, .float, .float, .uint, .uint, .uint ]

/-- The member types of `struct Rectangle`, in declaration order (lines 54-74). -/
def RectangleMembers : List MemberType :=
  [ .float3, .float3, .float3, .float3, .float3, .float3, .float3, .float3, .float3,
    .float3, .float3, .float3, .float3, .float3, .float3, .float, .float, .float,
    .uint, .uint, .uint ]

/-- The member types of `struct Triangle`, in declaration order (lines 79-96). -/
def TriangleMembers : List MemberType :=
  [ .float3, .float3, .float3, .float3, .float3, .float3, .float3, .float3, .float3,
    .float3, .float3, .float3, .float, .float, .float, .uint, .uint, .uint ]

/-- The value `sizeof(Spheres)` of `Sphere Spheres[11]{}` (line 201). -/
def sizeofSpheres : Nat := 11 * structSize SphereMembers

/-- The value `sizeof(Rectangles)` of `Rectangle Rectangles[5]{}` (line 362). -/
def sizeofRectangles : Nat := 5 * structSize RectangleMembers

/-- The value `sizeof(Triangles)` of `Triangle Triangles[5]{}` (line 459). -/
def sizeofTriangles : Nat := 5 * structSize TriangleMembers

/-- The member `unsigned __int32 BufferWidth` of `BufferConfig`
(DirectXStuff.hpp line 603) after the assignment of a byte count. -/
def BufferWidth (bytes : Nat) : Nat := bytes % 2 ^ 32

/-- `L0SpheresBufferConfig.BufferWidth = sizeof(Spheres)` (line 567). -/
def L0SpheresBufferWidth : Nat := BufferWidth sizeofSpheres

/-- `L0RectanglesBufferConfig.BufferWidth = sizeof(Rectangles)` (line 601). -/
def L0RectanglesBufferWidth : Nat := BufferWidth sizeofRectangles

/-- `L0TrianglesBufferConfig.BufferWidth = sizeof(Triangles)` (line 635). -/
def L0TrianglesBufferWidth : Nat := BufferWidth sizeofTriangles

/-- `L0ChaosTexelsBufferConfig.BufferWidth = ChaosTexelCount * sizeof(float)`
(line 676): the product is taken in the 64-bit `size_t`, the member is
32 bits wide. -/
def L0ChaosTexelsBufferWidth : Nat := BufferWidth ((ChaosTexelCount * sizeofFloat) % 2 ^ 64)

/-- `L0FinalFrameBufferConfig.BufferWidth = (FinalFrameDimensions.x *
FinalFrameDimensions.y) * BytesPerFinalPixel` (line 796), a product of 32-bit
unsigned values. -/
def L0FinalFrameBufferWidth : Nat :=
  BufferWidth ((((FinalFrameDimensions.x * FinalFrameDimensions.y) % 2 ^ 32) *
    BytesPerFinalPixel) % 2 ^ 32)

/-- The constructor of `RandomFloatHostBuffer` (DirectXStuff.hpp lines 555-558):
`this->BufferSizeInBytes = Config.RandomFloatCount * sizeof(float)`, where
`Config.RandomFloatCount` is an `__int32`, converted to the 64-bit unsigned
`size_t` for the product. -/
def RandomFloatHostBufferSizeInBytes (RandomFloatCount : Int) : Nat :=
  ((RandomFloatCount % 2 ^ 64).toNat * sizeofFloat) % 2 ^ 64

/-- The size of the host chaos-texel buffer:
`HostChaosTexelsBufferConfig.RandomFloatCount = ChaosTexelCount` (line 665),
a 32-bit unsigned value assigned to an `__int32`. -/
def HostChaosTexelsBufferSizeInBytes : Nat :=
  RandomFloatHostBufferSizeInBytes (toInt32 ChaosTexelCount)

/-- The value `sizeof(R8G8B8A8Uint)`: four `unsigned __int8` members
(DirectXStuff.hpp lines 494-496). -/
def sizeofR8G8B8A8Uint : Nat := 4 * 1

/-- The constructor of `R8G8B8A8UintHostBuffer` (DirectXStuff.hpp line 519):
`this->BufferSizeInBytes = Config.BufferLengthInElements * sizeof(R8G8B8A8Uint)`
in 64-bit unsigned arithmetic. -/
def R8G8B8A8UintHostBufferSizeInBytes (BufferLengthInElements : Nat) : Nat :=
  (BufferLengthInElements * sizeofR8G8B8A8Uint) % 2 ^ 64

/-- `uint BufferLengthInElements{ FinalFrameDimensions.x * FinalFrameDimensions.y }`
(line 776). -/
def BufferLengthInElements : Nat :=
  (FinalFrameDimensions.x * FinalFrameDimensions.y) % 2 ^ 32

/-- The size of every host final-frame buffer (lines 778-788): each is built
from a config holding `BufferLengthInElements`. -/
def HostFinalFrameBufferSizeInBytes : Nat :=
  R8G8B8A8UintHostBufferSizeInBytes BufferLengthInElements

/-- The size arguments of a call `memcpy_s(dest, destSize, src, count)`. -/
structure MemcpyCall where
  /-- The capacity of the destination, `destSize`. -/
  destSize : Nat
  /-- The number of bytes copied, `count`. -/
  count : Nat
  deriving DecidableEq, Repr

/-- What `memcpy_s` does with its size arguments: it copies when `count` does
not exceed `destSize` and reports a constraint violation otherwise. -/
def MemcpyCall.copies (m : MemcpyCall) : Bool :=
  decide (m.count ≤ m.destSize)

/-- Line 1304: `memcpy_s(pL0SpheresBuffer, L0SpheresBufferConfig.BufferWidth, Spheres,
sizeof(Spheres))`. -/
def copySpheres : MemcpyCall :=
  { destSize := L0SpheresBufferWidth, count := sizeofSpheres }

/-- Line 1314: `memcpy_s(pL0RectanglesBuffer, L0RectanglesBufferConfig.BufferWidth,
Rectangles, sizeof(Rectangles))`. -/
def copyRectangles : MemcpyCall :=
  { destSize := L0RectanglesBufferWidth, count := sizeofRectangles }

/-- Line 1324: `memcpy_s(pL0TrianglesBuffer, L0TrianglesBufferConfig.BufferWidth,
Triangles, sizeof(Triangles))`. -/
def copyTriangles : MemcpyCall :=
  { destSize := L0TrianglesBufferWidth, count := sizeofTriangles }

/-- Lines 1339-1340: `memcpy_s(pL0ChaosTexelsBuffer, L0ChaosTexelsBufferConfig.BufferWidth,
HostChaosTexelsBuffer.GetPointerToBufferStart(), HostChaosTexelsBuffer.GetBufferSizeInBytes())`. -/
def copyChaosTexels : MemcpyCall :=
  { destSize := L0ChaosTexelsBufferWidth, count := HostChaosTexelsBufferSizeInBytes }

/-- Lines 1481-1482, upload to host: `memcpy_s(HostFinalFrameBuffers[CurrentRenderIndex]->
GetPointerToBufferStart(), HostFinalFrameBuffers[CurrentRenderIndex]->GetBufferSizeInBytes(),
pL0FinalFrameBuffer, L0FinalFrameBufferConfig.BufferWidth)`. -/
def copyStoreFinalFrame : MemcpyCall :=
  { destSize := HostFinalFrameBufferSizeInBytes, count := L0FinalFrameBufferWidth }

/-- Lines 1505-1506, host to upload: `memcpy_s(pL0FinalFrameBuffer,
L0FinalFrameBufferConfig.BufferWidth, HostFinalFrameBuffers[CurrentPresentIndex]->
GetPointerToBufferStart(), HostFinalFrameBuffers[CurrentPresentIndex]->GetBufferSizeInBytes())`. -/
def copyLoadFinalFrame : MemcpyCall :=
  { destSize := L0FinalFrameBufferWidth, count := HostFinalFrameBufferSizeInBytes }

/-- The six host copies of the loop, in source order. -/
def hostCopies : List MemcpyCall :=
  [copySpheres, copyRectangles, copyTriangles, copyChaosTexels, copyStoreFinalFrame,
    copyLoadFinalFrame]

/-! ## Theorems, part 1: barriers and command sequences -/

theorem stableStates_L0 {i : Fin SwapChainBackBufferCount} {σ : ResourceStates}
    (h : StableStates i σ) :
    σ .L0SpheresBuffer = D3D12_RESOURCE_STATE_COPY_DEST ∧
    σ .L0RectanglesBuffer = D3D12_RESOURCE_STATE_COPY_DEST ∧
    σ .L0TrianglesBuffer = D3D12_RESOURCE_STATE_COPY_DEST ∧
    σ .L0ChaosTexelsBuffer = D3D12_RESOURCE_STATE_COPY_DEST ∧
    σ .L0FinalFrameBuffer = D3D12_RESOURCE_STATE_COPY_DEST :=
  ⟨h.1 _ rfl, h.1 _ rfl, h.1 _ rfl, h.1 _ rfl, h.1 _ rfl⟩

theorem stableStates_L1 {i : Fin SwapChainBackBufferCount} {σ : ResourceStates}
    (h : StableStates i σ) :
    σ .L1SpheresBuffer = D3D12_RESOURCE_STATE_UNORDERED_ACCESS ∧
    σ .L1RectanglesBuffer = D3D12_RESOURCE_STATE_UNORDERED_ACCESS ∧
    σ .L1TrianglesBuffer = D3D12_RESOURCE_STATE_UNORDERED_ACCESS ∧
    σ .L1ChaosTexels3DTexture = D3D12_RESOURCE_STATE_UNORDERED_ACCESS ∧
    σ .L1IntersectionMap013DTexture = D3D12_RESOURCE_STATE_UNORDERED_ACCESS ∧
    σ .L1IntersectionMap023DTexture = D3D12_RESOURCE_STATE_UNORDERED_ACCESS ∧
    σ .L1IntersectionMap033DTexture = D3D12_RESOURCE_STATE_UNORDERED_ACCESS ∧
    σ .L1AccumulationFrame2DTexture = D3D12_RESOURCE_STATE_UNORDERED_ACCESS ∧
    σ .L1FinalFrame2DTexture = D3D12_RESOURCE_STATE_UNORDERED_ACCESS :=
  ⟨h.2.1 _ rfl, h.2.1 _ rfl, h.2.1 _ rfl, h.2.1 _ rfl, h.2.1 _ rfl, h.2.1 _ rfl,
    h.2.1 _ rfl, h.2.1 _ rfl, h.2.1 _ rfl⟩

/-- The allocation states are stable states, whichever back buffer is current. -/
theorem stableStates_initial (i : Fin SwapChainBackBufferCount) :
    StableStates i InitialResourceState := by
  refine ⟨?_, ?_, rfl⟩ <;> intro r hr <;> cases r <;> first | rfl | cases hr

/-- C1: started from stable states (upload buffers COPY_DEST, device-local
resources UNORDERED_ACCESS, current back buffer PRESENT), each of the four
command sequences records every copy with its source in COPY_SOURCE and its
destination in COPY_DEST and every dispatch with all nine descriptor-table
resources in UNORDERED_ACCESS. -/
theorem operations_recorded_in_required_state (i : Fin SwapChainBackBufferCount)
    (σ : ResourceStates) (h : StableStates i σ) :
    operationsInRequiredState σ RenderPass1Commands = true ∧
    operationsInRequiredState σ RenderPass2Commands = true ∧
    operationsInRequiredState σ RenderPass3Commands = true ∧
    operationsInRequiredState σ (PresentCommands i) = true := by
  obtain ⟨a1, a2, a3, a4, a5⟩ := stableStates_L0 h
  obtain ⟨b1, b2, b3, b4, b5, b6, b7, b8, b9⟩ := stableStates_L1 h
  have hp := h.2.2
  refine ⟨?_, ?_, ?_, ?_⟩
  all_goals
    simp [operationsInRequiredState, commandInRequiredState, requiredStates, applyCommand,
      applyBarrier, descriptorTable, CreateResourceTransitionBarrier,
      RenderPass1Commands, RenderPass2Commands, RenderPass3Commands, PresentCommands,
      L0SpheresBufferCopyDestToCopySource, L0SpheresBufferCopySourceToCopyDest,
      L1SpheresBufferCopyDestToUnorderedAccess, L1SpheresBufferUnorderedAccessToCopyDest,
      L0RectanglesBufferCopyDestToCopySource, L0RectanglesBufferCopySourceToCopyDest,
      L1RectanglesBufferCopyDestToUnorderedAccess, L1RectanglesBufferUnorderedAccessToCopyDest,
      L0TrianglesBufferCopyDestToCopySource, L0TrianglesBufferCopySourceToCopyDest,
      L1TrianglesBufferCopyDestToUnorderedAccess, L1TrianglesBufferUnorderedAccessToCopyDest,
      L0ChaosTexelsBufferCopyDestToCopySource, L0ChaosTexelsBufferCopySourceToCopyDest,
      L1ChaosTexels3DTextureCopyDestToUnorderedAccess,
      L1ChaosTexels3DTextureUnorderedAccessToCopyDest,
      L0FinalFrameBufferCopyDestToCopySource, L0FinalFrameBufferCopySourceToCopyDest,
      L1FinalFrame2DTextureUnorderedAccessToCopySource,
      L1FinalFrame2DTextureCopySourceToUnorderedAccess,
      L1FinalFrame2DTextureUnorderedAccessToCopyDest,
      L1FinalFrame2DTextureCopyDestToCopySource,
      SwapChainBackBufferPresentToCopyDestBarriers,
      SwapChainBackBufferCopyDestToPresentBarriers,
      a1, a2, a3, a4, a5, b1, b2, b3, b4, b5, b6, b7, b8, b9, hp]

/-- C1 from the allocation states, with back buffer 1 current. -/
theorem operations_recorded_in_required_state_witness :
    StableStates 1 InitialResourceState ∧
    (operationsInRequiredState InitialResourceState RenderPass1Commands = true ∧
    operationsInRequiredState InitialResourceState RenderPass2Commands = true ∧
    operationsInRequiredState InitialResourceState RenderPass3Commands = true ∧
    operationsInRequiredState InitialResourceState (PresentCommands 1) = true) :=
  ⟨stableStates_initial 1,
    operations_recorded_in_required_state 1 InitialResourceState (stableStates_initial 1)⟩

theorem trackStates_append (σ : ResourceStates) (xs ys : List Command) :
    trackStates σ (xs ++ ys) = trackStates (trackStates σ xs) ys := by
  induction xs generalizing σ with
  | nil => rfl
  | cons c cs ih => simp [trackStates, ih]

theorem barriersMatchStates_append (σ : ResourceStates) (xs ys : List Command) :
    barriersMatchStates σ (xs ++ ys) =
      (barriersMatchStates σ xs && barriersMatchStates (trackStates σ xs) ys) := by
  induction xs generalizing σ with
  | nil => simp [barriersMatchStates, trackStates]
  | cons c cs ih =>
    cases c <;> simp [barriersMatchStates, trackStates, applyCommand, ih, Bool.and_assoc]

/-- C2: each of the four command sequences, started from stable states, leaves
every resource in the logical state in which it found it. -/
theorem sequences_restore_states (i : Fin SwapChainBackBufferCount)
    (σ : ResourceStates) (h : StableStates i σ) (r : Resource) :
    trackStates σ RenderPass1Commands r = σ r ∧
    trackStates σ RenderPass2Commands r = σ r ∧
    trackStates σ RenderPass3Commands r = σ r ∧
    trackStates σ (PresentCommands i) r = σ r := by
  obtain ⟨a1, a2, a3, a4, a5⟩ := stableStates_L0 h
  obtain ⟨b1, b2, b3, b4, b5, b6, b7, b8, b9⟩ := stableStates_L1 h
  have hp := h.2.2
  have hbb : ∀ j : Fin SwapChainBackBufferCount,
      (if j = i then D3D12_RESOURCE_STATE_PRESENT
        else if j = i then D3D12_RESOURCE_STATE_COPY_DEST
        else σ (.SwapChainBackBuffers j)) = σ (.SwapChainBackBuffers j) := by
    intro j
    by_cases hj : j = i
    · subst hj; simp [hp]
    · simp [hj]
  cases r <;>
    simp [trackStates, applyCommand, applyBarrier, CreateResourceTransitionBarrier,
      RenderPass1Commands, RenderPass2Commands, RenderPass3Commands, PresentCommands,
      L0SpheresBufferCopyDestToCopySource, L0SpheresBufferCopySourceToCopyDest,
      L1SpheresBufferCopyDestToUnorderedAccess, L1SpheresBufferUnorderedAccessToCopyDest,
      L0RectanglesBufferCopyDestToCopySource, L0RectanglesBufferCopySourceToCopyDest,
      L1RectanglesBufferCopyDestToUnorderedAccess, L1RectanglesBufferUnorderedAccessToCopyDest,
      L0TrianglesBufferCopyDestToCopySource, L0TrianglesBufferCopySourceToCopyDest,
      L1TrianglesBufferCopyDestToUnorderedAccess, L1TrianglesBufferUnorderedAccessToCopyDest,
      L0ChaosTexelsBufferCopyDestToCopySource, L0ChaosTexelsBufferCopySourceToCopyDest,
      L1ChaosTexels3DTextureCopyDestToUnorderedAccess,
      L1ChaosTexels3DTextureUnorderedAccessToCopyDest,
      L0FinalFrameBufferCopyDestToCopySource, L0FinalFrameBufferCopySourceToCopyDest,
      L1FinalFrame2DTextureUnorderedAccessToCopySource,
      L1FinalFrame2DTextureCopySourceToUnorderedAccess,
      L1FinalFrame2DTextureUnorderedAccessToCopyDest,
      L1FinalFrame2DTextureCopyDestToCopySource,
      SwapChainBackBufferPresentToCopyDestBarriers,
      SwapChainBackBufferCopyDestToPresentBarriers,
      a1, a2, a3, a4, a5, b1, b2, b3, b4, b5, b6, b7, b8, b9, hp, hbb]

/-- C2 from the allocation states, with back buffer 0 current, on the
final-frame texture. -/
theorem sequences_restore_states_witness :
    StableStates 0 InitialResourceState ∧
    (trackStates InitialResourceState RenderPass1Commands .L1FinalFrame2DTexture =
      InitialResourceState .L1FinalFrame2DTexture ∧
    trackStates InitialResourceState RenderPass2Commands .L1FinalFrame2DTexture =
      InitialResourceState .L1FinalFrame2DTexture ∧
    trackStates InitialResourceState RenderPass3Commands .L1FinalFrame2DTexture =
      InitialResourceState .L1FinalFrame2DTexture ∧
    trackStates InitialResourceState (PresentCommands 0) .L1FinalFrame2DTexture =
      InitialResourceState .L1FinalFrame2DTexture) :=
  ⟨stableStates_initial 0,
    sequences_restore_states 0 InitialResourceState (stableStates_initial 0)
      .L1FinalFrame2DTexture⟩

theorem recordedBarriers_append (xs ys : List Command) :
    recordedBarriers (xs ++ ys) = recordedBarriers xs ++ recordedBarriers ys := by
  induction xs with
  | nil => rfl
  | cons c cs ih => cases c <;> simp [recordedBarriers, ih]

/-- C7, as the code has it: moving a resource into a state through
`CreateResourceTransitionBarrier` and `ResourceBarrier` leaves the resource in
the target state, leaves every other resource alone, and always records exactly
one descriptor (resource, prior state, target state) for subresource 0,
whether or not the target differs from the prior state. -/
theorem recordTransition_records_one_descriptor (σ : ResourceStates) (cmds : List Command)
    (r : Resource) (s : D3D12_RESOURCE_STATES) :
    (recordTransition σ cmds r s).1 r = s ∧
    (recordTransition σ cmds r s).1 = (fun x => if x = r then s else σ x) ∧
    recordedBarriers (recordTransition σ cmds r s).2 =
      recordedBarriers cmds ++
        [{ BarrierType := D3D12_RESOURCE_BARRIER_TYPE_TRANSITION, pResource := r,
           Subresource := 0, StateBefore := σ r, StateAfter := s }] := by
  refine ⟨?_, ?_, ?_⟩
  · simp [recordTransition, applyBarrier, CreateResourceTransitionBarrier]
  · funext x
    simp [recordTransition, applyBarrier, CreateResourceTransitionBarrier]
  · simp [recordTransition, recordedBarriers_append, recordedBarriers,
      CreateResourceTransitionBarrier]

/-- C7 fails as stated: a transition of `L1SpheresBuffer`, which is in
UNORDERED_ACCESS, to UNORDERED_ACCESS records one descriptor with equal
before and after states, not zero descriptors. -/
theorem recordTransition_same_state_not_elided :
    InitialResourceState .L1SpheresBuffer = D3D12_RESOURCE_STATE_UNORDERED_ACCESS ∧
    recordedBarriers
        (recordTransition InitialResourceState [] .L1SpheresBuffer
          D3D12_RESOURCE_STATE_UNORDERED_ACCESS).2 =
      [CreateResourceTransitionBarrier .L1SpheresBuffer
        D3D12_RESOURCE_STATE_UNORDERED_ACCESS D3D12_RESOURCE_STATE_UNORDERED_ACCESS] ∧
    (recordedBarriers
        (recordTransition InitialResourceState [] .L1SpheresBuffer
          D3D12_RESOURCE_STATE_UNORDERED_ACCESS).2).length ≠ 0 := by
  decide

/-- C9 evaluated on the code: render-pass 3 ends with the two barriers
COPY_DEST to COPY_SOURCE and COPY_SOURCE to COPY_DEST on `L0FinalFrameBuffer`
with no operation between them, so its transitions are not minimal, while those
of render-pass 1, render-pass 2 and Present are. -/
theorem renderPass3_transitions_not_minimal :
    RenderPass3Commands.drop 9 =
      [Command.ResourceBarrier L0FinalFrameBufferCopyDestToCopySource,
       Command.ResourceBarrier L0FinalFrameBufferCopySourceToCopyDest] ∧
    L0FinalFrameBufferCopyDestToCopySource.StateBefore =
      L0FinalFrameBufferCopySourceToCopyDest.StateAfter ∧
    transitionsMinimal RenderPass3Commands = false ∧
    transitionsMinimal RenderPass1Commands = true ∧
    transitionsMinimal RenderPass2Commands = true ∧
    (∀ i, transitionsMinimal (PresentCommands i) = true) := by
  decide

/-! ## Theorems, part 2: the event loop -/

theorem executedLists_append (xs ys : List Action) :
    executedLists (xs ++ ys) = executedLists xs ++ executedLists ys := by
  induction xs with
  | nil => rfl
  | cons a as ih => cases a <;> simp [executedLists, ih]

theorem renderPasses_append (xs ys : List Action) :
    renderPasses (xs ++ ys) = renderPasses xs ++ renderPasses ys := by
  simp [renderPasses, executedLists_append]

theorem storedSlots_append (xs ys : List Action) :
    storedSlots (xs ++ ys) = storedSlots xs ++ storedSlots ys := by
  induction xs with
  | nil => rfl
  | cons a as ih => cases a <;> simp [storedSlots, ih]

theorem submittedLists_append (xs ys : List Action) :
    submittedLists (xs ++ ys) = submittedLists xs ++ submittedLists ys := by
  induction xs with
  | nil => rfl
  | cons a as ih => cases a <;> simp [submittedLists, ih]

/-! ### What each part of the loop body does to each loop variable -/

theorem renderingActivation_unchanged (inp : LoopInput) (s : LoopState) :
    (renderingActivation inp s).CurrentSampleIndex = s.CurrentSampleIndex ∧
    (renderingActivation inp s).CurrentPresentIndex = s.CurrentPresentIndex ∧
    (renderingActivation inp s).GeometryRenderIndex = s.GeometryRenderIndex ∧
    (renderingActivation inp s).HostFinalFrameBuffers = s.HostFinalFrameBuffers ∧
    (renderingActivation inp s).Trace = s.Trace := by
  unfold renderingActivation; split <;> simp

theorem renderingActivation_changed (inp : LoopInput) (s : LoopState) :
    (renderingActivation inp s).CurrentRenderIndex =
      (if inp.LeftButtonUp = true then 0 else s.CurrentRenderIndex) ∧
    (renderingActivation inp s).CurrentlyRendering =
      (if inp.LeftButtonUp = true then true else s.CurrentlyRendering) ∧
    (renderingActivation inp s).CurrentlyPresenting =
      (if inp.LeftButtonUp = true then false else s.CurrentlyPresenting) := by
  unfold renderingActivation; split <;> simp

theorem updateGeometry_unchanged (s : LoopState) :
    (updateGeometry s).CurrentSampleIndex = s.CurrentSampleIndex ∧
    (updateGeometry s).CurrentRenderIndex = s.CurrentRenderIndex ∧
    (updateGeometry s).CurrentlyRendering = s.CurrentlyRendering ∧
    (updateGeometry s).CurrentPresentIndex = s.CurrentPresentIndex ∧
    (updateGeometry s).CurrentlyPresenting = s.CurrentlyPresenting ∧
    (updateGeometry s).HostFinalFrameBuffers = s.HostFinalFrameBuffers ∧
    executedLists (updateGeometry s).Trace = executedLists s.Trace ∧
    storedSlots (updateGeometry s).Trace = storedSlots s.Trace ∧
    submittedLists (updateGeometry s).Trace = submittedLists s.Trace := by
  unfold updateGeometry
  split <;>
    simp [executedLists_append, storedSlots_append, submittedLists_append, executedLists,
      storedSlots, submittedLists]

theorem traceAndAccumulate_unchanged (c : LoopConstants) (s : LoopState) :
    (traceAndAccumulate c s).CurrentRenderIndex = s.CurrentRenderIndex ∧
    (traceAndAccumulate c s).CurrentlyRendering = s.CurrentlyRendering ∧
    (traceAndAccumulate c s).CurrentPresentIndex = s.CurrentPresentIndex ∧
    (traceAndAccumulate c s).CurrentlyPresenting = s.CurrentlyPresenting ∧
    (traceAndAccumulate c s).GeometryRenderIndex = s.GeometryRenderIndex ∧
    (traceAndAccumulate c s).HostFinalFrameBuffers = s.HostFinalFrameBuffers ∧
    storedSlots (traceAndAccumulate c s).Trace = storedSlots s.Trace := by
  unfold traceAndAccumulate
  split <;> simp [storedSlots_append, storedSlots]

theorem traceAndAccumulate_changed (c : LoopConstants) (s : LoopState) :
    (traceAndAccumulate c s).CurrentSampleIndex =
      (if s.CurrentSampleIndex ≤ c.MaxSampleIndex then (s.CurrentSampleIndex + 1) % 2 ^ 32
        else s.CurrentSampleIndex) ∧
    executedLists (traceAndAccumulate c s).Trace =
      executedLists s.Trace ++
        (if s.CurrentSampleIndex ≤ c.MaxSampleIndex then samplePair else []) ∧
    submittedLists (traceAndAccumulate c s).Trace =
      submittedLists s.Trace ++
        (if s.CurrentSampleIndex ≤ c.MaxSampleIndex
          then [RenderPass1Commands, RenderPass2Commands] else []) := by
  unfold traceAndAccumulate
  split <;>
    simp [executedLists_append, submittedLists_append, executedLists, submittedLists,
      samplePair]

theorem finalizeFrame_unchanged (c : LoopConstants) (inp : LoopInput) (s : LoopState) :
    (finalizeFrame c inp s).CurrentPresentIndex = s.CurrentPresentIndex ∧
    (finalizeFrame c inp s).GeometryRenderIndex = s.GeometryRenderIndex := by
  by_cases h1 : s.CurrentSampleIndex > c.MaxSampleIndex
  · by_cases h2 : s.CurrentRenderIndex + 1 > c.MaxRenderIndex <;> simp [finalizeFrame, h1, h2]
  · simp [finalizeFrame, h1]

theorem finalizeFrame_changed (c : LoopConstants) (inp : LoopInput) (s : LoopState) :
    (finalizeFrame c inp s).CurrentSampleIndex =
      (if s.CurrentSampleIndex > c.MaxSampleIndex then 0 else s.CurrentSampleIndex) ∧
    (finalizeFrame c inp s).CurrentRenderIndex =
      (if s.CurrentSampleIndex > c.MaxSampleIndex then s.CurrentRenderIndex + 1
        else s.CurrentRenderIndex) ∧
    (finalizeFrame c inp s).CurrentlyRendering =
      (if s.CurrentSampleIndex > c.MaxSampleIndex ∧ s.CurrentRenderIndex + 1 > c.MaxRenderIndex
        then false else s.CurrentlyRendering) ∧
    (finalizeFrame c inp s).CurrentlyPresenting =
      (if s.CurrentSampleIndex > c.MaxSampleIndex ∧ s.CurrentRenderIndex + 1 > c.MaxRenderIndex
        then true else s.CurrentlyPresenting) ∧
    (finalizeFrame c inp s).HostFinalFrameBuffers =
      (if s.CurrentSampleIndex > c.MaxSampleIndex then
        (fun i => if i = s.CurrentRenderIndex then FrameContents.Rendered inp.FinalFramePixels
          else s.HostFinalFrameBuffers i)
        else s.HostFinalFrameBuffers) ∧
    executedLists (finalizeFrame c inp s).Trace =
      executedLists s.Trace ++
        (if s.CurrentSampleIndex > c.MaxSampleIndex then [.RP3GraphicsCommandList] else []) ∧
    storedSlots (finalizeFrame c inp s).Trace =
      storedSlots s.Trace ++
        (if s.CurrentSampleIndex > c.MaxSampleIndex then [s.CurrentRenderIndex] else []) ∧
    submittedLists (finalizeFrame c inp s).Trace =
      submittedLists s.Trace ++
        (if s.CurrentSampleIndex > c.MaxSampleIndex then [RenderPass3Commands] else []) := by
  by_cases h1 : s.CurrentSampleIndex > c.MaxSampleIndex
  · by_cases h2 : s.CurrentRenderIndex + 1 > c.MaxRenderIndex <;>
      simp [finalizeFrame, h1, h2, executedLists_append, storedSlots_append,
        submittedLists_append, executedLists, storedSlots, submittedLists]
  · simp [finalizeFrame, h1]

theorem presentLogic_unchanged (c : LoopConstants) (inp : LoopInput) (s : LoopState) :
    (presentLogic c inp s).CurrentSampleIndex = s.CurrentSampleIndex ∧
    (presentLogic c inp s).CurrentRenderIndex = s.CurrentRenderIndex ∧
    (presentLogic c inp s).CurrentlyRendering = s.CurrentlyRendering ∧
    (presentLogic c inp s).CurrentlyPresenting = s.CurrentlyPresenting ∧
    (presentLogic c inp s).GeometryRenderIndex = s.GeometryRenderIndex ∧
    (presentLogic c inp s).HostFinalFrameBuffers = s.HostFinalFrameBuffers ∧
    renderPasses (presentLogic c inp s).Trace = renderPasses s.Trace ∧
    storedSlots (presentLogic c inp s).Trace = storedSlots s.Trace := by
  unfold presentLogic
  split <;>
    simp [renderPasses, executedLists_append, storedSlots_append, executedLists, storedSlots]

theorem presentLogic_changed (c : LoopConstants) (inp : LoopInput) (s : LoopState) :
    (presentLogic c inp s).CurrentPresentIndex =
      (if s.CurrentlyPresenting = true then
        (if s.CurrentPresentIndex + 1 > c.MaxPresentIndex then 0 else s.CurrentPresentIndex + 1)
        else s.CurrentPresentIndex) ∧
    executedLists (presentLogic c inp s).Trace =
      executedLists s.Trace ++
        (if s.CurrentlyPresenting = true then [.PresentGraphicsCommandList] else []) ∧
    submittedLists (presentLogic c inp s).Trace =
      submittedLists s.Trace ++
        (if s.CurrentlyPresenting = true then [PresentCommands inp.BackBufferIndex] else []) := by
  unfold presentLogic
  split <;>
    simp_all [executedLists_append, submittedLists_append, executedLists, submittedLists]

/-- One iteration in rendering mode, whatever the input: a sample pair is
submitted, and when it was the last sample of the frame, Finalize follows, the
frame is stored at the render index and the render index advances. -/
theorem loopBody_rendering (c : LoopConstants) (inp : LoopInput) (s : LoopState)
    (hR : (renderingActivation inp s).CurrentlyRendering = true)
    (hj : s.CurrentSampleIndex ≤ c.MaxSampleIndex) (hk : c.MaxSampleIndex < 2 ^ 32 - 1) :
    (loopBody c inp s).CurrentSampleIndex =
      (if s.CurrentSampleIndex = c.MaxSampleIndex then 0 else s.CurrentSampleIndex + 1) ∧
    (loopBody c inp s).CurrentRenderIndex =
      (if s.CurrentSampleIndex = c.MaxSampleIndex
        then (renderingActivation inp s).CurrentRenderIndex + 1
        else (renderingActivation inp s).CurrentRenderIndex) ∧
    (loopBody c inp s).CurrentlyRendering =
      (if s.CurrentSampleIndex = c.MaxSampleIndex ∧
          (renderingActivation inp s).CurrentRenderIndex + 1 > c.MaxRenderIndex
        then false else true) ∧
    (loopBody c inp s).CurrentlyPresenting =
      (if s.CurrentSampleIndex = c.MaxSampleIndex ∧
          (renderingActivation inp s).CurrentRenderIndex + 1 > c.MaxRenderIndex
        then true else (renderingActivation inp s).CurrentlyPresenting) ∧
    renderPasses (loopBody c inp s).Trace =
      renderPasses s.Trace ++ samplePair ++
        (if s.CurrentSampleIndex = c.MaxSampleIndex then [.RP3GraphicsCommandList] else []) ∧
    storedSlots (loopBody c inp s).Trace =
      storedSlots s.Trace ++
        (if s.CurrentSampleIndex = c.MaxSampleIndex
          then [(renderingActivation inp s).CurrentRenderIndex] else []) := by
  have h1 : (s.CurrentSampleIndex + 1) % 2 ^ 32 = s.CurrentSampleIndex + 1 :=
    Nat.mod_eq_of_lt (by omega)
  have h2 : (s.CurrentSampleIndex + 1 > c.MaxSampleIndex) ↔
      s.CurrentSampleIndex = c.MaxSampleIndex := by omega
  simp only [loopBody, renderingLogic, hR, if_true]
  obtain ⟨hS, -, -, -, hT⟩ := renderingActivation_unchanged inp s
  generalize renderingActivation inp s = a at hR hT hS ⊢
  obtain ⟨g1, g2, g3, -, g5, -, g7, g8, -⟩ := updateGeometry_unchanged a
  generalize updateGeometry a = g at g1 g2 g3 g5 g7 g8 ⊢
  obtain ⟨t1, t2, -, t4, -, -, t7⟩ := traceAndAccumulate_unchanged c g
  obtain ⟨u1, u2, -⟩ := traceAndAccumulate_changed c g
  generalize traceAndAccumulate c g = t at t1 t2 t4 t7 u1 u2 ⊢
  obtain ⟨f1, f2, f3, f4, -, f6, f7, -⟩ := finalizeFrame_changed c inp t
  generalize finalizeFrame c inp t = f at f1 f2 f3 f4 f6 f7 ⊢
  obtain ⟨p1, p2, p3, p4, -, -, p7, p8⟩ := presentLogic_unchanged c inp f
  rw [p1, p2, p3, p4, p7, p8, f1, f2, f3, f4, f7]
  simp only [renderPasses, f6, u2, g7, u1, t1, t2, t4, t7, g1, g2, g3, g5, g8, hS, hT, hR,
    if_pos hj, h1, h2]
  by_cases he : s.CurrentSampleIndex = c.MaxSampleIndex <;>
    simp [he, samplePair]

/-- The mode flags and the render index after one iteration, whatever the
state and the input. -/
theorem loopBody_mode (c : LoopConstants) (inp : LoopInput) (s : LoopState) :
    ∃ fin : Bool,
      (loopBody c inp s).CurrentRenderIndex =
        (if (renderingActivation inp s).CurrentlyRendering = true ∧ fin = true
          then (renderingActivation inp s).CurrentRenderIndex + 1
          else (renderingActivation inp s).CurrentRenderIndex) ∧
      (loopBody c inp s).CurrentlyRendering =
        (if (renderingActivation inp s).CurrentlyRendering = true ∧ fin = true ∧
            (renderingActivation inp s).CurrentRenderIndex + 1 > c.MaxRenderIndex
          then false else (renderingActivation inp s).CurrentlyRendering) ∧
      (loopBody c inp s).CurrentlyPresenting =
        (if (renderingActivation inp s).CurrentlyRendering = true ∧ fin = true ∧
            (renderingActivation inp s).CurrentRenderIndex + 1 > c.MaxRenderIndex
          then true else (renderingActivation inp s).CurrentlyPresenting) := by
  simp only [loopBody, renderingLogic]
  generalize renderingActivation inp s = a
  obtain ⟨-, g2, g3, -, g5, -, -, -, -⟩ := updateGeometry_unchanged a
  obtain ⟨t1, t2, -, t4, -, -, -⟩ := traceAndAccumulate_unchanged c (updateGeometry a)
  obtain ⟨-, f2, f3, f4, -, -, -, -⟩ :=
    finalizeFrame_changed c inp (traceAndAccumulate c (updateGeometry a))
  refine ⟨decide ((traceAndAccumulate c (updateGeometry a)).CurrentSampleIndex >
    c.MaxSampleIndex), ?_⟩
  by_cases hR : a.CurrentlyRendering = true
  · obtain ⟨-, p2, p3, p4, -, -, -, -⟩ :=
      presentLogic_unchanged c inp
        (finalizeFrame c inp (traceAndAccumulate c (updateGeometry a)))
    simp only [hR, if_true, true_and]
    rw [p2, p3, p4, f2, f3, f4, t1, t2, t4, g2, g3, g5, hR]
    simp
  · obtain ⟨-, p2, p3, p4, -, -, -, -⟩ := presentLogic_unchanged c inp a
    simp only [hR, Bool.false_eq_true, if_false, false_and]
    rw [p2, p3, p4]
    simpa using hR

/-- Every command sequence an iteration submits is one of the recorded ones. -/
theorem loopBody_submitted (c : LoopConstants) (inp : LoopInput) (s : LoopState) :
    ∃ news, submittedLists (loopBody c inp s).Trace = submittedLists s.Trace ++ news ∧
      ∀ l ∈ news, l ∈ recordedSequences := by
  have hP : PresentCommands inp.BackBufferIndex ∈ recordedSequences := by
    generalize inp.BackBufferIndex = i
    fin_cases i <;> simp [recordedSequences]
  obtain ⟨-, -, -, -, hT⟩ := renderingActivation_unchanged inp s
  simp only [loopBody, renderingLogic]
  generalize renderingActivation inp s = a at hT ⊢
  by_cases hR : a.CurrentlyRendering = true
  · obtain ⟨-, -, -, -, -, -, -, -, g9⟩ := updateGeometry_unchanged a
    obtain ⟨-, -, u3⟩ := traceAndAccumulate_changed c (updateGeometry a)
    obtain ⟨-, -, -, -, -, -, -, f8⟩ :=
      finalizeFrame_changed c inp (traceAndAccumulate c (updateGeometry a))
    obtain ⟨-, -, p3⟩ :=
      presentLogic_changed c inp (finalizeFrame c inp (traceAndAccumulate c (updateGeometry a)))
    simp only [hR, if_true]
    rw [p3, f8, u3, g9, hT, List.append_assoc, List.append_assoc]
    refine ⟨_, rfl, ?_⟩
    intro l hl
    simp only [List.mem_append] at hl
    rcases hl with hl | hl | hl
    · split at hl
      · simp only [List.mem_cons, List.mem_singleton, List.not_mem_nil, or_false] at hl
        rcases hl with rfl | rfl <;> simp [recordedSequences]
      · simp at hl
    · split at hl
      · simp only [List.mem_singleton] at hl
        subst hl; simp [recordedSequences]
      · simp at hl
    · split at hl
      · simp only [List.mem_singleton] at hl
        subst hl; exact hP
      · simp at hl
  · obtain ⟨-, -, p3⟩ := presentLogic_changed c inp a
    simp only [hR, Bool.false_eq_true, if_false]
    rw [p3, hT]
    refine ⟨_, rfl, ?_⟩
    intro l hl
    split at hl
    · simp only [List.mem_singleton] at hl
      subst hl; exact hP
    · simp at hl

theorem runLoop_cons_visible (c : LoopConstants) (x : LoopInput) (xs : List LoopInput)
    (s : LoopState) (hx : x.WindowVisible = true) :
    runLoop c (x :: xs) s = runLoop c xs (loopBody c x s) := by
  simp [runLoop, loopIteration, hx]

theorem runLoop_append (c : LoopConstants) (xs ys : List LoopInput) (s : LoopState)
    (hxs : ∀ x ∈ xs, x.WindowVisible = true) :
    runLoop c (xs ++ ys) s = runLoop c ys (runLoop c xs s) := by
  induction xs generalizing s with
  | nil => rfl
  | cons x xs ih =>
    have hx : x.WindowVisible = true := hxs x (List.mem_cons_self _ _)
    have hrest : ∀ y ∈ xs, y.WindowVisible = true :=
      fun y hy => hxs y (List.mem_cons_of_mem _ hy)
    rw [List.cons_append, runLoop_cons_visible c x _ s hx, runLoop_cons_visible c x _ s hx,
      ih _ hrest]

/-- A property every iteration preserves holds after every run. -/
theorem runLoop_invariant (c : LoopConstants) (P : LoopState → Prop)
    (hstep : ∀ inp s, P s → P (loopBody c inp s)) :
    ∀ (inputs : List LoopInput) (s : LoopState), P s → P (runLoop c inputs s) := by
  intro inputs
  induction inputs with
  | nil => intro s hs; exact hs
  | cons x xs ih =>
    intro s hs
    by_cases hx : x.WindowVisible = true
    · rw [runLoop_cons_visible c x xs s hx]
      exact ih _ (hstep x s hs)
    · simpa [runLoop, loopIteration, hx] using hs


/-- Iterations in rendering mode that stay within the sample budget of the
frame: each submits one sample pair and nothing else changes the mode. -/
theorem run_samples (c : LoopConstants) (hk : c.MaxSampleIndex < 2 ^ 32 - 1) :
    ∀ (inputs : List LoopInput) (s : LoopState),
      (∀ x ∈ inputs, x.WindowVisible = true) →
      s.CurrentlyRendering = true →
      s.CurrentSampleIndex + inputs.length ≤ c.MaxSampleIndex →
      (runLoop c inputs s).CurrentSampleIndex = s.CurrentSampleIndex + inputs.length ∧
      (runLoop c inputs s).CurrentlyRendering = true ∧
      renderPasses (runLoop c inputs s).Trace =
        renderPasses s.Trace ++ (List.replicate inputs.length samplePair).flatten ∧
      storedSlots (runLoop c inputs s).Trace = storedSlots s.Trace ∧
      ((∀ x ∈ inputs, x.LeftButtonUp = false) →
        (runLoop c inputs s).CurrentRenderIndex = s.CurrentRenderIndex ∧
        (runLoop c inputs s).CurrentlyPresenting = s.CurrentlyPresenting) := by
  intro inputs
  induction inputs with
  | nil => intro s _ hR _; simp [runLoop, hR]
  | cons x xs ih =>
    intro s hvis hR hlen
    have hx : x.WindowVisible = true := hvis x (List.mem_cons_self _ _)
    have hrest : ∀ y ∈ xs, y.WindowVisible = true :=
      fun y hy => hvis y (List.mem_cons_of_mem _ hy)
    simp only [List.length_cons] at hlen
    obtain ⟨a1, a2, a3⟩ := renderingActivation_changed x s
    have hRa : (renderingActivation x s).CurrentlyRendering = true := by
      rw [a2, hR]; simp
    have hne : s.CurrentSampleIndex ≠ c.MaxSampleIndex := by omega
    obtain ⟨b1, b2, b3, b4, b5, b6⟩ := loopBody_rendering c x s hRa (by omega) hk
    simp only [hne, if_false, false_and, List.append_nil] at b1 b2 b3 b4 b5 b6
    obtain ⟨i1, i2, i3, i4, i5⟩ := ih (loopBody c x s) hrest b3 (by rw [b1]; omega)
    rw [runLoop_cons_visible c x xs s hx]
    refine ⟨by rw [i1, b1, List.length_cons]; omega, i2, ?_, by rw [i4, b6], ?_⟩
    · rw [i3, b5, List.length_cons, List.replicate_succ, List.flatten_cons,
        List.append_assoc]
    · intro hno
      have hxn : x.LeftButtonUp = false := hno x (List.mem_cons_self _ _)
      obtain ⟨j1, j2⟩ := i5 (fun y hy => hno y (List.mem_cons_of_mem _ hy))
      rw [j1, j2, b2, b4, a1, a3]
      simp [hxn]

/-- A whole frame: `MaxSampleIndex + 1` iterations in rendering mode starting at
sample 0 submit that many sample pairs and then, in the last of them, Finalize. -/
theorem run_frame (c : LoopConstants) (hk : c.MaxSampleIndex < 2 ^ 32 - 1)
    (inputs : List LoopInput) (s : LoopState)
    (hvis : ∀ x ∈ inputs, x.WindowVisible = true)
    (hlen : inputs.length = c.MaxSampleIndex + 1)
    (hR : s.CurrentlyRendering = true) (h0 : s.CurrentSampleIndex = 0) :
    (runLoop c inputs s).CurrentSampleIndex = 0 ∧
    renderPasses (runLoop c inputs s).Trace =
      renderPasses s.Trace ++ framePasses c.MaxSampleIndex ∧
    ((∀ x ∈ inputs, x.LeftButtonUp = false) →
      (runLoop c inputs s).CurrentRenderIndex = s.CurrentRenderIndex + 1 ∧
      storedSlots (runLoop c inputs s).Trace = storedSlots s.Trace ++ [s.CurrentRenderIndex] ∧
      (runLoop c inputs s).CurrentlyRendering =
        (if s.CurrentRenderIndex + 1 > c.MaxRenderIndex then false else true) ∧
      (runLoop c inputs s).CurrentlyPresenting =
        (if s.CurrentRenderIndex + 1 > c.MaxRenderIndex then true
          else s.CurrentlyPresenting)) := by
  have hsplit : inputs = inputs.take c.MaxSampleIndex ++ inputs.drop c.MaxSampleIndex :=
    (List.take_append_drop _ _).symm
  have hdl : (inputs.drop c.MaxSampleIndex).length = 1 := by
    rw [List.length_drop, hlen]; omega
  obtain ⟨x, hxd⟩ := List.length_eq_one.mp hdl
  have htl : (inputs.take c.MaxSampleIndex).length = c.MaxSampleIndex := by
    rw [List.length_take, hlen]; omega
  have hvt : ∀ y ∈ inputs.take c.MaxSampleIndex, y.WindowVisible = true :=
    fun y hy => hvis y (List.mem_of_mem_take hy)
  have hxm : x ∈ inputs := by
    have hxm1 : x ∈ inputs.drop c.MaxSampleIndex := by
      rw [hxd]; exact List.mem_singleton_self x
    exact List.mem_of_mem_drop hxm1
  have hxv : x.WindowVisible = true := hvis x hxm
  obtain ⟨i1, i2, i3, i4, i5⟩ :=
    run_samples c hk (inputs.take c.MaxSampleIndex) s hvt hR (by rw [h0, htl]; omega)
  rw [htl] at i1 i3
  rw [h0, Nat.zero_add] at i1
  generalize hm : runLoop c (inputs.take c.MaxSampleIndex) s = m at i1 i2 i3 i4 i5
  have hrun : runLoop c inputs s = loopBody c x m := by
    rw [hsplit, runLoop_append c _ _ s hvt, hm, hxd, runLoop_cons_visible c x [] m hxv]
    rfl
  obtain ⟨a1, a2, a3⟩ := renderingActivation_changed x m
  have hRa : (renderingActivation x m).CurrentlyRendering = true := by
    rw [a2, i2]; simp
  obtain ⟨b1, b2, b3, b4, b5, b6⟩ := loopBody_rendering c x m hRa (by omega) hk
  simp only [i1, if_true, true_and] at b1 b2 b3 b4 b5 b6
  rw [hrun]
  refine ⟨b1, ?_, ?_⟩
  · rw [b5, i3, framePasses, List.replicate_succ', List.flatten_append]
    simp [List.append_assoc]
  · intro hno
    have hxn : x.LeftButtonUp = false := hno x hxm
    obtain ⟨j1, j2⟩ := i5 (fun y hy => hno y (List.mem_of_mem_take hy))
    simp only [hxn, Bool.false_eq_true, if_false] at a1 a3
    rw [b2, b3, b4, b6, a1, a3, j1, j2, i4]
    exact ⟨rfl, rfl, rfl, rfl⟩

/-- Whole frames rendered back to back without a trigger, while the render index
stays within `MaxRenderIndex`: frame after frame is submitted and stored at
consecutive ring slots, and the loop is still in rendering mode afterwards. -/
theorem run_frames (c : LoopConstants) (hk : c.MaxSampleIndex < 2 ^ 32 - 1) :
    ∀ (m : Nat) (inputs : List LoopInput) (s : LoopState),
      (∀ x ∈ inputs, x.WindowVisible = true) →
      (∀ x ∈ inputs, x.LeftButtonUp = false) →
      inputs.length = m * (c.MaxSampleIndex + 1) →
      s.CurrentlyRendering = true → s.CurrentlyPresenting = false →
      s.CurrentSampleIndex = 0 →
      s.CurrentRenderIndex + (m : Int) ≤ c.MaxRenderIndex + 1 →
      (runLoop c inputs s).CurrentSampleIndex = 0 ∧
      (runLoop c inputs s).CurrentRenderIndex = s.CurrentRenderIndex + (m : Int) ∧
      renderPasses (runLoop c inputs s).Trace =
        renderPasses s.Trace ++ (List.replicate m (framePasses c.MaxSampleIndex)).flatten ∧
      storedSlots (runLoop c inputs s).Trace =
        storedSlots s.Trace ++
          (List.range m).map (fun (i : Nat) => s.CurrentRenderIndex + (i : Int)) ∧
      (runLoop c inputs s).CurrentlyRendering =
        (if s.CurrentRenderIndex + (m : Int) > c.MaxRenderIndex ∧ 0 < m then false else true) ∧
      (runLoop c inputs s).CurrentlyPresenting =
        (if s.CurrentRenderIndex + (m : Int) > c.MaxRenderIndex ∧ 0 < m then true else false) := by
  intro m
  induction m with
  | zero =>
    intro inputs s _ _ hlen hR hP h0 _
    have hnil : inputs = [] := List.eq_nil_of_length_eq_zero (by simpa using hlen)
    subst hnil
    simp [runLoop, hR, hP, h0]
  | succ m ih =>
    intro inputs s hvis hno hlen hR hP h0 hb
    have hsplit : inputs =
        inputs.take (c.MaxSampleIndex + 1) ++ inputs.drop (c.MaxSampleIndex + 1) :=
      (List.take_append_drop _ _).symm
    have hlen2 : inputs.length = m * (c.MaxSampleIndex + 1) + (c.MaxSampleIndex + 1) := by
      rw [hlen, Nat.succ_mul]
    have htl : (inputs.take (c.MaxSampleIndex + 1)).length = c.MaxSampleIndex + 1 := by
      rw [List.length_take, hlen2]; omega
    have hdl : (inputs.drop (c.MaxSampleIndex + 1)).length = m * (c.MaxSampleIndex + 1) := by
      rw [List.length_drop, hlen2]; omega
    have hvt : ∀ y ∈ inputs.take (c.MaxSampleIndex + 1), y.WindowVisible = true :=
      fun y hy => hvis y (List.mem_of_mem_take hy)
    have hnt : ∀ y ∈ inputs.take (c.MaxSampleIndex + 1), y.LeftButtonUp = false :=
      fun y hy => hno y (List.mem_of_mem_take hy)
    have hvd : ∀ y ∈ inputs.drop (c.MaxSampleIndex + 1), y.WindowVisible = true :=
      fun y hy => hvis y (List.mem_of_mem_drop hy)
    have hnd : ∀ y ∈ inputs.drop (c.MaxSampleIndex + 1), y.LeftButtonUp = false :=
      fun y hy => hno y (List.mem_of_mem_drop hy)
    obtain ⟨f1, f2, f3⟩ := run_frame c hk _ s hvt htl hR h0
    obtain ⟨f4, f5, f6, f7⟩ := f3 hnt
    generalize hm : runLoop c (inputs.take (c.MaxSampleIndex + 1)) s = s1
      at f1 f2 f4 f5 f6 f7
    have hrun : runLoop c inputs s = runLoop c (inputs.drop (c.MaxSampleIndex + 1)) s1 := by
      rw [← hm, ← runLoop_append c _ _ s hvt, ← hsplit]
    rw [hrun]
    push_cast at hb
    by_cases hlast : s.CurrentRenderIndex + 1 > c.MaxRenderIndex
    · have hm0 : m = 0 := by omega
      subst hm0
      have hnil : inputs.drop (c.MaxSampleIndex + 1) = [] :=
        List.eq_nil_of_length_eq_zero (by simpa using hdl)
      rw [hnil]
      simp only [hlast, if_true] at f6 f7
      simp [runLoop, f1, f4, f2, f5, f6, f7, hlast, List.range_succ]
    · simp only [hlast, if_false] at f6 f7
      rw [hP] at f7
      obtain ⟨i1, i2, i3, i4, i5, i6⟩ :=
        ih _ s1 hvd hnd hdl f6 f7 f1 (by rw [f4]; omega)
      rw [f4] at i2 i5 i6
      refine ⟨i1, ?_, ?_, ?_, ?_, ?_⟩
      · rw [i2]; push_cast; ring
      · rw [i3, f2, List.replicate_succ, List.flatten_cons, List.append_assoc]
      · rw [i4, f5, f4, List.append_assoc, List.range_succ_eq_map, List.map_cons,
          List.map_map, List.singleton_append]
        congr 2
        · simp
        · apply List.map_congr_left
          intro i _
          simp only [Function.comp_apply]
          push_cast; ring
      · rw [i5]
        have e : (s.CurrentRenderIndex + 1 + (m : Int) > c.MaxRenderIndex ∧ 0 < m) ↔
            (s.CurrentRenderIndex + ((m + 1 : Nat) : Int) > c.MaxRenderIndex ∧ 0 < m + 1) := by
          push_cast; omega
        simp only [e]
      · rw [i6]
        have e : (s.CurrentRenderIndex + 1 + (m : Int) > c.MaxRenderIndex ∧ 0 < m) ↔
            (s.CurrentRenderIndex + ((m + 1 : Nat) : Int) > c.MaxRenderIndex ∧ 0 < m + 1) := by
          push_cast; omega
        simp only [e]

theorem submitted_of_run (c : LoopConstants) (inputs : List LoopInput) :
    ∀ l ∈ submittedLists (runLoop c inputs startup).Trace, l ∈ recordedSequences := by
  apply runLoop_invariant c
    (fun s => ∀ l ∈ submittedLists s.Trace, l ∈ recordedSequences)
  · intro inp s hs l hl
    obtain ⟨news, h1, h2⟩ := loopBody_submitted c inp s
    rw [h1, List.mem_append] at hl
    rcases hl with hl | hl
    · exact hs l hl
    · exact h2 l hl
  · intro l hl
    simp [startup, submittedLists] at hl

theorem recordedSequences_consistent :
    ∀ l ∈ recordedSequences,
      barriersMatchStates InitialResourceState l = true ∧
      trackStates InitialResourceState l = InitialResourceState := by
  intro l hl
  have hmatch : ∀ l ∈ recordedSequences,
      barriersMatchStates InitialResourceState l = true := by decide
  refine ⟨hmatch l hl, ?_⟩
  funext r
  simp only [recordedSequences, List.mem_cons, List.mem_singleton, List.not_mem_nil,
    or_false] at hl
  rcases hl with rfl | rfl | rfl | rfl | rfl
  · exact (sequences_restore_states 0 _ (stableStates_initial 0) r).1
  · exact (sequences_restore_states 0 _ (stableStates_initial 0) r).2.1
  · exact (sequences_restore_states 0 _ (stableStates_initial 0) r).2.2.1
  · exact (sequences_restore_states 0 _ (stableStates_initial 0) r).2.2.2
  · exact (sequences_restore_states 1 _ (stableStates_initial 1) r).2.2.2

theorem flatten_consistent (ls : List (List Command))
    (h : ∀ l ∈ ls, barriersMatchStates InitialResourceState l = true ∧
      trackStates InitialResourceState l = InitialResourceState) :
    barriersMatchStates InitialResourceState ls.flatten = true ∧
    trackStates InitialResourceState ls.flatten = InitialResourceState := by
  induction ls with
  | nil => exact ⟨rfl, rfl⟩
  | cons l ls ih =>
    obtain ⟨h1, h2⟩ := h l (List.mem_cons_self _ _)
    obtain ⟨i1, i2⟩ := ih (fun x hx => h x (List.mem_cons_of_mem _ hx))
    rw [List.flatten_cons, barriersMatchStates_append, trackStates_append, h1, h2, i1, i2]
    exact ⟨rfl, rfl⟩

/-- C3: in every run of the loop from startup, whatever the inputs, each
transition barrier recorded names as `StateBefore` the logical state of its
resource at that point, starting from the allocation states, and the resources
are back in their allocation states after every iteration. Each upload-to-device
copy of render-pass 1 is bracketed on the device resource by
UNORDERED_ACCESS to COPY_DEST, copy, COPY_DEST to UNORDERED_ACCESS, and the
read-back copy of render-pass 3 is bracketed on the final-frame texture by
UNORDERED_ACCESS to COPY_SOURCE, copy, COPY_SOURCE to UNORDERED_ACCESS. -/
theorem barriers_match_logical_states (c : LoopConstants) (inputs : List LoopInput) :
    barriersMatchStates InitialResourceState
      (recordedCommands (runLoop c inputs startup).Trace) = true ∧
    trackStates InitialResourceState
      (recordedCommands (runLoop c inputs startup).Trace) = InitialResourceState ∧
    (∀ l ∈ submittedLists (runLoop c inputs startup).Trace, l ∈ recordedSequences) ∧
    commandsOn .L1SpheresBuffer RenderPass1Commands =
      [.ResourceBarrier L1SpheresBufferUnorderedAccessToCopyDest,
       .CopyResource .L1SpheresBuffer .L0SpheresBuffer,
       .ResourceBarrier L1SpheresBufferCopyDestToUnorderedAccess, .Dispatch] ∧
    commandsOn .L1RectanglesBuffer RenderPass1Commands =
      [.ResourceBarrier L1RectanglesBufferUnorderedAccessToCopyDest,
       .CopyResource .L1RectanglesBuffer .L0RectanglesBuffer,
       .ResourceBarrier L1RectanglesBufferCopyDestToUnorderedAccess, .Dispatch] ∧
    commandsOn .L1TrianglesBuffer RenderPass1Commands =
      [.ResourceBarrier L1TrianglesBufferUnorderedAccessToCopyDest,
       .CopyResource .L1TrianglesBuffer .L0TrianglesBuffer,
       .ResourceBarrier L1TrianglesBufferCopyDestToUnorderedAccess, .Dispatch] ∧
    commandsOn .L1ChaosTexels3DTexture RenderPass1Commands =
      [.ResourceBarrier L1ChaosTexels3DTextureUnorderedAccessToCopyDest,
       .CopyTextureRegion .L1ChaosTexels3DTexture .L0ChaosTexelsBuffer,
       .ResourceBarrier L1ChaosTexels3DTextureCopyDestToUnorderedAccess, .Dispatch] ∧
    commandsOn .L1FinalFrame2DTexture RenderPass3Commands =
      [.Dispatch,
       .ResourceBarrier L1FinalFrame2DTextureUnorderedAccessToCopySource,
       .CopyTextureRegion .L0FinalFrameBuffer .L1FinalFrame2DTexture,
       .ResourceBarrier L1FinalFrame2DTextureCopySourceToUnorderedAccess] := by
  have hsub := submitted_of_run c inputs
  obtain ⟨h1, h2⟩ := flatten_consistent _
    (fun l hl => recordedSequences_consistent l (hsub l hl))
  exact ⟨h1, h2, hsub, by decide, by decide, by decide, by decide, by decide⟩

/-- C4: in every state reachable from startup by any number of iterations
with any inputs, exactly one of `CurrentlyRendering` and `CurrentlyPresenting`
is true; in particular they are never both true. -/
theorem exactly_one_mode (c : LoopConstants) (inputs : List LoopInput) :
    ((runLoop c inputs startup).CurrentlyRendering = true ∧
        (runLoop c inputs startup).CurrentlyPresenting = false ∨
      (runLoop c inputs startup).CurrentlyRendering = false ∧
        (runLoop c inputs startup).CurrentlyPresenting = true) ∧
    ¬ ((runLoop c inputs startup).CurrentlyRendering = true ∧
        (runLoop c inputs startup).CurrentlyPresenting = true) := by
  have key : (runLoop c inputs startup).CurrentlyRendering =
      !(runLoop c inputs startup).CurrentlyPresenting := by
    apply runLoop_invariant c (fun s => s.CurrentlyRendering = !s.CurrentlyPresenting)
    · intro inp s hs
      obtain ⟨fin, -, m2, m3⟩ := loopBody_mode c inp s
      obtain ⟨-, a2, a3⟩ := renderingActivation_changed inp s
      rw [m2, m3, a2, a3, hs]
      by_cases ht : inp.LeftButtonUp = true <;>
        by_cases hf : fin = true ∧
          (renderingActivation inp s).CurrentRenderIndex + 1 > c.MaxRenderIndex <;>
        cases hp : s.CurrentlyPresenting <;> simp [ht, hf]
    · rfl
  rw [key]
  cases (runLoop c inputs startup).CurrentlyPresenting <;> simp

theorem mem_recordedBarriers_flatten (ls : List (List Command)) (b : D3D12_RESOURCE_BARRIER)
    (hb : b ∈ recordedBarriers ls.flatten) : ∃ l ∈ ls, b ∈ recordedBarriers l := by
  induction ls with
  | nil => simp [recordedBarriers] at hb
  | cons l ls ih =>
    rw [List.flatten_cons, recordedBarriers_append, List.mem_append] at hb
    rcases hb with hb | hb
    · exact ⟨l, List.mem_cons_self _ _, hb⟩
    · obtain ⟨l2, h1, h2⟩ := ih hb
      exact ⟨l2, List.mem_cons_of_mem _ h1, h2⟩

/-- C8: every transition barrier descriptor the program constructs has
`StateBefore ≠ StateAfter`, and every barrier recorded in any run of the loop
is one of these descriptors, so no command sequence ever records a barrier
whose before and after states are equal. -/
theorem constructed_barriers_change_state (c : LoopConstants) (inputs : List LoopInput) :
    constructedBarriers.length = 26 ∧
    (∀ b ∈ constructedBarriers, b.StateBefore ≠ b.StateAfter) ∧
    (∀ b ∈ recordedBarriers (recordedCommands (runLoop c inputs startup).Trace),
      b ∈ constructedBarriers ∧ b.StateBefore ≠ b.StateAfter) := by
  have hstatic : ∀ b ∈ constructedBarriers, b.StateBefore ≠ b.StateAfter := by decide
  have hseq : ∀ l ∈ recordedSequences, ∀ b ∈ recordedBarriers l,
      b ∈ constructedBarriers := by decide
  refine ⟨rfl, hstatic, ?_⟩
  intro b hb
  obtain ⟨l, hl, hbl⟩ := mem_recordedBarriers_flatten _ b hb
  have hmem := hseq l (submitted_of_run c inputs l hl) b hbl
  exact ⟨hmem, hstatic b hmem⟩

/-- A run that starts with a trigger is the run from the activated state. -/
theorem run_triggered (c : LoopConstants) (first : LoopInput) (rest : List LoopInput)
    (s : LoopState) (hv : first.WindowVisible = true) :
    runLoop c (first :: rest) s =
      runLoop c ({ first with LeftButtonUp := false } :: rest) (renderingActivation first s) := by
  rw [runLoop_cons_visible c first rest s hv,
    runLoop_cons_visible c { first with LeftButtonUp := false } rest _ hv]
  congr 1

/-- Whole frames followed by some samples of the next frame, without a trigger. -/
theorem run_partial (c : LoopConstants) (hk : c.MaxSampleIndex < 2 ^ 32 - 1)
    (q r : Nat) (inputs : List LoopInput) (s : LoopState)
    (hvis : ∀ x ∈ inputs, x.WindowVisible = true)
    (hno : ∀ x ∈ inputs, x.LeftButtonUp = false)
    (hlen : inputs.length = q * (c.MaxSampleIndex + 1) + r) (hr : r ≤ c.MaxSampleIndex)
    (hR : s.CurrentlyRendering = true) (hP : s.CurrentlyPresenting = false)
    (h0 : s.CurrentSampleIndex = 0)
    (hb : s.CurrentRenderIndex + (q : Int) ≤ c.MaxRenderIndex) :
    (runLoop c inputs s).CurrentlyRendering = true ∧
    (runLoop c inputs s).CurrentlyPresenting = false ∧
    (runLoop c inputs s).CurrentSampleIndex = r ∧
    (runLoop c inputs s).CurrentRenderIndex = s.CurrentRenderIndex + (q : Int) ∧
    renderPasses (runLoop c inputs s).Trace =
      renderPasses s.Trace ++ (List.replicate q (framePasses c.MaxSampleIndex)).flatten ++
        (List.replicate r samplePair).flatten := by
  have hsplit : inputs = inputs.take (q * (c.MaxSampleIndex + 1)) ++
      inputs.drop (q * (c.MaxSampleIndex + 1)) := (List.take_append_drop _ _).symm
  have htl : (inputs.take (q * (c.MaxSampleIndex + 1))).length =
      q * (c.MaxSampleIndex + 1) := by
    rw [List.length_take, hlen]; omega
  have hdl : (inputs.drop (q * (c.MaxSampleIndex + 1))).length = r := by
    rw [List.length_drop, hlen]; omega
  have hvt : ∀ y ∈ inputs.take (q * (c.MaxSampleIndex + 1)), y.WindowVisible = true :=
    fun y hy => hvis y (List.mem_of_mem_take hy)
  obtain ⟨f1, f2, f3, -, f5, f6⟩ :=
    run_frames c hk q _ s hvt (fun y hy => hno y (List.mem_of_mem_take hy)) htl hR hP h0
      (by omega)
  have hnot : ¬ (s.CurrentRenderIndex + (q : Int) > c.MaxRenderIndex ∧ 0 < q) := by omega
  simp only [hnot, if_false] at f5 f6
  generalize hm : runLoop c (inputs.take (q * (c.MaxSampleIndex + 1))) s = s1
    at f1 f2 f3 f5 f6
  have hrun : runLoop c inputs s =
      runLoop c (inputs.drop (q * (c.MaxSampleIndex + 1))) s1 := by
    rw [← hm, ← runLoop_append c _ _ s hvt, ← hsplit]
  obtain ⟨i1, i2, i3, -, i5⟩ :=
    run_samples c hk (inputs.drop (q * (c.MaxSampleIndex + 1))) s1
      (fun y hy => hvis y (List.mem_of_mem_drop hy)) f5 (by rw [f1, hdl]; omega)
  obtain ⟨j1, j2⟩ := i5 (fun y hy => hno y (List.mem_of_mem_drop hy))
  rw [hrun]
  rw [hdl] at i1 i3
  exact ⟨i2, by rw [j2, f6], by rw [i1, f1, Nat.zero_add], by rw [j1, f2], by rw [i3, f3]⟩

theorem toInt32_of_lt (n : Nat) (h : n < 2 ^ 31) : toInt32 n = (n : Int) := by
  have h1 : n % 2 ^ 32 = n := Nat.mod_eq_of_lt (by omega)
  unfold toInt32
  rw [h1, if_pos h]

theorem count_flatten_replicate (a : CommandList) (l : List CommandList) (n : Nat) :
    ((List.replicate n l).flatten).count a = n * l.count a := by
  induction n with
  | zero => simp
  | succ n ih =>
    rw [List.replicate_succ, List.flatten_cons, List.count_append, ih, Nat.succ_mul,
      Nat.add_comm]

theorem count_samplePairs (j : Nat) :
    ((List.replicate j samplePair).flatten).count .RP1GraphicsCommandList = j ∧
    ((List.replicate j samplePair).flatten).count .RP2GraphicsCommandList = j ∧
    ((List.replicate j samplePair).flatten).count .RP3GraphicsCommandList = 0 := by
  refine ⟨?_, ?_, ?_⟩ <;> rw [count_flatten_replicate] <;> simp [samplePair]

theorem count_framePasses (n k : Nat) :
    ((List.replicate n (framePasses k)).flatten).count .RP1GraphicsCommandList = n * (k + 1) ∧
    ((List.replicate n (framePasses k)).flatten).count .RP2GraphicsCommandList = n * (k + 1) ∧
    ((List.replicate n (framePasses k)).flatten).count .RP3GraphicsCommandList = n := by
  obtain ⟨h1, h2, h3⟩ := count_samplePairs (k + 1)
  refine ⟨?_, ?_, ?_⟩ <;>
    rw [count_flatten_replicate, framePasses, List.count_append] <;>
    simp [h1, h2, h3]

theorem loopConstants_MaxRenderIndex (n k : Nat) (h : n < 2 ^ 31) :
    (loopConstants n k).MaxRenderIndex = (n : Int) - 1 := by
  simp [loopConstants, toInt32_of_lt n h]

theorem renderingActivation_trigger (first : LoopInput) (s : LoopState)
    (ht : first.LeftButtonUp = true) :
    (renderingActivation first s).CurrentlyRendering = true ∧
    (renderingActivation first s).CurrentlyPresenting = false ∧
    (renderingActivation first s).CurrentRenderIndex = 0 ∧
    (renderingActivation first s).CurrentSampleIndex = s.CurrentSampleIndex ∧
    (renderingActivation first s).Trace = s.Trace := by
  simp [renderingActivation, ht]

/-- The submissions of one frame, iteration by iteration. -/
theorem frame_run_passes (c : LoopConstants)
    (hk : c.MaxSampleIndex < 2 ^ 32 - 1) (s : LoopState)
    (hR : s.CurrentlyRendering = true) (h0 : s.CurrentSampleIndex = 0)
    (inputs : List LoopInput) (hvis : ∀ x ∈ inputs, x.WindowVisible = true)
    (hlen : inputs.length = c.MaxSampleIndex + 1) :
    (∀ j, j ≤ c.MaxSampleIndex →
      renderPasses (runLoop c (inputs.take j) s).Trace =
        renderPasses s.Trace ++ (List.replicate j samplePair).flatten) ∧
    renderPasses (runLoop c inputs s).Trace =
      renderPasses s.Trace ++ (List.replicate (c.MaxSampleIndex + 1) samplePair).flatten ++
        [.RP3GraphicsCommandList] ∧
    (runLoop c inputs s).CurrentSampleIndex = 0 := by
  refine ⟨?_, ?_, ?_⟩
  · intro j hj
    have htl : (inputs.take j).length = j := by
      rw [List.length_take, hlen]; omega
    obtain ⟨-, -, i3, -, -⟩ :=
      run_samples c hk (inputs.take j) s (fun y hy => hvis y (List.mem_of_mem_take hy)) hR
        (by rw [h0, htl]; omega)
    rw [i3, htl]
  · rw [(run_frame c hk inputs s hvis hlen hR h0).2.1, framePasses, List.append_assoc]
  · exact (run_frame c hk inputs s hvis hlen hR h0).1

/-- The run from a trigger at startup to the end of rendering. -/
theorem triggered_run_passes (n k : Nat) (hn : 1 ≤ n) (hn31 : n < 2 ^ 31)
    (hk : k < 2 ^ 32 - 1) (first : LoopInput) (rest : List LoopInput)
    (hfv : first.WindowVisible = true) (hft : first.LeftButtonUp = true)
    (hvis : ∀ x ∈ rest, x.WindowVisible = true) (hno : ∀ x ∈ rest, x.LeftButtonUp = false)
    (hlen : rest.length + 1 = n * (k + 1)) :
    renderPasses (runLoop (loopConstants n k) (first :: rest) startup).Trace =
      (List.replicate n (framePasses k)).flatten ∧
    storedSlots (runLoop (loopConstants n k) (first :: rest) startup).Trace =
      (List.range n).map (fun (i : Nat) => (i : Int)) ∧
    (runLoop (loopConstants n k) (first :: rest) startup).CurrentlyRendering = false ∧
    (runLoop (loopConstants n k) (first :: rest) startup).CurrentlyPresenting = true ∧
    (∀ j, 1 ≤ j → j < n * (k + 1) →
      (runLoop (loopConstants n k) ((first :: rest).take j) startup).CurrentlyRendering = true ∧
      (runLoop (loopConstants n k) ((first :: rest).take j) startup).CurrentlyPresenting
        = false) := by
  have hM := loopConstants_MaxRenderIndex n k hn31
  have hK : (loopConstants n k).MaxSampleIndex = k := rfl
  obtain ⟨a1, a2, a3, a4, a5⟩ := renderingActivation_trigger first startup hft
  have a4' : (renderingActivation first startup).CurrentSampleIndex = 0 := a4
  have hq : ∀ (l : List LoopInput), (∀ x ∈ l, x.WindowVisible = true) →
      (∀ x ∈ l, x.LeftButtonUp = false) →
      (∀ x ∈ ({ first with LeftButtonUp := false } :: l), x.WindowVisible = true) ∧
      (∀ x ∈ ({ first with LeftButtonUp := false } :: l), x.LeftButtonUp = false) := by
    intro l h1 h2
    constructor
    · intro x hx
      rcases List.mem_cons.mp hx with rfl | hx
      · exact hfv
      · exact h1 x hx
    · intro x hx
      rcases List.mem_cons.mp hx with rfl | hx
      · rfl
      · exact h2 x hx
  refine ⟨?_, ?_, ?_, ?_, ?_⟩
  on_goal 5 =>
    intro j hj1 hj2
    obtain ⟨j1, rfl⟩ : ∃ j1, j = j1 + 1 := ⟨j - 1, by omega⟩
    rw [List.take_succ_cons, run_triggered _ first _ startup hfv]
    obtain ⟨v, t⟩ := hq (rest.take j1) (fun y hy => hvis y (List.mem_of_mem_take hy))
      (fun y hy => hno y (List.mem_of_mem_take hy))
    have hlt : (j1 + 1) / (k + 1) < n :=
      Nat.div_lt_of_lt_mul (by rw [Nat.mul_comm]; exact hj2)
    obtain ⟨p1, p2, -, -, -⟩ :=
      run_partial (loopConstants n k) (by rw [hK]; exact hk) ((j1 + 1) / (k + 1))
        ((j1 + 1) % (k + 1)) _ (renderingActivation first startup) v t
        (by
          rw [hK, List.length_cons, List.length_take]
          have := Nat.div_add_mod (j1 + 1) (k + 1)
          have hmin : min j1 rest.length = j1 := by omega
          rw [hmin, Nat.mul_comm]; omega)
        (by rw [hK]; exact Nat.le_of_lt_succ (Nat.mod_lt _ (Nat.succ_pos k))) a1 a2 a4'
        (by rw [a3, hM]; omega)
    exact ⟨p1, p2⟩
  all_goals
    rw [run_triggered _ first rest startup hfv]
    obtain ⟨v, t⟩ := hq rest hvis hno
    obtain ⟨-, -, f3, f4, f5, f6⟩ :=
      run_frames (loopConstants n k) (by rw [hK]; exact hk) n _
        (renderingActivation first startup) v t
        (by rw [hK, List.length_cons]; exact hlen) a1 a2 a4' (by rw [a3, hM]; omega)
    have hlast : (renderingActivation first startup).CurrentRenderIndex + (n : Int) >
        (loopConstants n k).MaxRenderIndex ∧ 0 < n := by
      rw [a3, hM]; constructor <;> omega
    simp only [hlast, if_true, and_self] at f5 f6
    rw [a5] at f3 f4
    rw [a3] at f4
  · simpa [startup, renderPasses, executedLists, hK] using f3
  · simpa [startup, storedSlots] using f4
  · exact f5
  · exact f6

/-- C5: for `MaxSampleIndex = k < 2^32 - 1`, from a state in rendering mode with
`CurrentSampleIndex = 0` and over `k + 1` iterations that do not leave the
loop, whatever else the inputs are: after `j ≤ k` iterations exactly `j` Trace +
Accumulate pairs and no Finalize have been submitted, and after the `(k+1)`-th
iteration exactly `k + 1` pairs followed by exactly one Finalize, which leaves
the sample index at 0 again. -/
theorem frame_is_samples_then_finalize (c : LoopConstants)
    (hk : c.MaxSampleIndex < 2 ^ 32 - 1) (s : LoopState)
    (hR : s.CurrentlyRendering = true) (h0 : s.CurrentSampleIndex = 0)
    (inputs : List LoopInput) (hvis : ∀ x ∈ inputs, x.WindowVisible = true)
    (hlen : inputs.length = c.MaxSampleIndex + 1) :
    (∀ j, j ≤ c.MaxSampleIndex →
      renderPasses (runLoop c (inputs.take j) s).Trace =
        renderPasses s.Trace ++ (List.replicate j samplePair).flatten) ∧
    renderPasses (runLoop c inputs s).Trace =
      renderPasses s.Trace ++ (List.replicate (c.MaxSampleIndex + 1) samplePair).flatten ++
        [.RP3GraphicsCommandList] ∧
    (runLoop c inputs s).CurrentSampleIndex = 0 ∧
    (renderPasses (runLoop c inputs s).Trace).count .RP1GraphicsCommandList =
      (renderPasses s.Trace).count .RP1GraphicsCommandList + (c.MaxSampleIndex + 1) ∧
    (renderPasses (runLoop c inputs s).Trace).count .RP2GraphicsCommandList =
      (renderPasses s.Trace).count .RP2GraphicsCommandList + (c.MaxSampleIndex + 1) ∧
    (renderPasses (runLoop c inputs s).Trace).count .RP3GraphicsCommandList =
      (renderPasses s.Trace).count .RP3GraphicsCommandList + 1 := by
  obtain ⟨h1, h2, h3⟩ := frame_run_passes c hk s hR h0 inputs hvis hlen
  obtain ⟨c1, c2, c3⟩ := count_samplePairs (c.MaxSampleIndex + 1)
  refine ⟨h1, h2, h3, ?_, ?_, ?_⟩ <;>
    rw [h2, List.count_append, List.count_append] <;>
    simp [c1, c2, c3]

/-- C5 at the configured constants, from the state the trigger leaves. -/
theorem frame_is_samples_then_finalize_witness :
    configuredConstants.MaxSampleIndex = 2999 ∧
    (renderingActivation triggerInput startup).CurrentlyRendering = true ∧
    (renderingActivation triggerInput startup).CurrentSampleIndex = 0 ∧
    ((∀ j, j ≤ configuredConstants.MaxSampleIndex →
      renderPasses (runLoop configuredConstants ((List.replicate 3000 quietInput).take j)
          (renderingActivation triggerInput startup)).Trace =
        renderPasses (renderingActivation triggerInput startup).Trace ++
          (List.replicate j samplePair).flatten) ∧
    renderPasses (runLoop configuredConstants (List.replicate 3000 quietInput)
        (renderingActivation triggerInput startup)).Trace =
      renderPasses (renderingActivation triggerInput startup).Trace ++
        (List.replicate (configuredConstants.MaxSampleIndex + 1) samplePair).flatten ++
        [.RP3GraphicsCommandList] ∧
    (runLoop configuredConstants (List.replicate 3000 quietInput)
        (renderingActivation triggerInput startup)).CurrentSampleIndex = 0 ∧
    (renderPasses (runLoop configuredConstants (List.replicate 3000 quietInput)
        (renderingActivation triggerInput startup)).Trace).count .RP1GraphicsCommandList =
      (renderPasses (renderingActivation triggerInput startup).Trace).count
        .RP1GraphicsCommandList + (configuredConstants.MaxSampleIndex + 1) ∧
    (renderPasses (runLoop configuredConstants (List.replicate 3000 quietInput)
        (renderingActivation triggerInput startup)).Trace).count .RP2GraphicsCommandList =
      (renderPasses (renderingActivation triggerInput startup).Trace).count
        .RP2GraphicsCommandList + (configuredConstants.MaxSampleIndex + 1) ∧
    (renderPasses (runLoop configuredConstants (List.replicate 3000 quietInput)
        (renderingActivation triggerInput startup)).Trace).count .RP3GraphicsCommandList =
      (renderPasses (renderingActivation triggerInput startup).Trace).count
        .RP3GraphicsCommandList + 1) :=
  ⟨rfl, rfl, rfl,
    frame_is_samples_then_finalize configuredConstants (by decide)
      (renderingActivation triggerInput startup) rfl rfl (List.replicate 3000 quietInput)
      (fun x hx => by rw [List.eq_of_mem_replicate hx]; rfl)
      (by rw [List.length_replicate]; rfl)⟩

/-- C6: for `FinalFrameCount = n` with `1 ≤ n < 2^31` and `MaxSampleIndex = k <
2^32 - 1`, when the trigger arrives in the startup state and no further trigger
follows, then after exactly `n * (k + 1)` iterations the loop has submitted `n`
times (`k + 1` Trace + Accumulate pairs followed by one Finalize), that is
`n * (k + 1)` pairs and `n` Finalizes, Finalize number `i` having stored its
frame into ring slot `i`, and it is in presenting mode; after every smaller
positive number of iterations it is still in rendering mode. -/
theorem triggered_run_renders_all_frames (n k : Nat) (hn : 1 ≤ n) (hn31 : n < 2 ^ 31)
    (hk : k < 2 ^ 32 - 1) (first : LoopInput) (rest : List LoopInput)
    (hfv : first.WindowVisible = true) (hft : first.LeftButtonUp = true)
    (hvis : ∀ x ∈ rest, x.WindowVisible = true) (hno : ∀ x ∈ rest, x.LeftButtonUp = false)
    (hlen : rest.length + 1 = n * (k + 1)) :
    renderPasses (runLoop (loopConstants n k) (first :: rest) startup).Trace =
      (List.replicate n (framePasses k)).flatten ∧
    (renderPasses (runLoop (loopConstants n k) (first :: rest) startup).Trace).count
      .RP1GraphicsCommandList = n * (k + 1) ∧
    (renderPasses (runLoop (loopConstants n k) (first :: rest) startup).Trace).count
      .RP2GraphicsCommandList = n * (k + 1) ∧
    (renderPasses (runLoop (loopConstants n k) (first :: rest) startup).Trace).count
      .RP3GraphicsCommandList = n ∧
    storedSlots (runLoop (loopConstants n k) (first :: rest) startup).Trace =
      (List.range n).map (fun (i : Nat) => (i : Int)) ∧
    (runLoop (loopConstants n k) (first :: rest) startup).CurrentlyRendering = false ∧
    (runLoop (loopConstants n k) (first :: rest) startup).CurrentlyPresenting = true ∧
    (∀ j, 1 ≤ j → j < n * (k + 1) →
      (runLoop (loopConstants n k) ((first :: rest).take j) startup).CurrentlyRendering = true ∧
      (runLoop (loopConstants n k) ((first :: rest).take j) startup).CurrentlyPresenting
        = false) := by
  obtain ⟨h1, h2, h3, h4, h5⟩ :=
    triggered_run_passes n k hn hn31 hk first rest hfv hft hvis hno hlen
  obtain ⟨c1, c2, c3⟩ := count_framePasses n k
  exact ⟨h1, by rw [h1, c1], by rw [h1, c2], by rw [h1, c3], h2, h3, h4, h5⟩

/-- C6 for the program as configured: `FinalFrameCount = 2`,
`SamplesPerPixel = 3000`, a trigger followed by 5999 quiet iterations. -/
theorem triggered_run_renders_all_frames_witness :
    configuredConstants = loopConstants 2 2999 ∧
    (List.replicate 5999 quietInput).length + 1 = 2 * (2999 + 1) ∧
    (renderPasses (runLoop (loopConstants 2 2999)
        (triggerInput :: List.replicate 5999 quietInput) startup).Trace =
      (List.replicate 2 (framePasses 2999)).flatten ∧
    (renderPasses (runLoop (loopConstants 2 2999)
        (triggerInput :: List.replicate 5999 quietInput) startup).Trace).count
      .RP1GraphicsCommandList = 2 * (2999 + 1) ∧
    (renderPasses (runLoop (loopConstants 2 2999)
        (triggerInput :: List.replicate 5999 quietInput) startup).Trace).count
      .RP2GraphicsCommandList = 2 * (2999 + 1) ∧
    (renderPasses (runLoop (loopConstants 2 2999)
        (triggerInput :: List.replicate 5999 quietInput) startup).Trace).count
      .RP3GraphicsCommandList = 2 ∧
    storedSlots (runLoop (loopConstants 2 2999)
        (triggerInput :: List.replicate 5999 quietInput) startup).Trace =
      (List.range 2).map (fun (i : Nat) => (i : Int)) ∧
    (runLoop (loopConstants 2 2999)
      (triggerInput :: List.replicate 5999 quietInput) startup).CurrentlyRendering = false ∧
    (runLoop (loopConstants 2 2999)
      (triggerInput :: List.replicate 5999 quietInput) startup).CurrentlyPresenting = true ∧
    (∀ j, 1 ≤ j → j < 2 * (2999 + 1) →
      (runLoop (loopConstants 2 2999)
        ((triggerInput :: List.replicate 5999 quietInput).take j) startup).CurrentlyRendering
          = true ∧
      (runLoop (loopConstants 2 2999)
        ((triggerInput :: List.replicate 5999 quietInput).take j) startup).CurrentlyPresenting
          = false)) :=
  ⟨rfl, by rw [List.length_replicate],
    triggered_run_renders_all_frames 2 2999 (by decide) (by decide) (by decide)
      triggerInput (List.replicate 5999 quietInput) rfl rfl
      (fun x hx => by rw [List.eq_of_mem_replicate hx]; rfl)
      (fun x hx => by rw [List.eq_of_mem_replicate hx]; rfl)
      (by rw [List.length_replicate])⟩

/-- C10, as the code has it: with `MaxRenderIndex ≥ 0`, in every state
reachable from startup the render index lies between 0 and
`MaxRenderIndex + 1`, and it is at most `MaxRenderIndex` whenever the loop is in
rendering mode. -/
theorem render_index_bounds (c : LoopConstants) (hM : 0 ≤ c.MaxRenderIndex)
    (inputs : List LoopInput) :
    0 ≤ (runLoop c inputs startup).CurrentRenderIndex ∧
    (runLoop c inputs startup).CurrentRenderIndex ≤ c.MaxRenderIndex + 1 ∧
    ((runLoop c inputs startup).CurrentlyRendering = false ∨
      (runLoop c inputs startup).CurrentRenderIndex ≤ c.MaxRenderIndex) := by
  apply runLoop_invariant c
    (fun s => 0 ≤ s.CurrentRenderIndex ∧ s.CurrentRenderIndex ≤ c.MaxRenderIndex + 1 ∧
      (s.CurrentlyRendering = false ∨ s.CurrentRenderIndex ≤ c.MaxRenderIndex))
  · intro inp s hs
    obtain ⟨h1, h2, h3⟩ := hs
    obtain ⟨fin, m1, m2, -⟩ := loopBody_mode c inp s
    obtain ⟨a1, a2, -⟩ := renderingActivation_changed inp s
    have ha : 0 ≤ (renderingActivation inp s).CurrentRenderIndex ∧
        (renderingActivation inp s).CurrentRenderIndex ≤ c.MaxRenderIndex + 1 ∧
        ((renderingActivation inp s).CurrentlyRendering = false ∨
          (renderingActivation inp s).CurrentRenderIndex ≤ c.MaxRenderIndex) := by
      rw [a1, a2]
      by_cases ht : inp.LeftButtonUp = true
      · simp only [ht, if_true]
        exact ⟨le_refl _, by omega, Or.inr hM⟩
      · simp only [ht, if_false]
        exact ⟨h1, h2, h3⟩
    generalize renderingActivation inp s = a at m1 m2 ha
    obtain ⟨b1, b2, b3⟩ := ha
    rw [m1, m2]
    by_cases hr : a.CurrentlyRendering = true
    · have hle : a.CurrentRenderIndex ≤ c.MaxRenderIndex := by
        rcases b3 with b3 | b3
        · rw [hr] at b3; cases b3
        · exact b3
      by_cases hf : fin = true
      · by_cases hlast : a.CurrentRenderIndex + 1 > c.MaxRenderIndex
        · rw [if_pos ⟨hr, hf⟩, if_pos ⟨hr, hf, hlast⟩]
          exact ⟨by omega, by omega, Or.inl rfl⟩
        · rw [if_pos ⟨hr, hf⟩, if_neg (fun h => hlast h.2.2)]
          exact ⟨by omega, by omega, Or.inr (by omega)⟩
      · rw [if_neg (fun h => hf h.2), if_neg (fun h => hf h.2.1)]
        exact ⟨b1, b2, Or.inr hle⟩
    · rw [if_neg (fun h => hr h.1), if_neg (fun h => hr h.1)]
      exact ⟨b1, b2, b3⟩
  · exact ⟨le_refl _, by simp only [startup]; omega, Or.inl rfl⟩

/-- C10 as the code has it, at the configured constants after one trigger. -/
theorem render_index_bounds_witness :
    0 ≤ configuredConstants.MaxRenderIndex ∧
    (0 ≤ (runLoop configuredConstants [triggerInput] startup).CurrentRenderIndex ∧
    (runLoop configuredConstants [triggerInput] startup).CurrentRenderIndex ≤
      configuredConstants.MaxRenderIndex + 1 ∧
    ((runLoop configuredConstants [triggerInput] startup).CurrentlyRendering = false ∨
      (runLoop configuredConstants [triggerInput] startup).CurrentRenderIndex ≤
        configuredConstants.MaxRenderIndex)) :=
  ⟨by decide, render_index_bounds configuredConstants (by decide) [triggerInput]⟩

/-- C10 fails as stated: in the program as configured (`MaxRenderIndex = 1`), the
state reached by a trigger followed by 5999 quiet iterations has
`CurrentRenderIndex = 2`, which exceeds `MaxRenderIndex`. -/
theorem render_index_exceeds_max :
    configuredConstants.MaxRenderIndex = 1 ∧
    (runLoop configuredConstants (triggerInput :: List.replicate 5999 quietInput)
      startup).CurrentRenderIndex = 2 ∧
    ¬ ((runLoop configuredConstants (triggerInput :: List.replicate 5999 quietInput)
      startup).CurrentRenderIndex ≤ configuredConstants.MaxRenderIndex) := by
  have hc : configuredConstants = loopConstants 2 2999 := rfl
  have hM : configuredConstants.MaxRenderIndex = 1 := by decide
  have hK : configuredConstants.MaxSampleIndex = 2999 := rfl
  obtain ⟨a1, a2, a3, a4, -⟩ := renderingActivation_trigger triggerInput startup rfl
  have hv : ∀ x ∈ ({ triggerInput with LeftButtonUp := false } ::
      List.replicate 5999 quietInput), x.WindowVisible = true := by
    intro x hx
    rcases List.mem_cons.mp hx with rfl | hx
    · rfl
    · rw [List.eq_of_mem_replicate hx]; rfl
  have ht : ∀ x ∈ ({ triggerInput with LeftButtonUp := false } ::
      List.replicate 5999 quietInput), x.LeftButtonUp = false := by
    intro x hx
    rcases List.mem_cons.mp hx with rfl | hx
    · rfl
    · rw [List.eq_of_mem_replicate hx]; rfl
  obtain ⟨-, f2, -, -, -, -⟩ :=
    run_frames configuredConstants (by rw [hK]; decide) 2 _
      (renderingActivation triggerInput startup) hv ht
      (by rw [hK, List.length_cons, List.length_replicate]) a1 a2 a4
      (by rw [a3, hM]; decide)
  rw [a3] at f2
  have hcri : (runLoop configuredConstants (triggerInput :: List.replicate 5999 quietInput)
      startup).CurrentRenderIndex = 2 := by
    rw [run_triggered _ triggerInput _ startup rfl, f2]; rfl
  refine ⟨hM, hcri, ?_⟩
  rw [hcri, hM]
  decide

/-! ## Theorems, part 3: presentation, sample index, frame ring, queue -/

theorem presentedSlots_append (xs ys : List Action) :
    presentedSlots (xs ++ ys) = presentedSlots xs ++ presentedSlots ys := by
  induction xs with
  | nil => rfl
  | cons a as ih => cases a <;> simp [presentedSlots, ih]

theorem updateGeometry_trace (s : LoopState) :
    (updateGeometry s).Trace =
      s.Trace ++
        (if s.CurrentSampleIndex = 0 then [Action.InterpolateGeometry s.CurrentRenderIndex]
          else []) := by
  unfold updateGeometry
  split <;> simp

theorem traceAndAccumulate_trace (c : LoopConstants) (s : LoopState) :
    (traceAndAccumulate c s).Trace =
      s.Trace ++
        (if s.CurrentSampleIndex ≤ c.MaxSampleIndex then
          [ Action.RefreshChaosTexels,
            Action.ExecuteCommandLists .RP1GraphicsCommandList RenderPass1Commands,
            Action.FlushCommandQueue,
            Action.ExecuteCommandLists .RP2GraphicsCommandList RenderPass2Commands,
            Action.FlushCommandQueue ]
          else []) := by
  unfold traceAndAccumulate
  split <;> simp

theorem finalizeFrame_trace (c : LoopConstants) (inp : LoopInput) (s : LoopState) :
    (finalizeFrame c inp s).Trace =
      s.Trace ++
        (if s.CurrentSampleIndex > c.MaxSampleIndex then
          [ Action.ExecuteCommandLists .RP3GraphicsCommandList RenderPass3Commands,
            Action.FlushCommandQueue,
            Action.StoreFinalFrame s.CurrentRenderIndex ]
          else []) := by
  by_cases h1 : s.CurrentSampleIndex > c.MaxSampleIndex
  · by_cases h2 : s.CurrentRenderIndex + 1 > c.MaxRenderIndex <;> simp [finalizeFrame, h1, h2]
  · simp [finalizeFrame, h1]

theorem presentLogic_trace (c : LoopConstants) (inp : LoopInput) (s : LoopState) :
    (presentLogic c inp s).Trace =
      s.Trace ++
        (if s.CurrentlyPresenting = true then
          [ Action.LoadFinalFrame s.CurrentPresentIndex,
            Action.ExecuteCommandLists .PresentGraphicsCommandList
              (PresentCommands inp.BackBufferIndex),
            Action.SwapChainPresent,
            Action.FlushCommandQueue ]
          else []) := by
  unfold presentLogic
  split <;> simp

/-- The rendering logic leaves the present index alone and reads no ring slot
for presentation. -/
theorem renderingLogic_present (c : LoopConstants) (inp : LoopInput) (a : LoopState) :
    (renderingLogic c inp a).CurrentPresentIndex = a.CurrentPresentIndex ∧
    presentedSlots (renderingLogic c inp a).Trace = presentedSlots a.Trace := by
  unfold renderingLogic
  split
  · obtain ⟨-, -, -, g4, -, -, -, -, -⟩ := updateGeometry_unchanged a
    obtain ⟨-, -, t3, -, -, -, -⟩ := traceAndAccumulate_unchanged c (updateGeometry a)
    obtain ⟨f1, -⟩ := finalizeFrame_unchanged c inp (traceAndAccumulate c (updateGeometry a))
    refine ⟨by rw [f1, t3, g4], ?_⟩
    rw [finalizeFrame_trace, traceAndAccumulate_trace, updateGeometry_trace]
    simp only [presentedSlots_append]
    have e1 : presentedSlots
        (if a.CurrentSampleIndex = 0 then [Action.InterpolateGeometry a.CurrentRenderIndex]
          else []) = [] := by
      split <;> rfl
    have e2 : presentedSlots
        (if (updateGeometry a).CurrentSampleIndex ≤ c.MaxSampleIndex then
          [ Action.RefreshChaosTexels,
            Action.ExecuteCommandLists .RP1GraphicsCommandList RenderPass1Commands,
            Action.FlushCommandQueue,
            Action.ExecuteCommandLists .RP2GraphicsCommandList RenderPass2Commands,
            Action.FlushCommandQueue ]
          else []) = [] := by
      split <;> rfl
    have e3 : presentedSlots
        (if (traceAndAccumulate c (updateGeometry a)).CurrentSampleIndex > c.MaxSampleIndex then
          [ Action.ExecuteCommandLists .RP3GraphicsCommandList RenderPass3Commands,
            Action.FlushCommandQueue,
            Action.StoreFinalFrame
              (traceAndAccumulate c (updateGeometry a)).CurrentRenderIndex ]
          else []) = [] := by
      split <;> rfl
    rw [e1, e2, e3, List.append_nil, List.append_nil, List.append_nil]
  · exact ⟨rfl, rfl⟩

/-- The present index and the presented slot of one iteration. -/
theorem loopBody_present (c : LoopConstants) (inp : LoopInput) (s : LoopState) :
    (loopBody c inp s).CurrentPresentIndex =
      (if presentRuns c inp s = true then
        (if s.CurrentPresentIndex + 1 > c.MaxPresentIndex then 0 else s.CurrentPresentIndex + 1)
        else s.CurrentPresentIndex) ∧
    presentedSlots (loopBody c inp s).Trace =
      presentedSlots s.Trace ++
        (if presentRuns c inp s = true then [s.CurrentPresentIndex] else []) := by
  obtain ⟨-, a2, -, -, a5⟩ := renderingActivation_unchanged inp s
  obtain ⟨r1, r2⟩ := renderingLogic_present c inp (renderingActivation inp s)
  obtain ⟨p1, -, -⟩ := presentLogic_changed c inp
    (renderingLogic c inp (renderingActivation inp s))
  rw [a2] at r1
  rw [a5] at r2
  unfold loopBody presentRuns
  refine ⟨by rw [p1, r1], ?_⟩
  rw [presentLogic_trace, presentedSlots_append, r2, r1]
  congr 1
  split <;> rfl

/-- With `MaxPresentIndex ≥ 0` the present index stays between 0 and
`MaxPresentIndex` in every run. -/
theorem present_index_invariant (c : LoopConstants) (hM : 0 ≤ c.MaxPresentIndex)
    (inputs : List LoopInput) :
    0 ≤ (runLoop c inputs startup).CurrentPresentIndex ∧
    (runLoop c inputs startup).CurrentPresentIndex ≤ c.MaxPresentIndex := by
  apply runLoop_invariant c
    (fun s => 0 ≤ s.CurrentPresentIndex ∧ s.CurrentPresentIndex ≤ c.MaxPresentIndex)
  · intro inp s hs
    obtain ⟨h1, h2⟩ := hs
    rw [(loopBody_present c inp s).1]
    by_cases hp : presentRuns c inp s = true
    · by_cases hw : s.CurrentPresentIndex + 1 > c.MaxPresentIndex
      · rw [if_pos hp, if_pos hw]; exact ⟨le_refl _, hM⟩
      · rw [if_pos hp, if_neg hw]; exact ⟨by omega, by omega⟩
    · rw [if_neg hp]; exact ⟨h1, h2⟩
  · exact ⟨le_refl _, hM⟩

/-- In every run the two mode flags are the negation of each other. -/
theorem rendering_eq_not_presenting (c : LoopConstants) (inputs : List LoopInput) :
    (runLoop c inputs startup).CurrentlyRendering =
      !(runLoop c inputs startup).CurrentlyPresenting := by
  apply runLoop_invariant c (fun s => s.CurrentlyRendering = !s.CurrentlyPresenting)
  · intro inp s hs
    obtain ⟨fin, -, m2, m3⟩ := loopBody_mode c inp s
    obtain ⟨-, a2, a3⟩ := renderingActivation_changed inp s
    rw [m2, m3, a2, a3, hs]
    by_cases ht : inp.LeftButtonUp = true <;>
      by_cases hf : fin = true ∧
        (renderingActivation inp s).CurrentRenderIndex + 1 > c.MaxRenderIndex <;>
      cases hp : s.CurrentlyPresenting <;> simp [ht, hf]
  · rfl

/-- An iteration entered in presenting mode without a trigger runs the present
logic. -/
theorem presentRuns_of_presenting (c : LoopConstants) (inputs : List LoopInput)
    (inp : LoopInput) :
    (runLoop c inputs startup).CurrentlyPresenting = true → inp.LeftButtonUp = false →
      presentRuns c inp (runLoop c inputs startup) = true := by
  have hR := rendering_eq_not_presenting c inputs
  generalize runLoop c inputs startup = s at hR ⊢
  intro hP ht
  rw [hP] at hR
  simp [presentRuns, renderingActivation, renderingLogic, ht, hR, hP]

theorem loopConstants_MaxPresentIndex (n k : Nat) (h : n < 2 ^ 31) :
    (loopConstants n k).MaxPresentIndex = (n : Int) - 1 := by
  simp [loopConstants, toInt32_of_lt n h]

/-- C11: for `FinalFrameCount = n` with `1 ≤ n < 2^31`, in every reachable state
`0 ≤ CurrentPresentIndex < n`, and an iteration presents ring slot
`p = CurrentPresentIndex` and replaces the index by `(p + 1) mod n` when its
present logic runs, and leaves the index alone and presents nothing otherwise. -/
theorem present_index_cycles (n k : Nat) (hn : 1 ≤ n) (hn31 : n < 2 ^ 31)
    (inputs : List LoopInput) (inp : LoopInput) :
    0 ≤ (runLoop (loopConstants n k) inputs startup).CurrentPresentIndex ∧
    (runLoop (loopConstants n k) inputs startup).CurrentPresentIndex < (n : Int) ∧
    (loopBody (loopConstants n k) inp
        (runLoop (loopConstants n k) inputs startup)).CurrentPresentIndex =
      (if presentRuns (loopConstants n k) inp (runLoop (loopConstants n k) inputs startup) = true
        then ((runLoop (loopConstants n k) inputs startup).CurrentPresentIndex + 1) % (n : Int)
        else (runLoop (loopConstants n k) inputs startup).CurrentPresentIndex) ∧
    presentedSlots (loopBody (loopConstants n k) inp
        (runLoop (loopConstants n k) inputs startup)).Trace =
      presentedSlots (runLoop (loopConstants n k) inputs startup).Trace ++
        (if presentRuns (loopConstants n k) inp (runLoop (loopConstants n k) inputs startup) = true
          then [(runLoop (loopConstants n k) inputs startup).CurrentPresentIndex] else []) ∧
    ((runLoop (loopConstants n k) inputs startup).CurrentlyPresenting = true →
      inp.LeftButtonUp = false →
      presentRuns (loopConstants n k) inp (runLoop (loopConstants n k) inputs startup) = true)
    := by
  have hM := loopConstants_MaxPresentIndex n k hn31
  obtain ⟨h1, h2⟩ := present_index_invariant (loopConstants n k) (by rw [hM]; omega) inputs
  have hmode := presentRuns_of_presenting (loopConstants n k) inputs inp
  rw [hM] at h2
  generalize runLoop (loopConstants n k) inputs startup = s at h1 h2 hmode ⊢
  obtain ⟨b1, b2⟩ := loopBody_present (loopConstants n k) inp s
  refine ⟨h1, by omega, ?_, b2, hmode⟩
  rw [b1, hM]
  by_cases hp : presentRuns (loopConstants n k) inp s = true
  · rw [if_pos hp, if_pos hp]
    by_cases hw : s.CurrentPresentIndex + 1 > (n : Int) - 1
    · have he : s.CurrentPresentIndex + 1 = (n : Int) := by omega
      rw [if_pos hw, he, Int.emod_self]
    · rw [if_neg hw, Int.emod_eq_of_lt (by omega) (by omega)]
  · rw [if_neg hp, if_neg hp]

/-- C11 for the program as configured, after three quiet iterations. -/
theorem present_index_cycles_witness :
    1 ≤ 2 ∧ 2 < 2 ^ 31 ∧
    (0 ≤ (runLoop (loopConstants 2 2999) [quietInput, quietInput, quietInput]
      startup).CurrentPresentIndex ∧
    (runLoop (loopConstants 2 2999) [quietInput, quietInput, quietInput]
      startup).CurrentPresentIndex < ((2 : Nat) : Int) ∧
    (loopBody (loopConstants 2 2999) quietInput
        (runLoop (loopConstants 2 2999) [quietInput, quietInput, quietInput]
          startup)).CurrentPresentIndex =
      (if presentRuns (loopConstants 2 2999) quietInput
          (runLoop (loopConstants 2 2999) [quietInput, quietInput, quietInput] startup) = true
        then ((runLoop (loopConstants 2 2999) [quietInput, quietInput, quietInput]
          startup).CurrentPresentIndex + 1) % ((2 : Nat) : Int)
        else (runLoop (loopConstants 2 2999) [quietInput, quietInput, quietInput]
          startup).CurrentPresentIndex) ∧
    presentedSlots (loopBody (loopConstants 2 2999) quietInput
        (runLoop (loopConstants 2 2999) [quietInput, quietInput, quietInput]
          startup)).Trace =
      presentedSlots (runLoop (loopConstants 2 2999) [quietInput, quietInput, quietInput]
        startup).Trace ++
        (if presentRuns (loopConstants 2 2999) quietInput
            (runLoop (loopConstants 2 2999) [quietInput, quietInput, quietInput] startup) = true
          then [(runLoop (loopConstants 2 2999) [quietInput, quietInput, quietInput]
            startup).CurrentPresentIndex] else []) ∧
    ((runLoop (loopConstants 2 2999) [quietInput, quietInput, quietInput]
        startup).CurrentlyPresenting = true →
      quietInput.LeftButtonUp = false →
      presentRuns (loopConstants 2 2999) quietInput
        (runLoop (loopConstants 2 2999) [quietInput, quietInput, quietInput] startup) = true)) :=
  ⟨by decide, by decide,
    present_index_cycles 2 2999 (by decide) (by decide) [quietInput, quietInput, quietInput]
      quietInput⟩

/-- An iteration whose rendering logic does not run changes neither the sample
index nor the frame ring and submits no render pass. -/
theorem loopBody_idle (c : LoopConstants) (inp : LoopInput) (s : LoopState)
    (hR : renderingRuns inp s = false) :
    (loopBody c inp s).CurrentSampleIndex = s.CurrentSampleIndex ∧
    (loopBody c inp s).CurrentRenderIndex = (renderingActivation inp s).CurrentRenderIndex ∧
    (loopBody c inp s).HostFinalFrameBuffers = s.HostFinalFrameBuffers ∧
    storedSlots (loopBody c inp s).Trace = storedSlots s.Trace ∧
    renderPasses (loopBody c inp s).Trace = renderPasses s.Trace := by
  obtain ⟨a1, -, -, a4, a5⟩ := renderingActivation_unchanged inp s
  obtain ⟨p1, p2, -, -, -, p6, p7, p8⟩ := presentLogic_unchanged c inp
    (renderingActivation inp s)
  unfold renderingRuns at hR
  have hlogic : renderingLogic c inp (renderingActivation inp s) = renderingActivation inp s := by
    unfold renderingLogic
    rw [hR]
    rfl
  unfold loopBody
  rw [hlogic, p1, p2, p6, p7, p8, a1, a4, a5]
  exact ⟨rfl, rfl, rfl, rfl, rfl⟩

/-- In every run the sample index stays within `MaxSampleIndex`. -/
theorem sample_index_invariant (c : LoopConstants) (hk : c.MaxSampleIndex < 2 ^ 32 - 1)
    (inputs : List LoopInput) :
    (runLoop c inputs startup).CurrentSampleIndex ≤ c.MaxSampleIndex := by
  apply runLoop_invariant c (fun s => s.CurrentSampleIndex ≤ c.MaxSampleIndex)
  · intro inp s hs
    by_cases hR : renderingRuns inp s = true
    · obtain ⟨b1, -⟩ := loopBody_rendering c inp s hR hs hk
      rw [b1]
      split <;> omega
    · have hR2 : renderingRuns inp s = false := by simpa using hR
      rw [(loopBody_idle c inp s hR2).1]
      exact hs
  · exact Nat.zero_le _

/-- C12: for `MaxSampleIndex = k < 2^32 - 1`, in every reachable state
`CurrentSampleIndex ≤ k`; an iteration whose rendering logic runs replaces the
sample index `j` by `j + 1` when `j < k` and by 0 when `j = k`, and the render
index is incremented, by exactly one, in exactly the iterations with `j = k`; any
other iteration changes neither. Within a frame the sample index takes the
values 0, 1, ..., `k` in that order, one per iteration. -/
theorem sample_index_progress (c : LoopConstants) (hk : c.MaxSampleIndex < 2 ^ 32 - 1)
    (inputs : List LoopInput) (inp : LoopInput) :
    (runLoop c inputs startup).CurrentSampleIndex ≤ c.MaxSampleIndex ∧
    (loopBody c inp (runLoop c inputs startup)).CurrentSampleIndex =
      (if renderingRuns inp (runLoop c inputs startup) = true then
        (if (runLoop c inputs startup).CurrentSampleIndex = c.MaxSampleIndex then 0
          else (runLoop c inputs startup).CurrentSampleIndex + 1)
        else (runLoop c inputs startup).CurrentSampleIndex) ∧
    (loopBody c inp (runLoop c inputs startup)).CurrentRenderIndex =
      (if renderingRuns inp (runLoop c inputs startup) = true ∧
          (runLoop c inputs startup).CurrentSampleIndex = c.MaxSampleIndex
        then (renderingActivation inp (runLoop c inputs startup)).CurrentRenderIndex + 1
        else (renderingActivation inp (runLoop c inputs startup)).CurrentRenderIndex) ∧
    (∀ (t : LoopState) (frameInputs : List LoopInput),
      (∀ x ∈ frameInputs, x.WindowVisible = true) →
      t.CurrentlyRendering = true → t.CurrentSampleIndex = 0 →
      frameInputs.length ≤ c.MaxSampleIndex →
      (runLoop c frameInputs t).CurrentSampleIndex = frameInputs.length) := by
  have hinv := sample_index_invariant c hk inputs
  generalize runLoop c inputs startup = s at hinv ⊢
  refine ⟨hinv, ?_, ?_, ?_⟩
  · by_cases hR : renderingRuns inp s = true
    · rw [if_pos hR, (loopBody_rendering c inp s hR hinv hk).1]
    · have hR2 : renderingRuns inp s = false := by simpa using hR
      rw [if_neg hR, (loopBody_idle c inp s hR2).1]
  · by_cases hR : renderingRuns inp s = true
    · rw [(loopBody_rendering c inp s hR hinv hk).2.1]
      by_cases he : s.CurrentSampleIndex = c.MaxSampleIndex
      · rw [if_pos he, if_pos ⟨hR, he⟩]
      · rw [if_neg he, if_neg (fun h => he h.2)]
    · have hR2 : renderingRuns inp s = false := by simpa using hR
      rw [if_neg (fun h => hR h.1), (loopBody_idle c inp s hR2).2.1]
  · intro t frameInputs hvis hR h0 hlen
    obtain ⟨i1, -⟩ := run_samples c hk frameInputs t hvis hR (by rw [h0]; omega)
    rw [i1, h0, Nat.zero_add]

/-- C12 for the program as configured, in the state one trigger leaves. -/
theorem sample_index_progress_witness :
    configuredConstants.MaxSampleIndex < 2 ^ 32 - 1 ∧
    ((runLoop configuredConstants [triggerInput] startup).CurrentSampleIndex ≤
      configuredConstants.MaxSampleIndex ∧
    (loopBody configuredConstants quietInput
        (runLoop configuredConstants [triggerInput] startup)).CurrentSampleIndex =
      (if renderingRuns quietInput (runLoop configuredConstants [triggerInput] startup) = true
        then
        (if (runLoop configuredConstants [triggerInput] startup).CurrentSampleIndex =
            configuredConstants.MaxSampleIndex then 0
          else (runLoop configuredConstants [triggerInput] startup).CurrentSampleIndex + 1)
        else (runLoop configuredConstants [triggerInput] startup).CurrentSampleIndex) ∧
    (loopBody configuredConstants quietInput
        (runLoop configuredConstants [triggerInput] startup)).CurrentRenderIndex =
      (if renderingRuns quietInput (runLoop configuredConstants [triggerInput] startup) = true ∧
          (runLoop configuredConstants [triggerInput] startup).CurrentSampleIndex =
            configuredConstants.MaxSampleIndex
        then (renderingActivation quietInput
          (runLoop configuredConstants [triggerInput] startup)).CurrentRenderIndex + 1
        else (renderingActivation quietInput
          (runLoop configuredConstants [triggerInput] startup)).CurrentRenderIndex) ∧
    (∀ (t : LoopState) (frameInputs : List LoopInput),
      (∀ x ∈ frameInputs, x.WindowVisible = true) →
      t.CurrentlyRendering = true → t.CurrentSampleIndex = 0 →
      frameInputs.length ≤ configuredConstants.MaxSampleIndex →
      (runLoop configuredConstants frameInputs t).CurrentSampleIndex = frameInputs.length)) :=
  ⟨by decide, sample_index_progress configuredConstants (by decide) [triggerInput] quietInput⟩

/-- The frame ring after one iteration: a slot changes only when Finalize runs,
and then only the slot at the render index. -/
theorem loopBody_ring (c : LoopConstants) (inp : LoopInput) (s : LoopState) :
    (loopBody c inp s).HostFinalFrameBuffers =
      (if finalizeRuns c inp s = true then
        (fun i => if i = (renderingActivation inp s).CurrentRenderIndex
          then FrameContents.Rendered inp.FinalFramePixels else s.HostFinalFrameBuffers i)
        else s.HostFinalFrameBuffers) ∧
    storedSlots (loopBody c inp s).Trace =
      storedSlots s.Trace ++
        (if finalizeRuns c inp s = true then [(renderingActivation inp s).CurrentRenderIndex]
          else []) ∧
    (renderPasses (loopBody c inp s).Trace).count .RP3GraphicsCommandList =
      (renderPasses s.Trace).count .RP3GraphicsCommandList +
        (if finalizeRuns c inp s = true then 1 else 0) := by
  by_cases hR : renderingRuns inp s = true
  · have hR1 : (renderingActivation inp s).CurrentlyRendering = true := hR
    obtain ⟨-, -, -, a4, a5⟩ := renderingActivation_unchanged inp s
    obtain ⟨-, g2, -, -, -, g6, g7, g8, -⟩ := updateGeometry_unchanged (renderingActivation inp s)
    obtain ⟨t1, -, -, -, -, t6, t7⟩ :=
      traceAndAccumulate_unchanged c (updateGeometry (renderingActivation inp s))
    obtain ⟨-, u2, -⟩ :=
      traceAndAccumulate_changed c (updateGeometry (renderingActivation inp s))
    obtain ⟨-, -, -, -, f5, f6, f7, -⟩ :=
      finalizeFrame_changed c inp (traceAndAccumulate c (updateGeometry (renderingActivation inp s)))
    obtain ⟨-, -, -, -, -, p6, p7, p8⟩ := presentLogic_unchanged c inp
      (finalizeFrame c inp (traceAndAccumulate c (updateGeometry (renderingActivation inp s))))
    have hfin : finalizeRuns c inp s = true ↔
        (traceAndAccumulate c (updateGeometry (renderingActivation inp s))).CurrentSampleIndex
          > c.MaxSampleIndex := by
      simp [finalizeRuns, hR]
    simp only [loopBody, renderingLogic, hR1, if_true]
    rw [p6, p7, p8, f5, f7, t1, t6, t7, g2, g6, g8, a4, a5]
    refine ⟨?_, ?_, ?_⟩
    · by_cases hf : finalizeRuns c inp s = true
      · rw [if_pos hf, if_pos (hfin.mp hf)]
      · rw [if_neg hf, if_neg (fun h => hf (hfin.mpr h))]
    · by_cases hf : finalizeRuns c inp s = true
      · rw [if_pos hf, if_pos (hfin.mp hf)]
      · rw [if_neg hf, if_neg (fun h => hf (hfin.mpr h))]
    · simp only [renderPasses]
      rw [f6, u2, g7, a5]
      by_cases hf : finalizeRuns c inp s = true
      · rw [if_pos hf, if_pos (hfin.mp hf)]
        split <;> simp [samplePair, List.count_append]
      · rw [if_neg hf, if_neg (fun h => hf (hfin.mpr h))]
        split <;> simp [samplePair, List.count_append]
  · have hR2 : renderingRuns inp s = false := by simpa using hR
    obtain ⟨-, -, i3, i4, i5⟩ := loopBody_idle c inp s hR2
    have hf : ¬ finalizeRuns c inp s = true := by simp [finalizeRuns, hR2]
    rw [i3, i4, i5, if_neg hf, if_neg hf, if_neg hf]
    simp

/-- C13: processing the trigger yields `CurrentlyRendering = true`,
`CurrentlyPresenting = false` and `CurrentRenderIndex = 0` and leaves every
frame record of the ring unchanged; and in any iteration a ring slot changes
only when Finalize runs, which writes the slot at the render index and no
other slot, stores there once and is the one submission of render-pass 3. -/
theorem trigger_resets_index_and_keeps_ring (c : LoopConstants) (inp : LoopInput)
    (s : LoopState) (hP : s.CurrentlyPresenting = true) (ht : inp.LeftButtonUp = true)
    (inp2 : LoopInput) (s2 : LoopState) :
    (renderingActivation inp s).CurrentlyRendering = true ∧
    (renderingActivation inp s).CurrentlyPresenting = false ∧
    (renderingActivation inp s).CurrentRenderIndex = 0 ∧
    (renderingActivation inp s).HostFinalFrameBuffers = s.HostFinalFrameBuffers ∧
    (loopBody c inp2 s2).HostFinalFrameBuffers =
      (if finalizeRuns c inp2 s2 = true then
        (fun i => if i = (renderingActivation inp2 s2).CurrentRenderIndex
          then FrameContents.Rendered inp2.FinalFramePixels else s2.HostFinalFrameBuffers i)
        else s2.HostFinalFrameBuffers) ∧
    storedSlots (loopBody c inp2 s2).Trace =
      storedSlots s2.Trace ++
        (if finalizeRuns c inp2 s2 = true then [(renderingActivation inp2 s2).CurrentRenderIndex]
          else []) ∧
    (renderPasses (loopBody c inp2 s2).Trace).count .RP3GraphicsCommandList =
      (renderPasses s2.Trace).count .RP3GraphicsCommandList +
        (if finalizeRuns c inp2 s2 = true then 1 else 0) := by
  have _ := hP
  obtain ⟨a1, a2, a3, -, -⟩ := renderingActivation_trigger inp s ht
  obtain ⟨-, -, -, a4, -⟩ := renderingActivation_unchanged inp s
  obtain ⟨r1, r2, r3⟩ := loopBody_ring c inp2 s2
  exact ⟨a1, a2, a3, a4, r1, r2, r3⟩

/-- C13 at startup with the trigger, and for the iteration that follows. -/
theorem trigger_resets_index_and_keeps_ring_witness :
    startup.CurrentlyPresenting = true ∧ triggerInput.LeftButtonUp = true ∧
    ((renderingActivation triggerInput startup).CurrentlyRendering = true ∧
    (renderingActivation triggerInput startup).CurrentlyPresenting = false ∧
    (renderingActivation triggerInput startup).CurrentRenderIndex = 0 ∧
    (renderingActivation triggerInput startup).HostFinalFrameBuffers =
      startup.HostFinalFrameBuffers ∧
    (loopBody configuredConstants quietInput
        (loopBody configuredConstants triggerInput startup)).HostFinalFrameBuffers =
      (if finalizeRuns configuredConstants quietInput
          (loopBody configuredConstants triggerInput startup) = true then
        (fun i => if i = (renderingActivation quietInput
            (loopBody configuredConstants triggerInput startup)).CurrentRenderIndex
          then FrameContents.Rendered quietInput.FinalFramePixels
          else (loopBody configuredConstants triggerInput startup).HostFinalFrameBuffers i)
        else (loopBody configuredConstants triggerInput startup).HostFinalFrameBuffers) ∧
    storedSlots (loopBody configuredConstants quietInput
        (loopBody configuredConstants triggerInput startup)).Trace =
      storedSlots (loopBody configuredConstants triggerInput startup).Trace ++
        (if finalizeRuns configuredConstants quietInput
            (loopBody configuredConstants triggerInput startup) = true
          then [(renderingActivation quietInput
            (loopBody configuredConstants triggerInput startup)).CurrentRenderIndex]
          else []) ∧
    (renderPasses (loopBody configuredConstants quietInput
        (loopBody configuredConstants triggerInput startup)).Trace).count
        .RP3GraphicsCommandList =
      (renderPasses (loopBody configuredConstants triggerInput startup).Trace).count
        .RP3GraphicsCommandList +
        (if finalizeRuns configuredConstants quietInput
          (loopBody configuredConstants triggerInput startup) = true then 1 else 0)) :=
  ⟨rfl, rfl,
    trigger_resets_index_and_keeps_ring configuredConstants triggerInput startup rfl rfl
      quietInput (loopBody configuredConstants triggerInput startup)⟩

theorem queueDiscipline_append (pending : Bool) (xs ys : List Action) :
    queueDiscipline pending (xs ++ ys) =
      (queueDiscipline pending xs).bind (fun q => queueDiscipline q ys) := by
  induction xs generalizing pending with
  | nil => rfl
  | cons a as ih =>
    cases a <;> cases pending <;> simp [queueDiscipline, ih]

/-- Actions that keep the discipline on their own keep it when appended. -/
theorem queueDiscipline_extend (t news : List Action)
    (ht : queueDiscipline false t = some false)
    (hn : queueDiscipline false news = some false) :
    queueDiscipline false (t ++ news) = some false := by
  rw [queueDiscipline_append, ht]
  exact hn

/-- Every iteration keeps the queue discipline. -/
theorem loopBody_queueDiscipline (c : LoopConstants) (inp : LoopInput) (s : LoopState)
    (hs : queueDiscipline false s.Trace = some false) :
    queueDiscipline false (loopBody c inp s).Trace = some false := by
  obtain ⟨-, -, -, -, a5⟩ := renderingActivation_unchanged inp s
  have hlogic : queueDiscipline false
      (renderingLogic c inp (renderingActivation inp s)).Trace = some false := by
    unfold renderingLogic
    split
    · rw [finalizeFrame_trace, traceAndAccumulate_trace, updateGeometry_trace, a5]
      apply queueDiscipline_extend
      · apply queueDiscipline_extend
        · apply queueDiscipline_extend _ _ hs
          split <;> rfl
        · split <;> rfl
      · split <;> rfl
    · rw [a5]; exact hs
  unfold loopBody
  rw [presentLogic_trace]
  apply queueDiscipline_extend _ _ hlogic
  split <;> rfl

/-- C18: in the trace of any run of the loop, every `ExecuteCommandLists`
submission is followed by a `FlushCommandQueue` fence wait before the next
`ExecuteCommandLists`, and none is pending at an iteration boundary: at most one
submitted command sequence is outstanding at any point. -/
theorem one_submission_outstanding (c : LoopConstants) (inputs : List LoopInput) :
    queueDiscipline false (runLoop c inputs startup).Trace = some false :=
  runLoop_invariant c (fun s => queueDiscipline false s.Trace = some false)
    (fun inp s hs => loopBody_queueDiscipline c inp s hs) inputs startup rfl

/-! ## Theorems, part 4: startup configuration -/

/-- With non-zero group dimensions the outcome is decided by the three
remainders alone. -/
theorem SetGroupCountPerGrid_nonzero (grid group : uint3)
    (hx : group.x ≠ 0) (hy : group.y ≠ 0) (hz : group.z ≠ 0) :
    SetGroupCountPerGrid grid group =
      (if grid.x % group.x = 0 ∧ grid.y % group.y = 0 ∧ grid.z % group.z = 0 then
        .returned { x := grid.x / group.x, y := grid.y / group.y, z := grid.z / group.z }
        else .workloadScalingError) := by
  unfold SetGroupCountPerGrid
  by_cases h1 : grid.x % group.x = 0 <;> by_cases h2 : grid.y % group.y = 0 <;>
    by_cases h3 : grid.z % group.z = 0 <;> simp [hx, hy, hz, h1, h2, h3]

/-- C16: when the group dimensions are non-zero and each divides the
corresponding grid dimension, `SetGroupCountPerGrid` returns the component-wise
quotient `c` with `c.x * group.x = grid.x`, `c.y * group.y = grid.y` and
`c.z * group.z = grid.z`; for the configured 1280 x 720 x 1 grid and
128 x 8 x 1 group the result is 10 x 90 x 1. -/
theorem SetGroupCountPerGrid_exact (grid group : uint3)
    (hx : group.x ≠ 0) (hy : group.y ≠ 0) (hz : group.z ≠ 0)
    (dx : group.x ∣ grid.x) (dy : group.y ∣ grid.y) (dz : group.z ∣ grid.z) :
    SetGroupCountPerGrid grid group =
      .returned { x := grid.x / group.x, y := grid.y / group.y, z := grid.z / group.z } ∧
    grid.x / group.x * group.x = grid.x ∧
    grid.y / group.y * group.y = grid.y ∧
    grid.z / group.z * group.z = grid.z ∧
    GridDimensionsByGroup = .returned { x := 10, y := 90, z := 1 } := by
  refine ⟨?_, Nat.div_mul_cancel dx, Nat.div_mul_cancel dy, Nat.div_mul_cancel dz, by decide⟩
  rw [SetGroupCountPerGrid_nonzero grid group hx hy hz,
    if_pos ⟨Nat.mod_eq_zero_of_dvd dx, Nat.mod_eq_zero_of_dvd dy, Nat.mod_eq_zero_of_dvd dz⟩]

/-- C16 at the configured grid and group. -/
theorem SetGroupCountPerGrid_exact_witness :
    TSGroupDimensions.x ≠ 0 ∧ TSGroupDimensions.y ≠ 0 ∧ TSGroupDimensions.z ≠ 0 ∧
    TSGroupDimensions.x ∣ TSGridDimensions.x ∧ TSGroupDimensions.y ∣ TSGridDimensions.y ∧
    TSGroupDimensions.z ∣ TSGridDimensions.z ∧
    (SetGroupCountPerGrid TSGridDimensions TSGroupDimensions =
      .returned { x := TSGridDimensions.x / TSGroupDimensions.x,
                  y := TSGridDimensions.y / TSGroupDimensions.y,
                  z := TSGridDimensions.z / TSGroupDimensions.z } ∧
    TSGridDimensions.x / TSGroupDimensions.x * TSGroupDimensions.x = TSGridDimensions.x ∧
    TSGridDimensions.y / TSGroupDimensions.y * TSGroupDimensions.y = TSGridDimensions.y ∧
    TSGridDimensions.z / TSGroupDimensions.z * TSGroupDimensions.z = TSGridDimensions.z ∧
    GridDimensionsByGroup = .returned { x := 10, y := 90, z := 1 }) :=
  ⟨by decide, by decide, by decide, by decide, by decide, by decide,
    SetGroupCountPerGrid_exact TSGridDimensions TSGroupDimensions (by decide) (by decide)
      (by decide) (by decide) (by decide) (by decide)⟩

/-- C17: for every grid and every group with non-zero dimensions,
`SetGroupCountPerGrid` ends in the workload scaling error, returning no group
count, if and only if at least one grid dimension is not an exact multiple of
the corresponding group dimension; otherwise it returns the quotient. -/
theorem SetGroupCountPerGrid_error_iff (grid group : uint3)
    (hx : group.x ≠ 0) (hy : group.y ≠ 0) (hz : group.z ≠ 0) :
    (SetGroupCountPerGrid grid group = .workloadScalingError ↔
      (¬ group.x ∣ grid.x ∨ ¬ group.y ∣ grid.y ∨ ¬ group.z ∣ grid.z)) ∧
    (SetGroupCountPerGrid grid group = .workloadScalingError ∨
      SetGroupCountPerGrid grid group =
        .returned { x := grid.x / group.x, y := grid.y / group.y, z := grid.z / group.z }) := by
  rw [SetGroupCountPerGrid_nonzero grid group hx hy hz]
  simp only [Nat.dvd_iff_mod_eq_zero]
  by_cases h : grid.x % group.x = 0 ∧ grid.y % group.y = 0 ∧ grid.z % group.z = 0
  · rw [if_pos h]
    refine ⟨⟨fun hc => Outcome.noConfusion hc, fun hc => ?_⟩, Or.inr rfl⟩
    rcases hc with hc | hc | hc
    · exact absurd h.1 hc
    · exact absurd h.2.1 hc
    · exact absurd h.2.2 hc
  · rw [if_neg h]
    refine ⟨⟨fun _ => ?_, fun _ => rfl⟩, Or.inl rfl⟩
    by_cases h1 : grid.x % group.x = 0
    · by_cases h2 : grid.y % group.y = 0
      · exact Or.inr (Or.inr (fun h3 => h ⟨h1, h2, h3⟩))
      · exact Or.inr (Or.inl h2)
    · exact Or.inl h1

/-- C17 for the configured grid with a group height of 7, which does not
divide 720. -/
theorem SetGroupCountPerGrid_error_iff_witness :
    (128 : Nat) ≠ 0 ∧ (7 : Nat) ≠ 0 ∧ (1 : Nat) ≠ 0 ∧
    ((SetGroupCountPerGrid TSGridDimensions { x := 128, y := 7, z := 1 } =
        .workloadScalingError ↔
      (¬ (128 : Nat) ∣ TSGridDimensions.x ∨ ¬ (7 : Nat) ∣ TSGridDimensions.y ∨
        ¬ (1 : Nat) ∣ TSGridDimensions.z)) ∧
    (SetGroupCountPerGrid TSGridDimensions { x := 128, y := 7, z := 1 } =
        .workloadScalingError ∨
      SetGroupCountPerGrid TSGridDimensions { x := 128, y := 7, z := 1 } =
        .returned { x := TSGridDimensions.x / 128, y := TSGridDimensions.y / 7,
                    z := TSGridDimensions.z / 1 })) :=
  ⟨by decide, by decide, by decide,
    SetGroupCountPerGrid_error_iff TSGridDimensions { x := 128, y := 7, z := 1 }
      (by decide) (by decide) (by decide)⟩

/-- C19: the global descriptor heap is filled with exactly 9 unordered-access
views, in the order spheres, rectangles, triangles, chaos texels, intersection
maps 01, 02, 03, accumulation frame, final frame, which is the order of the
descriptor table; view `i` is written at `heapStart + i * increment`, computed
in 64-bit unsigned arithmetic, which is that very number when the heap lies in
the address space; afterwards `CurrentDescriptorIndex = GlobalDescriptorCount =
9`, the size of the descriptor range of the root signature. -/
theorem descriptor_heap_filled_in_order (heapStart DescriptorHandleIncrementSize : Nat) :
    (fillGlobalDescriptorHeap heapStart DescriptorHandleIncrementSize).Views.length = 9 ∧
    (fillGlobalDescriptorHeap heapStart DescriptorHandleIncrementSize).Views.map
      UnorderedAccessView.pResource = descriptorTable ∧
    (fillGlobalDescriptorHeap heapStart DescriptorHandleIncrementSize).Views.map
        UnorderedAccessView.DestDescriptor =
      (List.range 9).map
        (fun i => (heapStart + (i * DescriptorHandleIncrementSize) % 2 ^ 64) % 2 ^ 64) ∧
    (heapStart + 8 * DescriptorHandleIncrementSize < 2 ^ 64 →
      (fillGlobalDescriptorHeap heapStart DescriptorHandleIncrementSize).Views.map
          UnorderedAccessView.DestDescriptor =
        (List.range 9).map (fun i => heapStart + i * DescriptorHandleIncrementSize)) ∧
    (fillGlobalDescriptorHeap heapStart DescriptorHandleIncrementSize).CurrentDescriptorIndex =
      GlobalDescriptorCount ∧
    GlobalDescriptorCount = 9 ∧
    GlobalRootSignature.NumDescriptors = GlobalDescriptorCount ∧
    GlobalRootSignature.NumDescriptorRanges = 1 := by
  have hviews : (fillGlobalDescriptorHeap heapStart DescriptorHandleIncrementSize).Views.map
        UnorderedAccessView.DestDescriptor =
      (List.range 9).map
        (fun i => (heapStart + (i * DescriptorHandleIncrementSize) % 2 ^ 64) % 2 ^ 64) := by
    simp [fillGlobalDescriptorHeap, viewedResources, createUnorderedAccessView, List.range,
      List.range.loop]
  refine ⟨?_, ?_, hviews, ?_, ?_, rfl, rfl, rfl⟩
  · simp [fillGlobalDescriptorHeap, viewedResources, createUnorderedAccessView]
  · simp [fillGlobalDescriptorHeap, viewedResources, createUnorderedAccessView, descriptorTable]
  · intro hfit
    rw [hviews]
    apply List.map_congr_left
    intro i hi
    have hi9 : i < 9 := List.mem_range.mp hi
    have hle : i * DescriptorHandleIncrementSize ≤ 8 * DescriptorHandleIncrementSize :=
      Nat.mul_le_mul_right _ (by omega)
    rw [Nat.mod_eq_of_lt (by omega), Nat.mod_eq_of_lt (by omega)]
  · simp [fillGlobalDescriptorHeap, viewedResources, createUnorderedAccessView,
      GlobalDescriptorCount]

/-- C20: `sizeof(InlineRootConstants)` is 128 bytes, so `RootConstantCount` is
32 32-bit words, the sum of the scalar counts of its members, padding members
included; this is the count each dispatching command list sets before its
dispatch, and it does not exceed the 60 values the root signature declares. -/
theorem root_constants_fit :
    sizeofInlineRootConstants = 128 ∧
    RootConstantCount = 32 ∧
    RootConstantCount =
      ((InlineRootConstantsMembers.map InlineRootConstantsMember.type).map
        MemberType.scalars).sum ∧
    InlineRootConstantsMembers.length = 22 ∧
    Num32BitValuesToSet = RootConstantCount ∧
    GlobalRootSignature.Num32BitValues = 60 ∧
    Num32BitValuesToSet ≤ GlobalRootSignature.Num32BitValues ∧
    dispatchingSequences.all (constantsSetBeforeDispatch false) = true := by
  decide

/-! ## Theorems, part 5: geometry, interpolation and copy sizes -/

/-- C21 (fails for a single frame): with `FinalFrameCount = 1` the divisor
`MaxRenderIndex` of line 1226 is 0, the triggered loop interpolates the
geometry of its only frame at render index 0, and the tick it computes is
`2.0f * ((float)0 / (float)0)`: the division is by the conversion of zero. -/
theorem single_frame_tick_divides_by_zero {F D : Type} (ops : FloatOps F D) :
    (loopConstants 1 (MaxSampleIndexOf SamplesPerPixel)).MaxRenderIndex = 0 ∧
    (runLoop (loopConstants 1 (MaxSampleIndexOf SamplesPerPixel)) [triggerInput]
      startup).GeometryRenderIndex = some 0 ∧
    GlobalTickInRadians ops 0 (loopConstants 1 (MaxSampleIndexOf SamplesPerPixel)).MaxRenderIndex =
      ops.mulF ops.two (ops.divF (ops.ofInt32 0) (ops.ofInt32 0)) := by
  refine ⟨by decide, by decide, ?_⟩
  have h : (loopConstants 1 (MaxSampleIndexOf SamplesPerPixel)).MaxRenderIndex = 0 := by decide
  rw [h]
  rfl

/-- C22 (fails for a trigger that arrives inside a frame): with two frames of
two samples each, the inputs trigger, quiet, quiet, trigger store two frames,
both into ring slot 0; the second one was traced against the geometry
interpolated from render index 1, because rendering activation sets
`CurrentRenderIndex` to 0 and leaves `CurrentSampleIndex` at 1. -/
theorem midframe_trigger_stores_stale_geometry :
    storedGeometry none
      (runLoop (loopConstants 2 1) [triggerInput, quietInput, quietInput, triggerInput]
        startup).Trace = [(0, some 0), (0, some 1)] ∧
    (runLoop (loopConstants 2 1) [triggerInput, quietInput, quietInput]
      startup).CurrentSampleIndex = 1 ∧
    (runLoop (loopConstants 2 1) [triggerInput, quietInput, quietInput]
      startup).GeometryRenderIndex = some 1 ∧
    (renderingActivation triggerInput
      (runLoop (loopConstants 2 1) [triggerInput, quietInput, quietInput]
        startup)).CurrentRenderIndex = 0 := by
  decide

/-- C25 (fails for a group with a zero dimension): on the grid of the program
and the group (128, 8, 0) the function gets past the tests on x and y and
evaluates `1 % 0`; it neither returns a quotient nor reports the
configuration error. -/
theorem SetGroupCountPerGrid_zero_group_dimension :
    SetGroupCountPerGrid TSGridDimensions { x := 128, y := 8, z := 0 } = Outcome.divisionByZero ∧
    SetGroupCountPerGrid TSGridDimensions { x := 128, y := 8, z := 0 } ≠
      Outcome.workloadScalingError ∧
    ∀ q : uint3,
      SetGroupCountPerGrid TSGridDimensions { x := 128, y := 8, z := 0 } ≠ Outcome.returned q := by
  refine ⟨by decide, by decide, ?_⟩
  intro q h
  have h2 : SetGroupCountPerGrid TSGridDimensions { x := 128, y := 8, z := 0 } =
      Outcome.divisionByZero := by decide
  rw [h2] at h
  exact Outcome.noConfusion h

/-- C27: each of the six host copies passes a byte count equal to the capacity
of its destination, so every `memcpy_s` copies; the scene arrays have the
widths of their upload buffers; the chaos-texel host buffer holds
1280 * 720 * 3 * 4 = 11059200 bytes, the width of `L0ChaosTexelsBuffer`; each
host final-frame buffer holds 1280 * 720 * 4 = 3686400 bytes, the width of
`L0FinalFrameBuffer`, in both copy directions; and every size product stays
below 2^32. -/
theorem host_copies_match_destinations :
    (∀ m ∈ hostCopies, m.count = m.destSize ∧ m.copies = true) ∧
    sizeofSpheres = L0SpheresBufferWidth ∧
    sizeofRectangles = L0RectanglesBufferWidth ∧
    sizeofTriangles = L0TrianglesBufferWidth ∧
    HostChaosTexelsBufferSizeInBytes = ChaosTexelCount * 4 ∧
    ChaosTexelCount * 4 = 1280 * 720 * 3 * 4 ∧
    HostChaosTexelsBufferSizeInBytes = 11059200 ∧
    HostChaosTexelsBufferSizeInBytes = L0ChaosTexelsBufferWidth ∧
    HostFinalFrameBufferSizeInBytes = 1280 * 720 * 4 ∧
    HostFinalFrameBufferSizeInBytes = 3686400 ∧
    HostFinalFrameBufferSizeInBytes = L0FinalFrameBufferWidth ∧
    copyStoreFinalFrame.count = copyStoreFinalFrame.destSize ∧
    copyLoadFinalFrame.count = copyLoadFinalFrame.destSize ∧
    sizeofSpheres < 2 ^ 32 ∧ sizeofRectangles < 2 ^ 32 ∧ sizeofTriangles < 2 ^ 32 ∧
    ChaosTexelsDimensions.x * ChaosTexelsDimensions.y * ChaosTexelsDimensions.z * sizeofFloat
      < 2 ^ 32 ∧
    FinalFrameDimensions.x * FinalFrameDimensions.y * BytesPerFinalPixel < 2 ^ 32 ∧
    FinalFrameDimensions.x * FinalFrameDimensions.y * sizeofR8G8B8A8Uint < 2 ^ 32 := by
  decide

/-- Helper: in 32-bit unsigned arithmetic `SamplesPerPixel - 1u` is one less
than a `SamplesPerPixel` of at least 1. -/
theorem MaxSampleIndexOf_succ (spp : Nat) (h1 : 1 ≤ spp) (h2 : spp < 2 ^ 32) :
    MaxSampleIndexOf spp + 1 = spp := by
  unfold MaxSampleIndexOf
  norm_num at h2 ⊢
  omega

/-- C28: `MaxSampleIndex` is `SamplesPerPixel - 1` modulo 2^32, and for every
`SamplesPerPixel` from 1 to 2^32 - 1 a frame started in Rendering mode runs
`MaxSampleIndex + 1` Trace and Accumulate pairs before its Finalize, which is
the `SamplesPerPixel` member of the inline block, equal to the configured
value; as configured both are 3000. -/
theorem passes_per_frame_eq_samples_per_pixel (FrameCount spp : Nat)
    (h1 : 1 ≤ spp) (h2 : spp < 2 ^ 32) (s : LoopState)
    (hR : s.CurrentlyRendering = true) (h0 : s.CurrentSampleIndex = 0)
    (inputs : List LoopInput) (hvis : ∀ x ∈ inputs, x.WindowVisible = true)
    (hlen : inputs.length = spp) :
    (initialSampleConstants spp).MaxSampleIndex = (spp + 2 ^ 32 - 1) % 2 ^ 32 ∧
    (initialSampleConstants spp).SamplesPerPixel = spp ∧
    (initialSampleConstants spp).MaxSampleIndex + 1 = (initialSampleConstants spp).SamplesPerPixel ∧
    renderPasses (runLoop (loopConstants FrameCount (initialSampleConstants spp).MaxSampleIndex)
        inputs s).Trace =
      renderPasses s.Trace ++
        (List.replicate (initialSampleConstants spp).SamplesPerPixel samplePair).flatten ++
        [.RP3GraphicsCommandList] ∧
    ((List.replicate (initialSampleConstants spp).SamplesPerPixel samplePair).flatten).count
      .RP1GraphicsCommandList = spp ∧
    ((List.replicate (initialSampleConstants spp).SamplesPerPixel samplePair).flatten).count
      .RP2GraphicsCommandList = spp ∧
    (initialSampleConstants SamplesPerPixel).SamplesPerPixel = 3000 ∧
    (initialSampleConstants SamplesPerPixel).MaxSampleIndex + 1 = 3000 := by
  have hs := MaxSampleIndexOf_succ spp h1 h2
  have hM : (initialSampleConstants spp).MaxSampleIndex = MaxSampleIndexOf spp := rfl
  have hS : (initialSampleConstants spp).SamplesPerPixel = spp := rfl
  have hk : (loopConstants FrameCount (MaxSampleIndexOf spp)).MaxSampleIndex < 2 ^ 32 - 1 := by
    show MaxSampleIndexOf spp < 2 ^ 32 - 1
    norm_num at h2 ⊢
    omega
  have hlen2 : inputs.length =
      (loopConstants FrameCount (MaxSampleIndexOf spp)).MaxSampleIndex + 1 := by
    show inputs.length = MaxSampleIndexOf spp + 1
    omega
  obtain ⟨-, hp, -⟩ :=
    frame_run_passes (loopConstants FrameCount (MaxSampleIndexOf spp)) hk s hR h0 inputs hvis hlen2
  have hp2 : (loopConstants FrameCount (MaxSampleIndexOf spp)).MaxSampleIndex + 1 = spp := hs
  rw [hp2] at hp
  obtain ⟨c1, c2, -⟩ := count_samplePairs spp
  rw [hM, hS]
  exact ⟨rfl, rfl, hs, hp, c1, c2, by decide, by decide⟩

/-- C28 for two samples per pixel, from the state the trigger leaves. -/
theorem passes_per_frame_eq_samples_per_pixel_witness :
    (renderingActivation triggerInput startup).CurrentlyRendering = true ∧
    (renderingActivation triggerInput startup).CurrentSampleIndex = 0 ∧
    (initialSampleConstants 2).MaxSampleIndex + 1 = (initialSampleConstants 2).SamplesPerPixel ∧
    renderPasses (runLoop (loopConstants 2 (initialSampleConstants 2).MaxSampleIndex)
        [quietInput, quietInput] (renderingActivation triggerInput startup)).Trace =
      renderPasses (renderingActivation triggerInput startup).Trace ++
        (List.replicate (initialSampleConstants 2).SamplesPerPixel samplePair).flatten ++
        [.RP3GraphicsCommandList] :=
  ⟨by decide, by decide,
    (passes_per_frame_eq_samples_per_pixel 2 2 (by decide) (by decide)
      (renderingActivation triggerInput startup) (by decide) (by decide)
      [quietInput, quietInput] (by decide) (by decide)).2.2.1,
    (passes_per_frame_eq_samples_per_pixel 2 2 (by decide) (by decide)
      (renderingActivation triggerInput startup) (by decide) (by decide)
      [quietInput, quietInput] (by decide) (by decide)).2.2.2.1⟩

/-! ## Theorems, part 6: ring bounds, unbounded sample count, presenting iterations -/

/-- Helper: what one iteration does to the sample index, the render index and
the rendering flag, in terms of whether the rendering logic and Finalize run. -/
theorem loopBody_flags (c : LoopConstants) (inp : LoopInput) (s : LoopState) :
    (finalizeRuns c inp s = true ↔
      (renderingActivation inp s).CurrentlyRendering = true ∧
        (if s.CurrentSampleIndex ≤ c.MaxSampleIndex then (s.CurrentSampleIndex + 1) % 2 ^ 32
          else s.CurrentSampleIndex) > c.MaxSampleIndex) ∧
    (loopBody c inp s).CurrentSampleIndex =
      (if (renderingActivation inp s).CurrentlyRendering = true then
        (if finalizeRuns c inp s = true then 0
          else (if s.CurrentSampleIndex ≤ c.MaxSampleIndex then (s.CurrentSampleIndex + 1) % 2 ^ 32
            else s.CurrentSampleIndex))
        else s.CurrentSampleIndex) ∧
    (loopBody c inp s).CurrentRenderIndex =
      (if finalizeRuns c inp s = true then (renderingActivation inp s).CurrentRenderIndex + 1
        else (renderingActivation inp s).CurrentRenderIndex) ∧
    (loopBody c inp s).CurrentlyRendering =
      (if finalizeRuns c inp s = true ∧
          (renderingActivation inp s).CurrentRenderIndex + 1 > c.MaxRenderIndex
        then false else (renderingActivation inp s).CurrentlyRendering) := by
  by_cases hR : renderingRuns inp s = true
  · have hR1 : (renderingActivation inp s).CurrentlyRendering = true := hR
    obtain ⟨a1, -, -, -, -⟩ := renderingActivation_unchanged inp s
    obtain ⟨g1, g2, g3, -, -, -, -, -, -⟩ := updateGeometry_unchanged (renderingActivation inp s)
    obtain ⟨t1, t2, -, -, -, -, -⟩ :=
      traceAndAccumulate_unchanged c (updateGeometry (renderingActivation inp s))
    obtain ⟨u1, -, -⟩ :=
      traceAndAccumulate_changed c (updateGeometry (renderingActivation inp s))
    obtain ⟨f1, f2, f3, -, -, -, -, -⟩ :=
      finalizeFrame_changed c inp (traceAndAccumulate c (updateGeometry (renderingActivation inp s)))
    obtain ⟨p1, p2, p3, -, -, -, -, -⟩ := presentLogic_unchanged c inp
      (finalizeFrame c inp (traceAndAccumulate c (updateGeometry (renderingActivation inp s))))
    rw [g1, a1] at u1
    have hfin : finalizeRuns c inp s = true ↔
        (if s.CurrentSampleIndex ≤ c.MaxSampleIndex then (s.CurrentSampleIndex + 1) % 2 ^ 32
          else s.CurrentSampleIndex) > c.MaxSampleIndex := by
      rw [← u1]
      simp [finalizeRuns, hR]
    simp only [loopBody, renderingLogic, hR1, if_true, true_and]
    rw [p1, p2, p3, f1, f2, f3, t1, t2, g2, g3, u1, hR1]
    refine ⟨hfin, ?_, ?_, ?_⟩
    · by_cases hf : finalizeRuns c inp s = true
      · rw [if_pos hf, if_pos (hfin.mp hf)]
      · rw [if_neg hf, if_neg (fun h => hf (hfin.mpr h))]
    · by_cases hf : finalizeRuns c inp s = true
      · rw [if_pos hf, if_pos (hfin.mp hf)]
      · rw [if_neg hf, if_neg (fun h => hf (hfin.mpr h))]
    · by_cases hf : finalizeRuns c inp s = true
      · by_cases hm : (renderingActivation inp s).CurrentRenderIndex + 1 > c.MaxRenderIndex
        · rw [if_pos ⟨hfin.mp hf, hm⟩, if_pos ⟨hf, hm⟩]
        · rw [if_neg (fun h => hm h.2), if_neg (fun h => hm h.2)]
      · rw [if_neg (fun h => hf (hfin.mpr h.1)), if_neg (fun h => hf h.1)]
  · have hR2 : renderingRuns inp s = false := by simpa using hR
    have hR3 : (renderingActivation inp s).CurrentlyRendering = false := hR2
    obtain ⟨i1, i2, -, -, -⟩ := loopBody_idle c inp s hR2
    obtain ⟨-, -, p3, -, -, -, -, -⟩ := presentLogic_unchanged c inp (renderingActivation inp s)
    have hf : ¬ finalizeRuns c inp s = true := by simp [finalizeRuns, hR2]
    have hlogic : renderingLogic c inp (renderingActivation inp s) = renderingActivation inp s := by
      unfold renderingLogic
      rw [hR3]
      rfl
    have h4 : (loopBody c inp s).CurrentlyRendering = false := by
      unfold loopBody
      rw [hlogic, p3, hR3]
    rw [i1, i2, h4, hR3]
    simp [hf]

/-- Helper: in every run, while rendering the render index is within
`0 .. MaxRenderIndex`, the present index is within `0 .. MaxPresentIndex`, and
every slot stored into or presented from so far was within those bounds. -/
theorem ring_index_invariant (c : LoopConstants) (hMR : 0 ≤ c.MaxRenderIndex)
    (hMP : 0 ≤ c.MaxPresentIndex) (inputs : List LoopInput) :
    ((runLoop c inputs startup).CurrentlyRendering = true →
      0 ≤ (runLoop c inputs startup).CurrentRenderIndex ∧
      (runLoop c inputs startup).CurrentRenderIndex ≤ c.MaxRenderIndex) ∧
    (0 ≤ (runLoop c inputs startup).CurrentPresentIndex ∧
      (runLoop c inputs startup).CurrentPresentIndex ≤ c.MaxPresentIndex) ∧
    (∀ i ∈ storedSlots (runLoop c inputs startup).Trace, 0 ≤ i ∧ i ≤ c.MaxRenderIndex) ∧
    (∀ i ∈ presentedSlots (runLoop c inputs startup).Trace, 0 ≤ i ∧ i ≤ c.MaxPresentIndex) := by
  apply runLoop_invariant c (fun s =>
    (s.CurrentlyRendering = true → 0 ≤ s.CurrentRenderIndex ∧
      s.CurrentRenderIndex ≤ c.MaxRenderIndex) ∧
    (0 ≤ s.CurrentPresentIndex ∧ s.CurrentPresentIndex ≤ c.MaxPresentIndex) ∧
    (∀ i ∈ storedSlots s.Trace, 0 ≤ i ∧ i ≤ c.MaxRenderIndex) ∧
    (∀ i ∈ presentedSlots s.Trace, 0 ≤ i ∧ i ≤ c.MaxPresentIndex))
  · intro inp s ⟨hr, hp, hs, hq⟩
    obtain ⟨a1, a2, -⟩ := renderingActivation_changed inp s
    have ha : (renderingActivation inp s).CurrentlyRendering = true →
        0 ≤ (renderingActivation inp s).CurrentRenderIndex ∧
        (renderingActivation inp s).CurrentRenderIndex ≤ c.MaxRenderIndex := by
      intro h
      by_cases ht : inp.LeftButtonUp = true
      · rw [a1, if_pos ht]
        exact ⟨le_refl 0, hMR⟩
      · rw [a2, if_neg ht] at h
        rw [a1, if_neg ht]
        exact hr h
    obtain ⟨hfin, -, f2, f3⟩ := loopBody_flags c inp s
    obtain ⟨-, r2, -⟩ := loopBody_ring c inp s
    obtain ⟨b1, b2⟩ := loopBody_present c inp s
    refine ⟨?_, ?_, ?_, ?_⟩
    · intro h
      rw [f3] at h
      rw [f2]
      by_cases hf : finalizeRuns c inp s = true
      · obtain ⟨l1, l2⟩ := ha (hfin.mp hf).1
        by_cases hm : (renderingActivation inp s).CurrentRenderIndex + 1 > c.MaxRenderIndex
        · rw [if_pos ⟨hf, hm⟩] at h
          exact absurd h (by decide)
        · rw [if_pos hf]
          constructor <;> omega
      · rw [if_neg (fun x => hf x.1)] at h
        rw [if_neg hf]
        exact ha h
    · rw [b1]
      obtain ⟨p1, p2⟩ := hp
      by_cases hpr : presentRuns c inp s = true
      · rw [if_pos hpr]
        by_cases hw : s.CurrentPresentIndex + 1 > c.MaxPresentIndex
        · rw [if_pos hw]
          exact ⟨le_refl 0, hMP⟩
        · rw [if_neg hw]
          constructor <;> omega
      · rw [if_neg hpr]
        exact ⟨p1, p2⟩
    · intro i hi
      rw [r2, List.mem_append] at hi
      rcases hi with hi | hi
      · exact hs i hi
      · by_cases hf : finalizeRuns c inp s = true
        · rw [if_pos hf, List.mem_singleton] at hi
          rw [hi]
          exact ha (hfin.mp hf).1
        · rw [if_neg hf] at hi
          exact absurd hi (List.not_mem_nil i)
    · intro i hi
      rw [b2, List.mem_append] at hi
      rcases hi with hi | hi
      · exact hq i hi
      · by_cases hpr : presentRuns c inp s = true
        · rw [if_pos hpr, List.mem_singleton] at hi
          rw [hi]
          exact hp
        · rw [if_neg hpr] at hi
          exact absurd hi (List.not_mem_nil i)
  · refine ⟨fun h => absurd h (by decide), ⟨le_refl 0, hMP⟩, ?_, ?_⟩
    · intro i hi
      exact absurd hi (List.not_mem_nil i)
    · intro i hi
      exact absurd hi (List.not_mem_nil i)

/-- C23: for every frame count from 1 to 2^31 - 1, every sample bound and every
sequence of inputs, each slot Finalize has stored into and each slot
presentation has read from lies within `0 .. FinalFrameCount - 1`; and in the
state reached, an iteration that runs Finalize writes at a render index within
those bounds and an iteration that runs the present logic reads at a present
index within those bounds. -/
theorem ring_accesses_in_bounds (n k : Nat) (hn : 1 ≤ n) (hn31 : n < 2 ^ 31)
    (inputs : List LoopInput) :
    (∀ i ∈ storedSlots (runLoop (loopConstants n k) inputs startup).Trace,
      0 ≤ i ∧ i ≤ (n : Int) - 1) ∧
    (∀ i ∈ presentedSlots (runLoop (loopConstants n k) inputs startup).Trace,
      0 ≤ i ∧ i ≤ (n : Int) - 1) ∧
    (∀ inp : LoopInput,
      finalizeRuns (loopConstants n k) inp (runLoop (loopConstants n k) inputs startup) = true →
      0 ≤ (renderingActivation inp
        (runLoop (loopConstants n k) inputs startup)).CurrentRenderIndex ∧
      (renderingActivation inp
        (runLoop (loopConstants n k) inputs startup)).CurrentRenderIndex ≤ (n : Int) - 1) ∧
    (∀ inp : LoopInput,
      presentRuns (loopConstants n k) inp (runLoop (loopConstants n k) inputs startup) = true →
      0 ≤ (runLoop (loopConstants n k) inputs startup).CurrentPresentIndex ∧
      (runLoop (loopConstants n k) inputs startup).CurrentPresentIndex ≤ (n : Int) - 1) := by
  have hR := loopConstants_MaxRenderIndex n k hn31
  have hP := loopConstants_MaxPresentIndex n k hn31
  obtain ⟨h1, h2, h3, h4⟩ := ring_index_invariant (loopConstants n k)
    (by rw [hR]; omega) (by rw [hP]; omega) inputs
  rw [hR] at h1 h3
  rw [hP] at h2 h4
  refine ⟨h3, h4, ?_, fun _ _ => h2⟩
  intro inp hf
  generalize runLoop (loopConstants n k) inputs startup = s at h1 hf ⊢
  obtain ⟨hfin, -, -, -⟩ := loopBody_flags (loopConstants n k) inp s
  obtain ⟨a1, a2, -⟩ := renderingActivation_changed inp s
  have hA := (hfin.mp hf).1
  by_cases ht : inp.LeftButtonUp = true
  · rw [a1, if_pos ht]
    constructor <;> omega
  · rw [a2, if_neg ht] at hA
    rw [a1, if_neg ht]
    exact h1 hA

/-- C23 for the two configured frames, after a trigger and the 6000 iterations
that render both frames. -/
theorem ring_accesses_in_bounds_witness :
    (1 ≤ 2 ∧ 2 < 2 ^ 31) ∧
    (∀ i ∈ storedSlots (runLoop (loopConstants 2 2999)
        (triggerInput :: List.replicate 5999 quietInput) startup).Trace,
      0 ≤ i ∧ i ≤ ((2 : Nat) : Int) - 1) ∧
    (∀ i ∈ presentedSlots (runLoop (loopConstants 2 2999)
        (triggerInput :: List.replicate 5999 quietInput) startup).Trace,
      0 ≤ i ∧ i ≤ ((2 : Nat) : Int) - 1) :=
  ⟨⟨by decide, by decide⟩,
    (ring_accesses_in_bounds 2 2999 (by decide) (by decide)
      (triggerInput :: List.replicate 5999 quietInput)).1,
    (ring_accesses_in_bounds 2 2999 (by decide) (by decide)
      (triggerInput :: List.replicate 5999 quietInput)).2.1⟩

/-- Helper: when `MaxSampleIndex` is 2^32 - 1, a run from a state whose sample
index is a 32-bit value never runs Finalize: the sample index stays a 32-bit
value, nothing is stored, render-pass 3 is never submitted, and Rendering
mode, once on, stays on. -/
theorem unbounded_samples_invariant (c : LoopConstants) (hK : c.MaxSampleIndex = 2 ^ 32 - 1)
    (s : LoopState) (hs : s.CurrentSampleIndex < 2 ^ 32) (rest : List LoopInput) :
    (runLoop c rest s).CurrentSampleIndex < 2 ^ 32 ∧
    (renderPasses (runLoop c rest s).Trace).count .RP3GraphicsCommandList =
      (renderPasses s.Trace).count .RP3GraphicsCommandList ∧
    storedSlots (runLoop c rest s).Trace = storedSlots s.Trace ∧
    (s.CurrentlyRendering = true → (runLoop c rest s).CurrentlyRendering = true) ∧
    (∀ inp : LoopInput, finalizeRuns c inp (runLoop c rest s) = false) := by
  have hstepfin : ∀ (inp : LoopInput) (t : LoopState), t.CurrentSampleIndex < 2 ^ 32 →
      finalizeRuns c inp t = false := by
    intro inp t ht
    obtain ⟨hfin, -, -, -⟩ := loopBody_flags c inp t
    have hle : t.CurrentSampleIndex ≤ c.MaxSampleIndex := by rw [hK]; omega
    rw [if_pos hle] at hfin
    have hlt : (t.CurrentSampleIndex + 1) % 2 ^ 32 < 2 ^ 32 := Nat.mod_lt _ (by norm_num)
    have hno : ¬ finalizeRuns c inp t = true := by
      intro h
      have h2 := (hfin.mp h).2
      rw [hK] at h2
      omega
    simpa using hno
  have hinv := runLoop_invariant c (fun t =>
    t.CurrentSampleIndex < 2 ^ 32 ∧
    (renderPasses t.Trace).count .RP3GraphicsCommandList =
      (renderPasses s.Trace).count .RP3GraphicsCommandList ∧
    storedSlots t.Trace = storedSlots s.Trace ∧
    (s.CurrentlyRendering = true → t.CurrentlyRendering = true)) (by
      intro inp t ⟨h1, h2, h3, h4⟩
      have hf := hstepfin inp t h1
      obtain ⟨-, f1, -, f3⟩ := loopBody_flags c inp t
      obtain ⟨-, r2, r3⟩ := loopBody_ring c inp t
      obtain ⟨-, a2, -⟩ := renderingActivation_changed inp t
      have hle : t.CurrentSampleIndex ≤ c.MaxSampleIndex := by rw [hK]; omega
      have hlt : (t.CurrentSampleIndex + 1) % 2 ^ 32 < 2 ^ 32 := Nat.mod_lt _ (by norm_num)
      rw [hf] at f1 f3 r2 r3
      simp only [Bool.false_eq_true, if_false, false_and, List.append_nil, Nat.add_zero] at f1 f3 r2 r3
      refine ⟨?_, ?_, ?_, ?_⟩
      · rw [f1, if_pos hle]
        split
        · exact hlt
        · exact h1
      · rw [r3, h2]
      · rw [r2, h3]
      · intro hR
        rw [f3, a2]
        split
        · rfl
        · exact h4 hR) rest s ⟨hs, rfl, rfl, fun h => h⟩
  obtain ⟨i1, i2, i3, i4⟩ := hinv
  exact ⟨i1, i2, i3, i4, fun inp => hstepfin inp _ i1⟩

/-- C26: from a state at the start of a frame in Rendering mode, some
continuation of the run submits Finalize exactly when `MaxSampleIndex` is
below 2^32 - 1. Below it, every continuation of `MaxSampleIndex + 1` visible
iterations submits Finalize once. At 2^32 - 1, which is what
`SamplesPerPixel - 1` wraps to for `SamplesPerPixel = 0`, every continuation
keeps the sample index within `MaxSampleIndex`, never runs Finalize, stores
nothing and stays in Rendering mode. -/
theorem finalize_reached_iff_bounded (n K : Nat) (hK : K < 2 ^ 32) (s : LoopState)
    (hR : s.CurrentlyRendering = true) (h0 : s.CurrentSampleIndex = 0) :
    ((∃ rest : List LoopInput,
        (renderPasses (runLoop (loopConstants n K) rest s).Trace).count .RP3GraphicsCommandList ≠
          (renderPasses s.Trace).count .RP3GraphicsCommandList) ↔ K < 2 ^ 32 - 1) ∧
    (K < 2 ^ 32 - 1 → ∀ rest : List LoopInput, (∀ x ∈ rest, x.WindowVisible = true) →
      rest.length = K + 1 →
      (renderPasses (runLoop (loopConstants n K) rest s).Trace).count .RP3GraphicsCommandList =
        (renderPasses s.Trace).count .RP3GraphicsCommandList + 1) ∧
    (K = 2 ^ 32 - 1 → ∀ rest : List LoopInput,
      (runLoop (loopConstants n K) rest s).CurrentSampleIndex ≤ K ∧
      (renderPasses (runLoop (loopConstants n K) rest s).Trace).count .RP3GraphicsCommandList =
        (renderPasses s.Trace).count .RP3GraphicsCommandList ∧
      storedSlots (runLoop (loopConstants n K) rest s).Trace = storedSlots s.Trace ∧
      (runLoop (loopConstants n K) rest s).CurrentlyRendering = true ∧
      (∀ inp : LoopInput,
        finalizeRuns (loopConstants n K) inp (runLoop (loopConstants n K) rest s) = false)) ∧
    MaxSampleIndexOf 0 = 2 ^ 32 - 1 := by
  have hso : s.CurrentSampleIndex < 2 ^ 32 := by rw [h0]; norm_num
  have hfin : K < 2 ^ 32 - 1 → ∀ rest : List LoopInput, (∀ x ∈ rest, x.WindowVisible = true) →
      rest.length = K + 1 →
      (renderPasses (runLoop (loopConstants n K) rest s).Trace).count .RP3GraphicsCommandList =
        (renderPasses s.Trace).count .RP3GraphicsCommandList + 1 := by
    intro hk rest hvis hlen
    obtain ⟨-, hp, -⟩ := frame_run_passes (loopConstants n K) hk s hR h0 rest hvis hlen
    obtain ⟨-, -, c3⟩ := count_samplePairs ((loopConstants n K).MaxSampleIndex + 1)
    rw [hp, List.count_append, List.count_append, c3]
    simp
  have hnever : K = 2 ^ 32 - 1 → ∀ rest : List LoopInput,
      (runLoop (loopConstants n K) rest s).CurrentSampleIndex ≤ K ∧
      (renderPasses (runLoop (loopConstants n K) rest s).Trace).count .RP3GraphicsCommandList =
        (renderPasses s.Trace).count .RP3GraphicsCommandList ∧
      storedSlots (runLoop (loopConstants n K) rest s).Trace = storedSlots s.Trace ∧
      (runLoop (loopConstants n K) rest s).CurrentlyRendering = true ∧
      (∀ inp : LoopInput,
        finalizeRuns (loopConstants n K) inp (runLoop (loopConstants n K) rest s) = false) := by
    intro hk rest
    obtain ⟨i1, i2, i3, i4, i5⟩ := unbounded_samples_invariant (loopConstants n K) hk s hso rest
    exact ⟨by omega, i2, i3, i4 hR, i5⟩
  refine ⟨⟨?_, ?_⟩, hfin, hnever, by decide⟩
  · intro ⟨rest, hne⟩
    by_contra hk
    exact hne (hnever (by omega) rest).2.1
  · intro hk
    refine ⟨List.replicate (K + 1) quietInput, ?_⟩
    rw [hfin hk (List.replicate (K + 1) quietInput)
      (fun x hx => by rw [List.eq_of_mem_replicate hx]; rfl) (List.length_replicate _ _)]
    omega

/-- C26 for two samples per frame, from the state the trigger leaves: the two
iterations that follow submit Finalize once. -/
theorem finalize_reached_iff_bounded_witness :
    (1 < 2 ^ 32 ∧ (renderingActivation triggerInput startup).CurrentlyRendering = true ∧
      (renderingActivation triggerInput startup).CurrentSampleIndex = 0) ∧
    (1 < 2 ^ 32 - 1 → ∀ rest : List LoopInput, (∀ x ∈ rest, x.WindowVisible = true) →
      rest.length = 1 + 1 →
      (renderPasses (runLoop (loopConstants 2 1) rest
        (renderingActivation triggerInput startup)).Trace).count .RP3GraphicsCommandList =
        (renderPasses (renderingActivation triggerInput startup).Trace).count
          .RP3GraphicsCommandList + 1) :=
  ⟨⟨by decide, by decide, by decide⟩,
    (finalize_reached_iff_bounded 2 1 (by decide) (renderingActivation triggerInput startup)
      (by decide) (by decide)).2.1⟩

/-- Helper: the scene after a trace in two parts is the scene after the
second part, started from the scene after the first. -/
theorem sceneAfter_append {F D : Type} (ops : FloatOps F D) (c : LoopConstants) :
    ∀ (xs ys : List Action) (scene : Scene F),
      sceneAfter ops c scene (xs ++ ys) = sceneAfter ops c (sceneAfter ops c scene xs) ys := by
  intro xs
  induction xs with
  | nil => intro ys scene; rfl
  | cons a as ih =>
    intro ys scene
    cases a <;> simp [sceneAfter, ih]

/-- C30: in a state reached by the loop with `CurrentlyPresenting` set, an
iteration without a trigger changes the present index and appends the four
present actions to the trace, and nothing else: the render index, the sample
index, both mode flags, the geometry and the scene arrays and every slot of
the ring are as before; the iteration reads slot `CurrentPresentIndex` and
stores into no slot. -/
theorem presenting_iteration_changes_only_present_index {F D : Type} (ops : FloatOps F D)
    (scene : Scene F) (c : LoopConstants) (inputs : List LoopInput) (inp : LoopInput)
    (hP : (runLoop c inputs startup).CurrentlyPresenting = true)
    (hno : inp.LeftButtonUp = false) :
    loopBody c inp (runLoop c inputs startup) =
      { runLoop c inputs startup with
        CurrentPresentIndex :=
          if (runLoop c inputs startup).CurrentPresentIndex + 1 > c.MaxPresentIndex then 0
          else (runLoop c inputs startup).CurrentPresentIndex + 1
        Trace := (runLoop c inputs startup).Trace ++
          [ Action.LoadFinalFrame (runLoop c inputs startup).CurrentPresentIndex,
            Action.ExecuteCommandLists .PresentGraphicsCommandList
              (PresentCommands inp.BackBufferIndex),
            Action.SwapChainPresent,
            Action.FlushCommandQueue ] } ∧
    (loopBody c inp (runLoop c inputs startup)).CurrentRenderIndex =
      (runLoop c inputs startup).CurrentRenderIndex ∧
    (loopBody c inp (runLoop c inputs startup)).CurrentSampleIndex =
      (runLoop c inputs startup).CurrentSampleIndex ∧
    (loopBody c inp (runLoop c inputs startup)).CurrentlyRendering = false ∧
    (loopBody c inp (runLoop c inputs startup)).CurrentlyPresenting = true ∧
    (runLoop c inputs startup).CurrentlyRendering = false ∧
    (loopBody c inp (runLoop c inputs startup)).GeometryRenderIndex =
      (runLoop c inputs startup).GeometryRenderIndex ∧
    sceneAfter ops c scene (loopBody c inp (runLoop c inputs startup)).Trace =
      sceneAfter ops c scene (runLoop c inputs startup).Trace ∧
    (loopBody c inp (runLoop c inputs startup)).HostFinalFrameBuffers =
      (runLoop c inputs startup).HostFinalFrameBuffers ∧
    storedSlots (loopBody c inp (runLoop c inputs startup)).Trace =
      storedSlots (runLoop c inputs startup).Trace ∧
    presentedSlots (loopBody c inp (runLoop c inputs startup)).Trace =
      presentedSlots (runLoop c inputs startup).Trace ++
        [(runLoop c inputs startup).CurrentPresentIndex] := by
  have hmode := rendering_eq_not_presenting c inputs
  generalize runLoop c inputs startup = s at hP hmode ⊢
  have hR : s.CurrentlyRendering = false := by rw [hmode, hP]; rfl
  have hbody : loopBody c inp s =
      { s with
        CurrentPresentIndex :=
          if s.CurrentPresentIndex + 1 > c.MaxPresentIndex then 0 else s.CurrentPresentIndex + 1
        Trace := s.Trace ++
          [ Action.LoadFinalFrame s.CurrentPresentIndex,
            Action.ExecuteCommandLists .PresentGraphicsCommandList
              (PresentCommands inp.BackBufferIndex),
            Action.SwapChainPresent,
            Action.FlushCommandQueue ] } := by
    have ha : renderingActivation inp s = s := by simp [renderingActivation, hno]
    have hl : renderingLogic c inp s = s := by simp [renderingLogic, hR]
    unfold loopBody
    rw [ha, hl]
    simp [presentLogic, hP]
  rw [hbody]
  refine ⟨rfl, rfl, rfl, hR, hP, hR, rfl, ?_, rfl, ?_, ?_⟩
  · show sceneAfter ops c scene (s.Trace ++ _) = _
    rw [sceneAfter_append]
    rfl
  · show storedSlots (s.Trace ++ _) = _
    rw [storedSlots_append]
    simp [storedSlots]
  · show presentedSlots (s.Trace ++ _) = _
    rw [presentedSlots_append]
    simp [presentedSlots]

/-- C30 at startup, which is in Presenting mode: a quiet iteration moves the
present index from 0 to 1 and reads slot 0. -/
theorem presenting_iteration_changes_only_present_index_witness :
    (runLoop configuredConstants [] startup).CurrentlyPresenting = true ∧
    quietInput.LeftButtonUp = false ∧
    (loopBody configuredConstants quietInput
      (runLoop configuredConstants [] startup)).CurrentRenderIndex =
      (runLoop configuredConstants [] startup).CurrentRenderIndex ∧
    sceneAfter integerOps configuredConstants { Spheres := [], Rectangles := [], Triangles := [] }
        (loopBody configuredConstants quietInput (runLoop configuredConstants [] startup)).Trace =
      sceneAfter integerOps configuredConstants { Spheres := [], Rectangles := [], Triangles := [] }
        (runLoop configuredConstants [] startup).Trace :=
  ⟨by decide, by decide,
    (presenting_iteration_changes_only_present_index integerOps
      { Spheres := [], Rectangles := [], Triangles := [] } configuredConstants [] quietInput
      (by decide) (by decide)).2.1,
    (presenting_iteration_changes_only_present_index integerOps
      { Spheres := [], Rectangles := [], Triangles := [] } configuredConstants [] quietInput
      (by decide) (by decide)).2.2.2.2.2.2.2.1⟩

/-! ## Theorems, part 7: the interpolation step -/

/-- Helper: the step on a sphere reads no current field, so a step after
another step, with any tick, is the later step alone. -/
theorem interpolateSphere_absorbs {F D : Type} (ops : FloatOps F D) (tick tick2 : F) :
    interpolateSphere ops tick ∘ interpolateSphere ops tick2 = interpolateSphere ops tick := by
  funext s
  rfl

/-- Helper: the step on a rectangle absorbs an earlier step. -/
theorem interpolateRectangle_absorbs {F D : Type} (ops : FloatOps F D) (tick tick2 : F) :
    interpolateRectangle ops tick ∘ interpolateRectangle ops tick2 =
      interpolateRectangle ops tick := by
  funext r
  rfl

/-- Helper: the step on a triangle absorbs an earlier step. -/
theorem interpolateTriangle_absorbs {F D : Type} (ops : FloatOps F D) (tick tick2 : F) :
    interpolateTriangle ops tick ∘ interpolateTriangle ops tick2 =
      interpolateTriangle ops tick := by
  funext t
  rfl

/-- Helper: a relation between each element of a list and its image under a
map holds along the two lists when it holds for every element. -/
theorem forall2_map_self {α β : Type} (R : α → β → Prop) (f : α → β) (l : List α)
    (h : ∀ a, R a (f a)) : List.Forall₂ R l (l.map f) := by
  induction l with
  | nil => exact List.Forall₂.nil
  | cons a as ih => exact List.Forall₂.cons (h a) ih

/-- C24: the interpolation step, run with tick `GlobalTickInRadians`, sets each
current component of every sphere, rectangle and triangle to
`LinearInterpolation(t, start, end)` of the same field and component of the
same object, with the one `t = GlobalTickInRadians / 2.0f` throughout; and in
the loop a geometry update runs the step with the tick of line 1226, when the
sample index is 0. -/
theorem interpolation_sets_current_fields {F D : Type} (ops : FloatOps F D) (tick : F)
    (scene : Scene F) (c : LoopConstants) (s : LoopState) :
    List.Forall₂ (fun (a b : Sphere F) =>
        b.WSOrigin.x = LinearInterpolation ops (ops.divF tick ops.two)
          a.WSOriginStart.x a.WSOriginEnd.x ∧
        b.WSOrigin.y = LinearInterpolation ops (ops.divF tick ops.two)
          a.WSOriginStart.y a.WSOriginEnd.y ∧
        b.WSOrigin.z = LinearInterpolation ops (ops.divF tick ops.two)
          a.WSOriginStart.z a.WSOriginEnd.z ∧
        b.WSRadius = LinearInterpolation ops (ops.divF tick ops.two)
          a.WSRadiusStart a.WSRadiusEnd ∧
        b.Color.x = LinearInterpolation ops (ops.divF tick ops.two) a.ColorStart.x a.ColorEnd.x ∧
        b.Color.y = LinearInterpolation ops (ops.divF tick ops.two) a.ColorStart.y a.ColorEnd.y ∧
        b.Color.z = LinearInterpolation ops (ops.divF tick ops.two) a.ColorStart.z a.ColorEnd.z ∧
        b.MaterialScalar = LinearInterpolation ops (ops.divF tick ops.two)
          a.MaterialScalarStart a.MaterialScalarEnd)
      scene.Spheres (interpolateScene ops tick scene).Spheres ∧
    List.Forall₂ (fun (a b : Rectangle F) =>
        b.Q1.x = LinearInterpolation ops (ops.divF tick ops.two) a.Q1Start.x a.Q1End.x ∧
        b.Q1.y = LinearInterpolation ops (ops.divF tick ops.two) a.Q1Start.y a.Q1End.y ∧
        b.Q1.z = LinearInterpolation ops (ops.divF tick ops.two) a.Q1Start.z a.Q1End.z ∧
        b.Q2.x = LinearInterpolation ops (ops.divF tick ops.two) a.Q2Start.x a.Q2End.x ∧
        b.Q2.y = LinearInterpolation ops (ops.divF tick ops.two) a.Q2Start.y a.Q2End.y ∧
        b.Q2.z = LinearInterpolation ops (ops.divF tick ops.two) a.Q2Start.z a.Q2End.z ∧
        b.Q3.x = LinearInterpolation ops (ops.divF tick ops.two) a.Q3Start.x a.Q3End.x ∧
        b.Q3.y = LinearInterpolation ops (ops.divF tick ops.two) a.Q3Start.y a.Q3End.y ∧
        b.Q3.z = LinearInterpolation ops (ops.divF tick ops.two) a.Q3Start.z a.Q3End.z ∧
        b.Q4.x = LinearInterpolation ops (ops.divF tick ops.two) a.Q4Start.x a.Q4End.x ∧
        b.Q4.y = LinearInterpolation ops (ops.divF tick ops.two) a.Q4Start.y a.Q4End.y ∧
        b.Q4.z = LinearInterpolation ops (ops.divF tick ops.two) a.Q4Start.z a.Q4End.z ∧
        b.Color.x = LinearInterpolation ops (ops.divF tick ops.two) a.ColorStart.x a.ColorEnd.x ∧
        b.Color.y = LinearInterpolation ops (ops.divF tick ops.two) a.ColorStart.y a.ColorEnd.y ∧
        b.Color.z = LinearInterpolation ops (ops.divF tick ops.two) a.ColorStart.z a.ColorEnd.z ∧
        b.MaterialScalar = LinearInterpolation ops (ops.divF tick ops.two)
          a.MaterialScalarStart a.MaterialScalarEnd)
      scene.Rectangles (interpolateScene ops tick scene).Rectangles ∧
    List.Forall₂ (fun (a b : Triangle F) =>
        b.V1.x = LinearInterpolation ops (ops.divF tick ops.two) a.V1Start.x a.V1End.x ∧
        b.V1.y = LinearInterpolation ops (ops.divF tick ops.two) a.V1Start.y a.V1End.y ∧
        b.V1.z = LinearInterpolation ops (ops.divF tick ops.two) a.V1Start.z a.V1End.z ∧
        b.V2.x = LinearInterpolation ops (ops.divF tick ops.two) a.V2Start.x a.V2End.x ∧
        b.V2.y = LinearInterpolation ops (ops.divF tick ops.two) a.V2Start.y a.V2End.y ∧
        b.V2.z = LinearInterpolation ops (ops.divF tick ops.two) a.V2Start.z a.V2End.z ∧
        b.V3.x = LinearInterpolation ops (ops.divF tick ops.two) a.V3Start.x a.V3End.x ∧
        b.V3.y = LinearInterpolation ops (ops.divF tick ops.two) a.V3Start.y a.V3End.y ∧
        b.V3.z = LinearInterpolation ops (ops.divF tick ops.two) a.V3Start.z a.V3End.z ∧
        b.Color.x = LinearInterpolation ops (ops.divF tick ops.two) a.ColorStart.x a.ColorEnd.x ∧
        b.Color.y = LinearInterpolation ops (ops.divF tick ops.two) a.ColorStart.y a.ColorEnd.y ∧
        b.Color.z = LinearInterpolation ops (ops.divF tick ops.two) a.ColorStart.z a.ColorEnd.z ∧
        b.MaterialScalar = LinearInterpolation ops (ops.divF tick ops.two)
          a.MaterialScalarStart a.MaterialScalarEnd)
      scene.Triangles (interpolateScene ops tick scene).Triangles ∧
    sceneAfter ops c scene (updateGeometry s).Trace =
      (if s.CurrentSampleIndex = 0 then
        interpolateScene ops (GlobalTickInRadians ops s.CurrentRenderIndex c.MaxRenderIndex)
          (sceneAfter ops c scene s.Trace)
        else sceneAfter ops c scene s.Trace) := by
  refine ⟨?_, ?_, ?_, ?_⟩
  · exact forall2_map_self _ _ _
      (fun a => ⟨rfl, rfl, rfl, rfl, rfl, rfl, rfl, rfl⟩)
  · exact forall2_map_self _ _ _
      (fun a => ⟨rfl, rfl, rfl, rfl, rfl, rfl, rfl, rfl, rfl, rfl, rfl, rfl, rfl, rfl, rfl, rfl⟩)
  · exact forall2_map_self _ _ _
      (fun a => ⟨rfl, rfl, rfl, rfl, rfl, rfl, rfl, rfl, rfl, rfl, rfl, rfl, rfl⟩)
  · rw [updateGeometry_trace, sceneAfter_append]
    by_cases h0 : s.CurrentSampleIndex = 0
    · rw [if_pos h0, if_pos h0]
      rfl
    · rw [if_neg h0, if_neg h0]
      rfl

/-- C29: the interpolation step leaves every start field, every end field and
the three identifiers of every sphere, rectangle and triangle as they were;
its result on an object is the same whatever the current fields of the object
held before; and running the step after an earlier step, with the same or
another tick, gives the scene of the later step alone, so running it twice
with one tick gives the same scene as running it once. -/
theorem interpolation_changes_only_current {F D : Type} (ops : FloatOps F D) (tick tick2 : F)
    (scene : Scene F) :
    List.Forall₂ (fun (a b : Sphere F) =>
        b.WSOriginStart = a.WSOriginStart ∧ b.WSOriginEnd = a.WSOriginEnd ∧
        b.WSRadiusStart = a.WSRadiusStart ∧ b.WSRadiusEnd = a.WSRadiusEnd ∧
        b.ColorStart = a.ColorStart ∧ b.ColorEnd = a.ColorEnd ∧
        b.MaterialScalarStart = a.MaterialScalarStart ∧
        b.MaterialScalarEnd = a.MaterialScalarEnd ∧
        b.PrimitiveId = a.PrimitiveId ∧ b.ObjectId = a.ObjectId ∧ b.MaterialId = a.MaterialId)
      scene.Spheres (interpolateScene ops tick scene).Spheres ∧
    List.Forall₂ (fun (a b : Rectangle F) =>
        b.Q1Start = a.Q1Start ∧ b.Q1End = a.Q1End ∧ b.Q2Start = a.Q2Start ∧ b.Q2End = a.Q2End ∧
        b.Q3Start = a.Q3Start ∧ b.Q3End = a.Q3End ∧ b.Q4Start = a.Q4Start ∧ b.Q4End = a.Q4End ∧
        b.ColorStart = a.ColorStart ∧ b.ColorEnd = a.ColorEnd ∧
        b.MaterialScalarStart = a.MaterialScalarStart ∧
        b.MaterialScalarEnd = a.MaterialScalarEnd ∧
        b.PrimitiveId = a.PrimitiveId ∧ b.ObjectId = a.ObjectId ∧ b.MaterialId = a.MaterialId)
      scene.Rectangles (interpolateScene ops tick scene).Rectangles ∧
    List.Forall₂ (fun (a b : Triangle F) =>
        b.V1Start = a.V1Start ∧ b.V1End = a.V1End ∧ b.V2Start = a.V2Start ∧ b.V2End = a.V2End ∧
        b.V3Start = a.V3Start ∧ b.V3End = a.V3End ∧
        b.ColorStart = a.ColorStart ∧ b.ColorEnd = a.ColorEnd ∧
        b.MaterialScalarStart = a.MaterialScalarStart ∧
        b.MaterialScalarEnd = a.MaterialScalarEnd ∧
        b.PrimitiveId = a.PrimitiveId ∧ b.ObjectId = a.ObjectId ∧ b.MaterialId = a.MaterialId)
      scene.Triangles (interpolateScene ops tick scene).Triangles ∧
    (∀ (a : Sphere F) (o col : float3 F) (r m : F),
      interpolateSphere ops tick
          { a with WSOrigin := o, WSRadius := r, Color := col, MaterialScalar := m } =
        interpolateSphere ops tick a) ∧
    (∀ (a : Rectangle F) (q1 q2 q3 q4 col : float3 F) (m : F),
      interpolateRectangle ops tick
          { a with Q1 := q1, Q2 := q2, Q3 := q3, Q4 := q4, Color := col, MaterialScalar := m } =
        interpolateRectangle ops tick a) ∧
    (∀ (a : Triangle F) (v1 v2 v3 col : float3 F) (m : F),
      interpolateTriangle ops tick
          { a with V1 := v1, V2 := v2, V3 := v3, Color := col, MaterialScalar := m } =
        interpolateTriangle ops tick a) ∧
    interpolateScene ops tick (interpolateScene ops tick2 scene) =
      interpolateScene ops tick scene ∧
    interpolateScene ops tick (interpolateScene ops tick scene) =
      interpolateScene ops tick scene := by
  have habs : ∀ t2 : F, interpolateScene ops tick (interpolateScene ops t2 scene) =
      interpolateScene ops tick scene := by
    intro t2
    simp only [interpolateScene, List.map_map, interpolateSphere_absorbs,
      interpolateRectangle_absorbs, interpolateTriangle_absorbs]
  refine ⟨?_, ?_, ?_, ?_, ?_, ?_, habs tick2, habs tick⟩
  · exact forall2_map_self _ _ _
      (fun a => ⟨rfl, rfl, rfl, rfl, rfl, rfl, rfl, rfl, rfl, rfl, rfl⟩)
  · exact forall2_map_self _ _ _
      (fun a => ⟨rfl, rfl, rfl, rfl, rfl, rfl, rfl, rfl, rfl, rfl, rfl, rfl, rfl, rfl, rfl⟩)
  · exact forall2_map_self _ _ _
      (fun a => ⟨rfl, rfl, rfl, rfl, rfl, rfl, rfl, rfl, rfl, rfl, rfl, rfl, rfl⟩)
  · intro a o col r m
    rfl
  · intro a q1 q2 q3 q4 col m
    rfl
  · intro a v1 v2 v3 col m
    rfl

end UnnamedRenderer
